import Mathlib

set_option maxHeartbeats 1000000
set_option maxRecDepth 4000

/-!
Shallow embedding of the glTF import core of the USD-Fileformat-plugins
repository (src/gltf/src/gltfImport.cpp) in Lean 4, over exact rational
arithmetic in place of IEEE doubles/floats.  The embedding follows the
source function by function; external library calls (pxr Gf math,
std math, base64 decoding) and repository helpers whose sources are not
available are modelled either as parameters of an explicit `Ext` record
of external functions, or as definitions whose doc comments start with
"Modelled from the spec:".
-/

/-- 2-component vector (GfVec2f / GfVec2d). -/
structure Vec2 where
  x : ℚ
  y : ℚ
deriving DecidableEq, Repr, Inhabited

/-- 3-component vector (GfVec3f / GfVec3d). -/
structure Vec3 where
  x : ℚ
  y : ℚ
  z : ℚ
deriving DecidableEq, Repr, Inhabited

/-- 4-component vector (GfVec4f / GfVec4d). -/
structure Vec4 where
  x : ℚ
  y : ℚ
  z : ℚ
  w : ℚ
deriving DecidableEq, Repr, Inhabited

/-- Quaternion (GfQuatf / GfQuatd), real part first as in the Gf constructors. -/
structure Quat where
  re : ℚ
  i : ℚ
  j : ℚ
  k : ℚ
deriving DecidableEq, Repr, Inhabited

/-- 4x4 matrix (GfMatrix4d), row-major list of 16 entries. -/
structure Mat4 where
  entries : List ℚ
deriving DecidableEq, Repr, Inhabited

/-- The identity matrix GfMatrix4d(1). -/
def mat4Id : Mat4 :=
  { entries := [1,0,0,0, 0,1,0,0, 0,0,1,0, 0,0,0,1] }

/-- tinygltf::Value, the dynamically typed JSON payload used for glTF
extensions and extras.  REAL and INT are distinct types as in tinygltf. -/
inductive Json where
  | null
  | boolVal (b : Bool)
  | intVal (i : Int)
  | realVal (r : ℚ)
  | strVal (s : String)
  | arrVal (xs : List Json)
  | objVal (fields : List (String × Json))
deriving Inhabited, Repr

namespace Json

/-- tinygltf::Value::IsObject. -/
def isObject : Json → Bool
  | .objVal _ => true
  | _ => false

/-- tinygltf::Value::IsArray. -/
def isArray : Json → Bool
  | .arrVal _ => true
  | _ => false

/-- tinygltf::Value::IsInt. -/
def isInt : Json → Bool
  | .intVal _ => true
  | _ => false

/-- tinygltf::Value::IsNumber (true for REAL and INT values). -/
def isNumber : Json → Bool
  | .intVal _ => true
  | .realVal _ => true
  | _ => false

/-- tinygltf::Value::IsString. -/
def isString : Json → Bool
  | .strVal _ => true
  | _ => false

/-- tinygltf::Value::GetNumberAsDouble. -/
def numberAsDouble : Json → ℚ
  | .intVal i => (i : ℚ)
  | .realVal r => r
  | _ => 0

/-- tinygltf::Value::GetNumberAsInt (double values are truncated toward zero). -/
def numberAsInt : Json → Int
  | .intVal i => i
  | .realVal r => r.num.tdiv (r.den : Int)
  | _ => 0

/-- tinygltf::Value::Get(key): member lookup on objects, a null value
when the key is missing or the value is not an object. -/
def get : Json → String → Json
  | .objVal fields, key =>
      match fields.find? (fun kv => kv.fst == key) with
      | some kv => kv.snd
      | none => .null
  | _, _ => .null

/-- tinygltf::Value::Get(idx) for arrays. -/
def getIdx : Json → Nat → Json
  | .arrVal xs, i => xs.getD i .null
  | _, _ => .null

/-- tinygltf::Value::ArrayLen. -/
def arrayLen : Json → Nat
  | .arrVal xs => xs.length
  | _ => 0

/-- tinygltf::Value::Keys (object member names, in order). -/
def keys : Json → List String
  | .objVal fields => fields.map Prod.fst
  | _ => []

end Json

/-- tinygltf::ExtensionMap (extension name to payload). -/
abbrev ExtensionMap := List (String × Json)

/-- std::map::find on an extension map, as an option. -/
def emFind (em : ExtensionMap) (key : String) : Option Json :=
  match em.find? (fun kv => kv.fst == key) with
  | some kv => some kv.snd
  | none => none

/-- tinygltf::TextureInfo with tinygltf defaults. -/
structure TextureInfo where
  index : Int := -1
  texCoord : Int := 0
  extras : Json := .null
  extensions : ExtensionMap := []
deriving Inhabited, Repr

/-- tinygltf::NormalTextureInfo with tinygltf defaults. -/
structure NormalTextureInfo where
  index : Int := -1
  texCoord : Int := 0
  scale : ℚ := 1
  extras : Json := .null
  extensions : ExtensionMap := []
deriving Inhabited, Repr

/-- tinygltf::OcclusionTextureInfo with tinygltf defaults. -/
structure OcclusionTextureInfo where
  index : Int := -1
  texCoord : Int := 0
  strength : ℚ := 1
  extensions : ExtensionMap := []
deriving Inhabited, Repr

/-- tinygltf::PbrMetallicRoughness with tinygltf defaults. -/
structure PbrMetallicRoughness where
  baseColorFactor : List ℚ := [1, 1, 1, 1]
  baseColorTexture : TextureInfo := {}
  metallicFactor : ℚ := 1
  roughnessFactor : ℚ := 1
  metallicRoughnessTexture : TextureInfo := {}
deriving Inhabited, Repr

/-- tinygltf::Material with tinygltf defaults. -/
structure GMaterial where
  name : String := ""
  extensions : ExtensionMap := []
  pbrMetallicRoughness : PbrMetallicRoughness := {}
  emissiveTexture : TextureInfo := {}
  emissiveFactor : List ℚ := [0, 0, 0]
  normalTexture : NormalTextureInfo := {}
  occlusionTexture : OcclusionTextureInfo := {}
  alphaMode : String := "OPAQUE"
  alphaCutoff : ℚ := 1/2
  doubleSided : Bool := false
deriving Inhabited, Repr

/-- TINYGLTF_TYPE_VEC4. -/
def TYPE_VEC4 : Nat := 4
/-- TINYGLTF_TYPE_MAT4. -/
def TYPE_MAT4 : Nat := 36

/-- Modelled from the spec: a glTF accessor together with the decoded
contents of the buffer region it references.  The repository reads
accessor data through helpers (getAccessorElementCount, readAccessorInts,
readAccessorData, readAccessorDataToFloat in gltfUtils) whose sources are
not available; the spec treats buffer data as already resident in memory,
so the accessor carries its decoded integer and float payloads directly. -/
structure GAccessor where
  count : Nat := 0
  type : Nat := 0
  intData : List Int := []
  floatData : List ℚ := []
deriving Inhabited, Repr

/-- tinygltf::Primitive. -/
structure GPrimitive where
  attributes : List (String × Int) := []
  indices : Int := -1
  material : Int := -1
  mode : Int := 4
deriving Inhabited, Repr

/-- tinygltf::Mesh. -/
structure GMesh where
  name : String := ""
  primitives : List GPrimitive := []
deriving Inhabited, Repr

/-- tinygltf::Node with tinygltf defaults. -/
structure GNode where
  name : String := ""
  children : List Int := []
  translation : List ℚ := []
  rotation : List ℚ := []
  scale : List ℚ := []
  matrix : List ℚ := []
  camera : Int := -1
  light : Int := -1
  mesh : Int := -1
  skin : Int := -1
  extensions : ExtensionMap := []
deriving Inhabited, Repr

/-- tinygltf::Scene (only the fields the importer reads). -/
structure GScene where
  nodes : List Int := []
deriving Inhabited, Repr

/-- tinygltf::Skin. -/
structure GSkin where
  name : String := ""
  joints : List Int := []
  inverseBindMatrices : Int := -1
  skeleton : Int := -1
deriving Inhabited, Repr

/-- tinygltf::AnimationChannel. -/
structure AnimChannel where
  sampler : Int := -1
  targetNode : Int := -1
  targetPath : String := ""
deriving Inhabited, Repr

/-- tinygltf::AnimationSampler. -/
structure AnimSampler where
  input : Int := -1
  output : Int := -1
  interpolation : String := "LINEAR"
deriving Inhabited, Repr

/-- tinygltf::Animation. -/
structure GAnimation where
  name : String := ""
  channels : List AnimChannel := []
  samplers : List AnimSampler := []
deriving Inhabited, Repr

/-- tinygltf::Texture. -/
structure GTexture where
  sampler : Int := -1
  source : Int := -1
  extensions : ExtensionMap := []
deriving Inhabited, Repr

/-- tinygltf::Sampler with tinygltf defaults (REPEAT wrap). -/
structure GSampler where
  wrapS : Int := 10497
  wrapT : Int := 10497
  minFilter : Int := -1
  magFilter : Int := -1
deriving Inhabited, Repr

/-- tinygltf::Image (decoded pixel payload modelled as raw bytes). -/
structure GImage where
  name : String := ""
  uri : String := ""
  mimeType : String := ""
  image : List Nat := []
deriving Inhabited, Repr

/-- tinygltf::PerspectiveCamera fields read by the importer. -/
structure GPerspective where
  aspectRatio : ℚ := 0
  yfov : ℚ := 0
  znear : ℚ := 0
  zfar : ℚ := 0
deriving Inhabited, Repr

/-- tinygltf::OrthographicCamera fields read by the importer. -/
structure GOrthographic where
  xmag : ℚ := 0
  ymag : ℚ := 0
  znear : ℚ := 0
  zfar : ℚ := 0
deriving Inhabited, Repr

/-- tinygltf::Camera. -/
structure GCamera where
  name : String := ""
  type : String := "perspective"
  perspective : GPerspective := {}
  orthographic : GOrthographic := {}
deriving Inhabited, Repr

/-- tinygltf::SpotLight fields read by the importer. -/
structure GSpot where
  innerConeAngle : ℚ := 0
  outerConeAngle : ℚ := 0
deriving Inhabited, Repr

/-- tinygltf::Light. -/
structure GLight where
  name : String := ""
  color : List ℚ := [1, 1, 1]
  intensity : ℚ := 1
  type : String := ""
  spot : GSpot := {}
deriving Inhabited, Repr

/-- tinygltf::Asset (fields read by importMetadata). -/
structure GAsset where
  version : String := "2.0"
  generator : String := ""
  copyright : String := ""
  extras : Json := .null
deriving Inhabited, Repr

/-- tinygltf::Buffer (only the uri is read by importGltf). -/
structure GBuffer where
  uri : String := ""
deriving Inhabited, Repr

/-- tinygltf::Model: the parsed glTF document handed to importGltf. -/
structure GModel where
  asset : GAsset := {}
  scenes : List GScene := []
  nodes : List GNode := []
  meshes : List GMesh := []
  materials : List GMaterial := []
  skins : List GSkin := []
  animations : List GAnimation := []
  accessors : List GAccessor := []
  textures : List GTexture := []
  samplers : List GSampler := []
  images : List GImage := []
  cameras : List GCamera := []
  lights : List GLight := []
  buffers : List GBuffer := []
  extensionsUsed : List String := []
  extensionsRequired : List String := []
deriving Inhabited, Repr

/-- The AdobeTokens used for texture channels, wrap modes, filters and
color spaces in the canonical Input representation (common.h). -/
inductive Tok where
  | r
  | g
  | b
  | a
  | rgb
  | repeatWrap
  | clamp
  | mirror
  | linear
  | nearest
  | linearMipmapLinear
  | linearMipmapNearest
  | nearestMipmapNearest
  | nearestMipmapLinear
  | raw
  | sRGB
deriving DecidableEq, Repr, Inhabited

/-- VtValue as used for Input.value: empty, a float, a GfVec3f or a GfVec4f. -/
inductive GfValue where
  | empty
  | floatVal (v : ℚ)
  | vec3 (v : Vec3)
  | vec4 (v : Vec4)
deriving DecidableEq, Repr, Inhabited

/-- VtValue::IsEmpty. -/
def GfValue.isEmpty : GfValue → Bool
  | .empty => true
  | _ => false

/-- Modelled from the spec: the canonical material channel Input
(declared in the repository's usdData.h, which is not available).  It is
either texture-backed (valid image index) or constant-backed (non-empty
value) or unset; texture reads carry channel selection, color space, UV
transform and a post-sample scale and bias (§3 of the spec).  Numeric
defaults follow the identity transform the importer assumes when it
leaves a field untouched. -/
structure Input where
  image : Int := -1
  value : GfValue := .empty
  uvIndex : Int := 0
  wrapS : Option Tok := none
  wrapT : Option Tok := none
  minFilter : Option Tok := none
  magFilter : Option Tok := none
  channel : Option Tok := none
  colorspace : Option Tok := none
  uvRotation : ℚ := 0
  uvScale : Vec2 := { x := 1, y := 1 }
  uvTranslation : Vec2 := { x := 0, y := 0 }
  scale : Vec4 := { x := 1, y := 1, z := 1, w := 1 }
  bias : Vec4 := { x := 0, y := 0, z := 0, w := 0 }
deriving DecidableEq, Repr, Inhabited

/-- Modelled from the spec: the canonical Material record (usdData.h is
not available): a named bundle of canonical Input channels plus scalar
flags (§3 of the spec).  Field names follow the member names used by
gltfImport.cpp. -/
structure Material where
  displayName : String := ""
  diffuseColor : Input := {}
  opacity : Input := {}
  metallic : Input := {}
  roughness : Input := {}
  ior : Input := {}
  specularLevel : Input := {}
  specularColor : Input := {}
  anisotropyLevel : Input := {}
  anisotropyAngle : Input := {}
  clearcoat : Input := {}
  clearcoatRoughness : Input := {}
  clearcoatNormal : Input := {}
  clearcoatSpecular : Input := {}
  clearcoatIor : Input := {}
  clearcoatColor : Input := {}
  sheenColor : Input := {}
  sheenRoughness : Input := {}
  transmission : Input := {}
  absorptionColor : Input := {}
  absorptionDistance : Input := {}
  volumeThickness : Input := {}
  scatteringColor : Input := {}
  scatteringDistance : Input := {}
  scatteringDistanceScale : Input := {}
  emissiveColor : Input := {}
  opacityThreshold : Input := {}
  normal : Input := {}
  normalScale : Input := {}
  occlusion : Input := {}
  isUnlit : Bool := false
  clearcoatModelsTransmissionTint : Bool := false
deriving DecidableEq, Repr, Inhabited

/-- Image formats recognized by importImage. -/
inductive ImageFormat where
  | png
  | jpg
  | webp
  | unknownFormat
deriving DecidableEq, Repr, Inhabited

/-- The canonical image record produced by UsdData::addImage. -/
structure UImage where
  name : String := ""
  uri : String := ""
  format : ImageFormat := .unknownFormat
  image : List Nat := []
deriving DecidableEq, Repr, Inhabited

/-- A per-vertex primvar (values plus interpolation token). -/
structure Primvar (α : Type) where
  values : List α := []
  interpolation : String := ""
deriving DecidableEq, Repr, Inhabited

/-- The canonical mesh record produced by UsdData::addMesh, holding the
fields importMeshes writes. -/
structure UMesh where
  displayName : String := ""
  points : List Vec3 := []
  normals : Primvar Vec3 := {}
  tangents : Primvar Vec4 := {}
  bitangents : Primvar Vec3 := {}
  uvs : Primvar Vec2 := {}
  extraUVSets : List (Primvar Vec2) := []
  indices : List Int := []
  faces : List Int := []
  joints : List Int := []
  weights : List ℚ := []
  influenceCount : Int := 0
  isRigid : Bool := true
  material : Int := -1
  doubleSided : Bool := false
  colorSets : List (Primvar Vec3) := []
  opacitySets : List (Primvar ℚ) := []
  instanceable : Bool := false
deriving DecidableEq, Repr, Inhabited

/-- A pair of parallel time / value arrays (TimeValues of T). -/
structure TimeValues (α : Type) where
  times : List ℚ := []
  values : List α := []
deriving DecidableEq, Repr, Inhabited

/-- Per-node per-track animation curves (NodeAnimation). -/
structure NodeAnimation where
  translations : TimeValues Vec3 := {}
  rotations : TimeValues Quat := {}
  scales : TimeValues Vec3 := {}
deriving DecidableEq, Repr, Inhabited

/-- The dense resampled per-skeleton per-track animation (SkeletonAnimation):
one shared time axis and, for every time point, one value per animated joint. -/
structure SkeletonAnimation where
  times : List ℚ := []
  rotations : List (List Quat) := []
  translations : List (List Vec3) := []
  scales : List (List Vec3) := []
deriving DecidableEq, Repr, Inhabited

/-- Neural-graphics-primitive payload.  importNgpExtension decodes the
payload through base64 / half-float helpers that are external to this
core; the decoded payload is kept abstract as its source Json. -/
structure NgpData where
  raw : Json := .null
deriving Inhabited, Repr

/-- The canonical node record (§3 of the spec), holding the fields
the node traversal and the animation importers write. -/
structure UNode where
  name : String := ""
  displayName : String := ""
  parent : Int := -1
  children : List Int := []
  translation : Vec3 := { x := 0, y := 0, z := 0 }
  rotation : Quat := { re := 0, i := 0, j := 0, k := 0 }
  scale : Vec3 := { x := 1, y := 1, z := 1 }
  transform : Mat4 := mat4Id
  hasTransform : Bool := false
  camera : Int := -1
  light : Int := -1
  staticMeshes : List Int := []
  ngp : Int := -1
  isJoint : Bool := false
  animations : List NodeAnimation := []
deriving Inhabited, Repr

/-- The canonical skeleton record (§3 of the spec). -/
structure Skeleton where
  displayName : String := ""
  joints : List String := []
  jointNames : List String := []
  restTransforms : List Mat4 := []
  bindTransforms : List Mat4 := []
  parent : Int := -1
  meshSkinningTargets : List Int := []
  animatedJoints : List String := []
  skeletonAnimations : List SkeletonAnimation := []
deriving Inhabited, Repr

/-- The canonical animation track record (AnimationTrack). -/
structure AnimationTrack where
  displayName : String := ""
  minTime : ℚ := 2 ^ 128
  maxTime : ℚ := -(2 ^ 128)
  hasTimepoints : Bool := false
deriving DecidableEq, Repr, Inhabited

/-- Projection kinds of the canonical camera. -/
inductive Projection where
  | perspective
  | orthographic
deriving DecidableEq, Repr, Inhabited

/-- The canonical camera record, holding the fields importCameras writes.
The GfCamera trigonometry (focal length, apertures) is external pxr math
and is supplied through the Ext record. -/
structure UCamera where
  displayName : String := ""
  projection : Projection := .perspective
  f : ℚ := 0
  fov : ℚ := 0
  aspectRatio : ℚ := 0
  nearZ : ℚ := 0
  farZ : ℚ := 0
  horizontalAperture : ℚ := 0
  verticalAperture : ℚ := 0
deriving DecidableEq, Repr, Inhabited

/-- Light types of the canonical light record. -/
inductive LightType where
  | unknownLight
  | sun
  | sphere
  | disk
deriving DecidableEq, Repr, Inhabited

/-- The canonical light record, holding the fields importLights writes. -/
structure ULight where
  displayName : String := ""
  type : LightType := .unknownLight
  color : Vec3 := { x := 1, y := 1, z := 1 }
  intensity : ℚ := 1
  radius : ℚ := 0
  coneAngle : ℚ := 0
  coneFalloff : ℚ := 0
deriving DecidableEq, Repr, Inhabited

/-- The canonical scene aggregate (UsdData) populated by importGltf. -/
structure UsdData where
  doc : String := ""
  upAxis : String := ""
  metersPerUnit : ℚ := 0
  timeCodesPerSecond : ℚ := 0
  metadata : List (String × String) := []
  filenamesMetadata : List String := []
  images : List UImage := []
  materials : List Material := []
  meshes : List UMesh := []
  nodes : List UNode := []
  rootNodes : List Int := []
  skeletons : List Skeleton := []
  animationTracks : List AnimationTrack := []
  cameras : List UCamera := []
  lights : List ULight := []
  ngps : List NgpData := []
  hasAnimations : Bool := false
deriving Inhabited, Repr

/-- Structured diagnostics.  TF_WARN and TF_DEBUG_MSG / TF_RUNTIME_ERROR
calls relevant to the verified claims are recorded as structured values;
the kind distinguishes warnings from debug-channel messages. -/
inductive Diag where
  | warnUsdIndexOutOfBounds (usdIndex : Int)
  | warnAlreadyTraversed (nodeIndex : Int)
  | warnNodeIndexOutOfBounds (nodeIndex : Int)
  | errorNodeMapMissing
  | warnCantMapBaseColor (materialName : String)
  | debugCantTouchClearcoat (materialName : String)
deriving DecidableEq, Repr, Inhabited

/-- Diagnostic kinds: TF_WARN and TF_RUNTIME_ERROR are warnings/errors,
TF_DEBUG_MSG writes to a debug channel only. -/
inductive DiagKind where
  | warning
  | runtimeError
  | debugMsg
deriving DecidableEq, Repr, Inhabited

/-- The kind of each recorded diagnostic, per the macro used in the source. -/
def Diag.kind : Diag → DiagKind
  | .warnUsdIndexOutOfBounds _ => .warning
  | .warnAlreadyTraversed _ => .warning
  | .warnNodeIndexOutOfBounds _ => .warning
  | .errorNodeMapMissing => .runtimeError
  | .warnCantMapBaseColor _ => .warning
  | .debugCantTouchClearcoat _ => .debugMsg

/-- External collaborators: pxr Gf math, std floating point math,
and repository helpers whose sources are not available (specular/glossiness
conversion in gltfSpecGloss, anisotropy handling in gltfAnisotropy, NGP
payload decoding).  Every import function that needs one of these takes
this record as a parameter, so all theorems hold for every behavior of
the external collaborators. -/
structure ExtM where
  /-- The double constant rad2deg = 180/pi from common.cpp (external). -/
  rad2degConst : ℚ := 0
  /-- GLTF_DIRECTIONAL_LIGHT_INTENSITY_MULT (gltfImport.h, not available). -/
  glDirectionalLightMult : ℚ := 1
  /-- GLTF_POINT_LIGHT_INTENSITY_MULT (gltfImport.h, not available). -/
  glPointLightMult : ℚ := 1
  /-- GLTF_SPOT_LIGHT_INTENSITY_MULT (gltfImport.h, not available). -/
  glSpotLightMult : ℚ := 1
  /-- DEFAULT_POINT_LIGHT_RADIUS (gltfImport.h, not available). -/
  defaultPointLightRadius : ℚ := 1
  /-- DEFAULT_SPOT_LIGHT_RADIUS (gltfImport.h, not available). -/
  defaultSpotLightRadius : ℚ := 1
  /-- The double constant M_PI (external). -/
  piConst : ℚ := 0
  /-- GfMatrix4d(GfRotation(quat), translation). -/
  mat4FromRotTrans : Quat → Vec3 → Mat4 := fun _ _ => mat4Id
  /-- GfMatrix4d::GetInverse. -/
  mat4Inverse : Mat4 → Mat4 := fun m => m
  /-- std::sqrt on doubles (GfSqrt). -/
  sqrtQ : ℚ → ℚ := fun _ => 0
  /-- std::log on doubles. -/
  logQ : ℚ → ℚ := fun _ => 0
  /-- Linear interpolation between two Vec3 samples at parameter t. -/
  lerpVec3 : Vec3 → Vec3 → ℚ → Vec3 := fun v _ _ => v
  /-- Spherical interpolation between two quaternion samples at parameter t. -/
  slerpQuat : Quat → Quat → ℚ → Quat := fun q _ _ => q
  /-- GfCamera focal length after SetPerspectiveFromAspectRatioAndFieldOfView. -/
  cameraFocalPersp : ℚ → ℚ → ℚ := fun _ _ => 0
  /-- GfCamera focal length after SetOrthographicFromAspectRatioAndSize. -/
  cameraFocalOrtho : ℚ → ℚ → ℚ := fun _ _ => 0
  /-- GfCamera::GetHorizontalAperture of the configured camera. -/
  cameraHorizAperture : GCamera → ℚ := fun _ => 0
  /-- GfCamera::GetVerticalAperture of the configured camera. -/
  cameraVertAperture : GCamera → ℚ := fun _ => 0
  /-- The garbage value obtained by dereferencing the end iterator of an
  extension map (undefined behavior in the C++ source, modelled as an
  unspecified Json value). -/
  endDerefValue : Json := .null
  /-- translateSpecularGlossinessToMetallicRoughness (gltfSpecGloss.h, not
  available): converts diffuse/specular-glossiness/opacity inputs and the
  alpha mode into (diffuseColor, opacity, metallic, roughness). -/
  specGlossTranslate : Input → Input → Input → String → Input × Input × Input × Input :=
    fun d o _ _ => (d, o, {}, {})
  /-- importAnisotropyData / importAnisotropyTexture (gltfAnisotropy.h, not
  available): given the material extensions and the current material, yields
  the new (anisotropyLevel, anisotropyAngle, roughness) channels.  Modelled
  from the spec: anisotropy handling touches only these channels. -/
  anisotropy : ExtensionMap → Material → Input × Input × Input :=
    fun _ m => (m.anisotropyLevel, m.anisotropyAngle, m.roughness)
  /-- importNgpExtension payload decoding (base64 / half-float helpers are
  external); the payload is kept abstract. -/
  importNgp : Json → NgpData := fun j => { raw := j }

/-- A default external-collaborator record, used by concrete witnesses. -/
def extDefault : ExtM := {}

/-- Generic association-list update with std::map operator[] semantics:
overwrite the existing entry or append a new one. -/
def alistSet {κ α : Type} [BEq κ] : List (κ × α) → κ → α → List (κ × α)
  | [], k, v => [(k, v)]
  | kv :: rest, k, v => if kv.fst == k then (k, v) :: rest else kv :: alistSet rest k v

/-- Generic association-list lookup (std::map::find). -/
def alistFind {κ α : Type} [BEq κ] (m : List (κ × α)) (k : κ) : Option α :=
  match m.find? (fun kv => kv.fst == k) with
  | some kv => some kv.snd
  | none => none

/-- Options controlling importGltf (ImportGltfOptions); the importer reads
the stage toggles and the bitangent switch. -/
structure ImportGltfOptions where
  importGeometry : Bool := true
  importMaterials : Bool := true
  computeBitangents : Bool := false
deriving DecidableEq, Repr, Inhabited

/-- The conversion context (ImportGltfContext) threaded through the import:
the canonical scene being built plus the caches and cross-reference maps. -/
structure Ctx where
  usd : UsdData := {}
  imageMap : List (Int × Int) := []
  usedImageNames : List String := []
  filenames : List String := []
  meshes : List (List Int) := []
  meshUseCount : List Int := []
  nodeMap : List (Int × Int) := []
  parentMap : List (Int × Int) := []
  skeletonNodeNames : List (Int × String) := []
deriving Inhabited

/-- TfGetBaseName: the final path component. -/
def tfGetBaseName (p : String) : String :=
  (p.splitOn "/").getLastD ""

/-- TfGetExtension: the extension of the base name (text after the last
dot), empty when there is none. -/
def tfGetExtension (p : String) : String :=
  let base := tfGetBaseName p
  let parts := base.splitOn "."
  if parts.length ≥ 2 then parts.getLastD "" else ""

/-- TfStringGetBeforeSuffix: everything before the last dot, or the whole
string if it has no dot. -/
def tfStringGetBeforeSuffix (s : String) : String :=
  let parts := s.splitOn "."
  if parts.length ≥ 2 then String.intercalate "." parts.dropLast else s

/-- Modelled from the spec: removeBrackets (a fileformatutils helper whose
source is not available) sanitizes a name by dropping bracket characters. -/
def removeBrackets (s : String) : String :=
  String.mk (s.toList.filter (fun c => c ≠ '[' ∧ c ≠ ']'))

/-- Modelled from the spec: the unique-name enforcer appends a numeric
suffix on collision (§6 of the spec: "deterministic, collision-free short
names ... with a numeric suffix appended on collision"). -/
def enforceUniqueGo (used : List String) (name : String) : Nat → Nat → String
  | 0, _ => name
  | fuel + 1, n =>
      let cand := if n == 0 then name else name ++ "_" ++ toString n
      if used.contains cand then enforceUniqueGo used name fuel (n + 1) else cand

/-- Modelled from the spec: enforceUniqueness of image names. -/
def enforceUnique (used : List String) (name : String) : String :=
  enforceUniqueGo used name (used.length + 1) 0

/-- Digits accumulated into a natural number. -/
def digitsToNat (ds : List Nat) : Nat :=
  ds.foldl (fun a d => a * 10 + d) 0

/-- Leading decimal digits of a character list. -/
def takeDigits : List Char → List Nat × List Char
  | [] => ([], [])
  | c :: rest =>
      if c.isDigit then
        let (ds, r) := takeDigits rest
        ((c.toNat - 48) :: ds, r)
      else ([], c :: rest)

/-- std::stof, modelled for the decimal version strings importMetadata
parses: optional whitespace and sign, then digits with an optional
fractional part; none when no digit can be parsed (std::stof throws). -/
def stofQ (s : String) : Option ℚ :=
  let cs := s.toList.dropWhile (fun c => c == ' ')
  let signAndRest : Bool × List Char :=
    match cs with
    | '-' :: r => (true, r)
    | '+' :: r => (false, r)
    | _ => (false, cs)
  let neg := signAndRest.fst
  let (ip, rest) := takeDigits signAndRest.snd
  match rest with
  | '.' :: r =>
      let (fp, _) := takeDigits r
      if ip.isEmpty ∧ fp.isEmpty then none
      else
        let v : ℚ := (digitsToNat ip : ℚ) + (digitsToNat fp : ℚ) / ((10 : ℚ) ^ fp.length)
        some (if neg then -v else v)
  | _ =>
      if ip.isEmpty then none
      else some (if neg then -(digitsToNat ip : ℚ) else (digitsToNat ip : ℚ))

/-- tinygltf::Value::Get of a string (Get of std::string), empty for
non-string values. -/
def Json.asString : Json → String
  | .strVal s => s
  | _ => ""

/-- tinygltf::Value::Has. -/
def Json.hasKey (j : Json) (key : String) : Bool :=
  match j with
  | .objVal fields => fields.any (fun kv => kv.fst == key)
  | _ => false

/-- importMetadata: version check plus metadata assembly; false aborts the
whole import (gltfImport.cpp lines 59-107). -/
def importMetadata (ctx : Ctx) (g : GModel) : Ctx × Bool :=
  match stofQ g.asset.version with
  | none => (ctx, false)
  | some version =>
      if version < 2 then (ctx, false)
      else
        let extrasPairs :=
          match g.asset.extras with
          | .objVal fields => fields.map (fun kv => (kv.fst, kv.snd.asString))
          | _ => []
        let gltfGenerator :=
          if g.asset.generator ≠ "" then g.asset.generator
          else if g.asset.extras.hasKey "generator" then (g.asset.extras.get "generator").asString
          else ""
        let generator :=
          if gltfGenerator ≠ "" then "Adobe usdGltf 1.0" ++ "; glTF generator: " ++ gltfGenerator
          else "Adobe usdGltf 1.0"
        let md := ctx.usd.metadata ++ extrasPairs ++ [("generator", generator)]
        let md := if g.asset.copyright ≠ "" then md ++ [("copyright", g.asset.copyright)] else md
        ({ ctx with usd := { ctx.usd with metadata := md } }, true)

/-- readDoubleValue (gltfImport.cpp lines 154-163): keep the current value
unless the Json value is a number. -/
def readDoubleValue (v : Json) (cur : ℚ) : ℚ × Bool :=
  if v.isNumber then (v.numberAsDouble, true) else (cur, false)

/-- readDoubleArray (gltfImport.cpp lines 165-180): succeed only on an
array of exactly the expected arity, updating the numeric entries. -/
def readDoubleArray (v : Json) (arr : List ℚ) (size : Nat) : List ℚ × Bool :=
  if v.isArray ∧ v.arrayLen = size then
    ((List.range size).map (fun i =>
        let e := v.getIdx i
        if e.isNumber then e.numberAsDouble else arr.getD i 0), true)
  else (arr, false)

/-- readExtensionMap (gltfImport.cpp lines 182-194). -/
def readExtensionMap (obj : Json) (em : ExtensionMap) : ExtensionMap × Bool :=
  match obj with
  | .objVal _ => (obj.keys.foldl (fun acc key => alistSet acc key (obj.get key)) em, true)
  | _ => (em, false)

/-- readTextureInfo (gltfImport.cpp lines 196-217); on failure the passed
record is left untouched. -/
def readTextureInfo (v : Json) (ti : TextureInfo) : TextureInfo × Bool :=
  if ¬ v.isObject then (ti, false)
  else
    let idxVal := v.get "index"
    if ¬ idxVal.isInt then (ti, false)
    else
      let ti := { ti with index := idxVal.numberAsInt }
      let tcVal := v.get "texCoord"
      let ti := if tcVal.isInt then { ti with texCoord := tcVal.numberAsInt } else ti
      let ti := { ti with extras := v.get "extras" }
      let ti := { ti with extensions := (readExtensionMap (v.get "extensions") ti.extensions).fst }
      (ti, true)

/-- readNormalTextureInfo (gltfImport.cpp lines 219-244). -/
def readNormalTextureInfo (v : Json) (ti : NormalTextureInfo) : NormalTextureInfo × Bool :=
  if ¬ v.isObject then (ti, false)
  else
    let idxVal := v.get "index"
    if ¬ idxVal.isInt then (ti, false)
    else
      let ti := { ti with index := idxVal.numberAsInt }
      let tcVal := v.get "texCoord"
      let ti := if tcVal.isInt then { ti with texCoord := tcVal.numberAsInt } else ti
      let scaleVal := v.get "scale"
      let ti := if scaleVal.isNumber then { ti with scale := scaleVal.numberAsDouble } else ti
      let ti := { ti with extras := v.get "extras" }
      let ti := { ti with extensions := (readExtensionMap (v.get "extensions") ti.extensions).fst }
      (ti, true)

/-- importScale1 (gltfImport.cpp lines 246-252). -/
def importScale1 (input : Input) (factor : ℚ) : Input :=
  if factor ≠ 1 then { input with scale := { x := factor, y := factor, z := factor, w := factor } }
  else input

/-- importScale3 (gltfImport.cpp lines 254-260); the factor pointer reads
three doubles. -/
def importScale3 (input : Input) (factor : List ℚ) (mult : ℚ := 1) : Input :=
  let f0 := factor.getD 0 0
  let f1 := factor.getD 1 0
  let f2 := factor.getD 2 0
  if f0 ≠ 1 ∨ f1 ≠ 1 ∨ f2 ≠ 1 ∨ mult ≠ 1 then
    { input with scale := { x := mult * f0, y := mult * f1, z := mult * f2, w := mult } }
  else input

/-- importValue1 (gltfImport.cpp lines 262-266). -/
def importValue1 (input : Input) (value : ℚ) : Input :=
  { input with value := .floatVal value }

/-- importValue3 (gltfImport.cpp lines 268-272). -/
def importValue3 (input : Input) (value : List ℚ) (mult : ℚ := 1) : Input :=
  { input with value := .vec3 { x := mult * value.getD 0 0
                              , y := mult * value.getD 1 0
                              , z := mult * value.getD 2 0 } }

/-- isInputUsed (gltfImport.cpp lines 274-278): a channel is used iff it
has a valid image index or a non-empty constant value. -/
def isInputUsed (input : Input) : Bool :=
  input.image ≥ 0 ∨ ¬ input.value.isEmpty

/-- importWebPTextureSource (gltfImport.cpp lines 280-292). -/
def importWebPTextureSource (extensions : ExtensionMap) : Option Int :=
  match emFind extensions "EXT_texture_webp" with
  | some webpExt =>
      let sourceVal := webpExt.get "source"
      if sourceVal.isInt then some sourceVal.numberAsInt else none
  | none => none

/-- importImage (gltfImport.cpp lines 294-362): texture-to-image cache,
image record creation and format detection.  Returns the new context and
the canonical image index (-1 on failure; failure paths leave the
reserved image slot and the -1 cache entry behind, as in the source). -/
def importImage (ctx : Ctx) (g : GModel) (textureIndex : Int)
    (materialName imageName : String) : Ctx × Int :=
  if textureIndex < 0 ∨ textureIndex ≥ (g.textures.length : Int) then (ctx, -1)
  else
    match alistFind ctx.imageMap textureIndex with
    | some cached => (ctx, cached)
    | none =>
      let ctx := { ctx with imageMap := alistSet ctx.imageMap textureIndex (-1) }
      let usdImageIndex : Int := (ctx.usd.images.length : Int)
      let ctx := { ctx with usd := { ctx.usd with images := ctx.usd.images ++ [({} : UImage)] } }
      let texture := g.textures.getD textureIndex.toNat {}
      let imageIndex :=
        if texture.source < 0 then
          match importWebPTextureSource texture.extensions with
          | some s => s
          | none => texture.source
        else texture.source
      if imageIndex < 0 then (ctx, -1)
      else
        -- the source indexes gltf->images without a bounds check here
        let image := g.images.getD imageIndex.toNat {}
        let uriStem := tfStringGetBeforeSuffix (tfGetBaseName image.uri)
        let uriExtension := tfGetExtension image.uri
        let ctx := if image.uri ≠ "" then { ctx with filenames := ctx.filenames ++ [image.uri] }
                   else ctx
        let name0 :=
          if image.name ≠ "" then image.name
          else if uriStem ≠ "" then uriStem
          else materialName ++ "_" ++ imageName
        let name1 := removeBrackets name0
        let name2 := enforceUnique ctx.usedImageNames name1
        let ctx := { ctx with usedImageNames := ctx.usedImageNames ++ [name2] }
        let img : UImage := { name := name2, uri := name2 }
        let formatted : Option UImage :=
          if uriExtension = "png" ∨ image.mimeType = "image/png" then
            some { img with format := .png, uri := img.uri ++ ".png" }
          else if uriExtension = "jpg" ∨ uriExtension = "jpeg" ∨ image.mimeType = "image/jpg" ∨
                  image.mimeType = "image/jpeg" then
            some { img with format := .jpg, uri := img.uri ++ ".jpg" }
          else if uriExtension = "webp" ∨ image.mimeType = "image/webp" then
            some { img with format := .webp, uri := img.uri ++ ".webp" }
          else none
        match formatted with
        | none =>
            let ctx := { ctx with usd := { ctx.usd with
              images := ctx.usd.images.set usdImageIndex.toNat img } }
            (ctx, -1)
        | some img =>
            let img := { img with image := image.image }
            let ctx := { ctx with usd := { ctx.usd with
              images := ctx.usd.images.set usdImageIndex.toNat img } }
            let ctx := { ctx with imageMap := alistSet ctx.imageMap textureIndex usdImageIndex }
            (ctx, usdImageIndex)

/-- getMipMapCode (gltfImport.cpp lines 364-383). -/
def getMipMapCode (filter : Int) : Tok :=
  if filter = 9728 then .nearest
  else if filter = 9729 then .linear
  else if filter = 9984 then .nearestMipmapNearest
  else if filter = 9985 then .linearMipmapNearest
  else if filter = 9986 then .nearestMipmapLinear
  else if filter = 9987 then .linearMipmapLinear
  else .linear

/-- importTexture (gltfImport.cpp lines 385-453): sampler wrap/filter
decoding and channel/color-space tagging; the alpha channel is never
color-space tagged. -/
def importTexture (g : GModel) (imageIndex : Int) (textureIndex : Int) (uvIndex : Int)
    (input : Input) (channel : Tok) (colorSpace : Tok) : Input :=
  -- the source indexes gltf->textures and gltf->samplers without bounds checks
  let texture := g.textures.getD textureIndex.toNat {}
  let samplerIndex := texture.sampler
  let input :=
    if samplerIndex ≥ 0 then
      let sampler := g.samplers.getD samplerIndex.toNat {}
      let wrapS := if sampler.wrapS = 10497 then Tok.repeatWrap
                   else if sampler.wrapS = 33071 then Tok.clamp
                   else if sampler.wrapS = 33648 then Tok.mirror
                   else Tok.repeatWrap
      let wrapT := if sampler.wrapT = 10497 then Tok.repeatWrap
                   else if sampler.wrapT = 33071 then Tok.clamp
                   else if sampler.wrapT = 33648 then Tok.mirror
                   else Tok.repeatWrap
      { input with wrapS := some wrapS, wrapT := some wrapT
                 , minFilter := some (getMipMapCode sampler.minFilter)
                 , magFilter := some (getMipMapCode sampler.magFilter) }
    else
      { input with wrapS := some .repeatWrap, wrapT := some .repeatWrap
                 , minFilter := some .linear, magFilter := some .linear }
  let input := { input with image := imageIndex, uvIndex := uvIndex, channel := some channel }
  if channel = .a then input else { input with colorspace := some colorSpace }

/-- importTextureTransform (gltfImport.cpp lines 455-508): KHR_texture_transform
decoding; rotation is converted from radians to degrees using the external
rad2deg double constant. -/
def importTextureTransform (ext : ExtM) (extensions : ExtensionMap) (input : Input) : Input :=
  match emFind extensions "KHR_texture_transform" with
  | none => input
  | some value =>
      let rotation := value.get "rotation"
      let scale := value.get "scale"
      let offset := value.get "offset"
      let input :=
        if rotation.isNumber then
          let rotationValue := rotation.numberAsDouble * ext.rad2degConst
          if rotationValue ≠ 0 then { input with uvRotation := rotationValue } else input
        else input
      let sx := if scale.isArray ∧ scale.arrayLen = 2 then (scale.getIdx 0).numberAsDouble else 1
      let sy := if scale.isArray ∧ scale.arrayLen = 2 then (scale.getIdx 1).numberAsDouble else 1
      let input := if sx ≠ 1 ∨ sy ≠ 1 then { input with uvScale := { x := sx, y := sy } } else input
      let tx := if offset.isArray ∧ offset.arrayLen = 2 then (offset.getIdx 0).numberAsDouble else 0
      let ty := if offset.isArray ∧ offset.arrayLen = 2 then (offset.getIdx 1).numberAsDouble else 0
      if tx ≠ 0 ∨ ty ≠ 0 then { input with uvTranslation := { x := tx, y := ty } } else input

/-- importInput (gltfImport.cpp lines 510-542): single-channel input import;
rejects rgb reads (coding error), always tags the raw color space. -/
def importInput (ext : ExtM) (ctx : Ctx) (g : GModel) (materialName inputName : String)
    (input : Input) (texture : TextureInfo) (channels : Tok)
    (factor : Option ℚ := none) (defaultFactor : ℚ := 0) : Ctx × Input :=
  if channels = .rgb then (ctx, input)
  else if texture.index ≥ 0 then
    let (ctx, imageIndex) := importImage ctx g texture.index materialName inputName
    let input := importTexture g imageIndex texture.index texture.texCoord input channels .raw
    let input := importTextureTransform ext texture.extensions input
    match factor with
    | some f => (ctx, importScale1 input f)
    | none => (ctx, input)
  else
    match factor with
    | some f => if f ≠ defaultFactor then (ctx, importValue1 input f) else (ctx, input)
    | none => (ctx, input)

/-- importColorInput (gltfImport.cpp lines 544-569): rgb color input import,
always tagged sRGB. -/
def importColorInput (ext : ExtM) (ctx : Ctx) (g : GModel) (materialName inputName : String)
    (input : Input) (texture : TextureInfo) (factor : List ℚ)
    (defaultFactor : ℚ := 0) : Ctx × Input :=
  if texture.index ≥ 0 then
    let (ctx, imageIndex) := importImage ctx g texture.index materialName inputName
    let input := importTexture g imageIndex texture.index texture.texCoord input .rgb .sRGB
    let input := importTextureTransform ext texture.extensions input
    (ctx, importScale3 input factor)
  else if factor.getD 0 0 ≠ defaultFactor ∨ factor.getD 1 0 ≠ defaultFactor ∨
          factor.getD 2 0 ≠ defaultFactor then
    (ctx, importValue3 input factor)
  else (ctx, input)

/-- importNormalInput (gltfImport.cpp lines 571-596): normal-map input
import; reads raw rgb and installs the fixed post-sample transform
scale (2s, 2s, 2s, 1) and bias (-s, -s, -s, 0) for strength s. -/
def importNormalInput (ext : ExtM) (ctx : Ctx) (g : GModel) (materialName inputName : String)
    (input : Input) (texture : NormalTextureInfo) : Ctx × Input :=
  if texture.index ≥ 0 then
    let (ctx, imageIndex) := importImage ctx g texture.index materialName inputName
    let input := importTexture g imageIndex texture.index texture.texCoord input .rgb .raw
    let input := importTextureTransform ext texture.extensions input
    let s := texture.scale
    let input := { input with scale := { x := 2 * s, y := 2 * s, z := 2 * s, w := 1 }
                            , bias := { x := -1 * s, y := -1 * s, z := -1 * s, w := 0 } }
    (ctx, input)
  else (ctx, input)

/-- applyInputMultiplier (gltfImport.cpp lines 598-611). -/
def applyInputMultiplier (input : Input) (mult : Vec3) : Input :=
  if input.image ≥ 0 then
    { input with scale := { input.scale with x := input.scale.x * mult.x
                                           , y := input.scale.y * mult.y
                                           , z := input.scale.z * mult.z } }
  else
    match input.value with
    | .vec3 v => { input with value := .vec3 { x := mult.x * v.x, y := mult.y * v.y, z := mult.z * v.z } }
    | _ => { input with value := .vec3 mult }

/-- Clearcoat extension data (gltfImport.cpp lines 613-620). -/
structure Clearcoat where
  factor : ℚ := 0
  texture : TextureInfo := {}
  roughnessFactor : ℚ := 0
  roughnessTexture : TextureInfo := {}
  normalTexture : NormalTextureInfo := {}
deriving Inhabited, Repr

/-- importClearcoat (gltfImport.cpp lines 622-637): KHR_materials_clearcoat. -/
def importClearcoat (extensions : ExtensionMap) (cc : Clearcoat) : Clearcoat × Bool :=
  match emFind extensions "KHR_materials_clearcoat" with
  | none => (cc, false)
  | some coatExt =>
      let cc := { cc with factor := (readDoubleValue (coatExt.get "clearcoatFactor") cc.factor).fst }
      let cc := { cc with texture := (readTextureInfo (coatExt.get "clearcoatTexture") cc.texture).fst }
      let cc := { cc with roughnessFactor :=
        (readDoubleValue (coatExt.get "clearcoatRoughnessFactor") cc.roughnessFactor).fst }
      let cc := { cc with roughnessTexture :=
        (readTextureInfo (coatExt.get "clearcoatRoughnessTexture") cc.roughnessTexture).fst }
      let cc := { cc with normalTexture :=
        (readNormalTextureInfo (coatExt.get "clearcoatNormalTexture") cc.normalTexture).fst }
      (cc, true)

/-- importEmissionStrength (gltfImport.cpp lines 639-649). -/
def importEmissionStrength (extensions : ExtensionMap) (cur : ℚ) : ℚ × Bool :=
  match emFind extensions "KHR_materials_emissive_strength" with
  | none => (cur, false)
  | some e => ((readDoubleValue (e.get "emissiveStrength") cur).fst, true)

/-- importIor (gltfImport.cpp lines 651-660). -/
def importIor (extensions : ExtensionMap) (cur : ℚ) : ℚ × Bool :=
  match emFind extensions "KHR_materials_ior" with
  | none => (cur, false)
  | some e => ((readDoubleValue (e.get "ior") cur).fst, true)

/-- Sheen extension data (gltfImport.cpp lines 662-668). -/
structure Sheen where
  colorFactor : List ℚ := [0, 0, 0]
  colorTexture : TextureInfo := {}
  roughnessFactor : ℚ := 0
  roughnessTexture : TextureInfo := {}
deriving Inhabited, Repr

/-- importSheen (gltfImport.cpp lines 670-684): KHR_materials_sheen. -/
def importSheen (extensions : ExtensionMap) (sh : Sheen) : Sheen × Bool :=
  match emFind extensions "KHR_materials_sheen" with
  | none => (sh, false)
  | some sheenExt =>
      let sh := { sh with colorFactor :=
        (readDoubleArray (sheenExt.get "sheenColorFactor") sh.colorFactor 3).fst }
      let sh := { sh with colorTexture :=
        (readTextureInfo (sheenExt.get "sheenColorTexture") sh.colorTexture).fst }
      let sh := { sh with roughnessFactor :=
        (readDoubleValue (sheenExt.get "sheenRoughnessFactor") sh.roughnessFactor).fst }
      let sh := { sh with roughnessTexture :=
        (readTextureInfo (sheenExt.get "sheenRoughnessTexture") sh.roughnessTexture).fst }
      (sh, true)

/-- Specular extension data (gltfImport.cpp lines 686-692). -/
structure Specular where
  factor : ℚ := 1
  texture : TextureInfo := {}
  colorFactor : List ℚ := [1, 1, 1]
  colorTexture : TextureInfo := {}
deriving Inhabited, Repr

/-- importSpecular (gltfImport.cpp lines 694-708): KHR_materials_specular. -/
def importSpecular (extensions : ExtensionMap) (sp : Specular) : Specular × Bool :=
  match emFind extensions "KHR_materials_specular" with
  | none => (sp, false)
  | some specExt =>
      let sp := { sp with factor := (readDoubleValue (specExt.get "specularFactor") sp.factor).fst }
      let sp := { sp with texture := (readTextureInfo (specExt.get "specularTexture") sp.texture).fst }
      let sp := { sp with colorFactor :=
        (readDoubleArray (specExt.get "specularColorFactor") sp.colorFactor 3).fst }
      let sp := { sp with colorTexture :=
        (readTextureInfo (specExt.get "specularColorTexture") sp.colorTexture).fst }
      (sp, true)

/-- Transmission extension data (gltfImport.cpp lines 710-714). -/
structure Transmission where
  factor : ℚ := 0
  texture : TextureInfo := {}
deriving Inhabited, Repr

/-- importTransmission (gltfImport.cpp lines 716-727): KHR_materials_transmission. -/
def importTransmission (extensions : ExtensionMap) (t : Transmission) : Transmission × Bool :=
  match emFind extensions "KHR_materials_transmission" with
  | none => (t, false)
  | some transExt =>
      let t := { t with factor := (readDoubleValue (transExt.get "transmissionFactor") t.factor).fst }
      let t := { t with texture := (readTextureInfo (transExt.get "transmissionTexture") t.texture).fst }
      (t, true)

/-- Volume extension data (gltfImport.cpp lines 729-736); the importer
defaults attenuationDistance to 0 instead of the glTF infinity default. -/
structure Volume where
  thicknessFactor : ℚ := 0
  thicknessTexture : TextureInfo := {}
  attenuationDistance : ℚ := 0
  attenuationColor : List ℚ := [1, 1, 1]
deriving Inhabited, Repr

/-- importVolume (gltfImport.cpp lines 738-751): KHR_materials_volume. -/
def importVolume (extensions : ExtensionMap) (v : Volume) : Volume × Bool :=
  match emFind extensions "KHR_materials_volume" with
  | none => (v, false)
  | some volumeExt =>
      let v := { v with thicknessFactor :=
        (readDoubleValue (volumeExt.get "thicknessFactor") v.thicknessFactor).fst }
      let v := { v with thicknessTexture :=
        (readTextureInfo (volumeExt.get "thicknessTexture") v.thicknessTexture).fst }
      let v := { v with attenuationDistance :=
        (readDoubleValue (volumeExt.get "attenuationDistance") v.attenuationDistance).fst }
      let v := { v with attenuationColor :=
        (readDoubleArray (volumeExt.get "attenuationColor") v.attenuationColor 3).fst }
      (v, true)

/-- AdobeClearcoatSpecular extension data (gltfImport.cpp lines 753-759). -/
structure AdobeClearcoatSpecular where
  ior : ℚ := 3/2
  factor : ℚ := 1
  texture : TextureInfo := {}
deriving Inhabited, Repr

/-- importAdobeClearcoatSpecular (gltfImport.cpp lines 761-775). -/
def importAdobeClearcoatSpecular (extensions : ExtensionMap)
    (cs : AdobeClearcoatSpecular) : AdobeClearcoatSpecular × Bool :=
  match emFind extensions "ADOBE_materials_clearcoat_specular" with
  | none => (cs, false)
  | some coatExt =>
      let cs := { cs with ior := (readDoubleValue (coatExt.get "clearcoatIor") cs.ior).fst }
      let cs := { cs with factor :=
        (readDoubleValue (coatExt.get "clearcoatSpecularFactor") cs.factor).fst }
      let cs := { cs with texture :=
        (readTextureInfo (coatExt.get "clearcoatSpecularTexture") cs.texture).fst }
      (cs, true)

/-- ClearcoatColor extension data (gltfImport.cpp lines 777-782). -/
structure ClearcoatColor where
  factor : List ℚ := [1, 1, 1]
  texture : TextureInfo := {}
deriving Inhabited, Repr

/-- importClearcoatColor (gltfImport.cpp lines 784-807): the multi-vendor
EXT_materials_clearcoat_color takes priority over ADOBE_materials_clearcoat_tint. -/
def importClearcoatColor (extensions : ExtensionMap) (cc : ClearcoatColor) : ClearcoatColor × Bool :=
  match emFind extensions "EXT_materials_clearcoat_color" with
  | some coatExt =>
      let cc := { cc with factor :=
        (readDoubleArray (coatExt.get "clearcoatColorFactor") cc.factor 3).fst }
      let cc := { cc with texture :=
        (readTextureInfo (coatExt.get "clearcoatColorTexture") cc.texture).fst }
      (cc, true)
  | none =>
      match emFind extensions "ADOBE_materials_clearcoat_tint" with
      | some coatExt =>
          let cc := { cc with factor :=
            (readDoubleArray (coatExt.get "clearcoatTintFactor") cc.factor 3).fst }
          let cc := { cc with texture :=
            (readTextureInfo (coatExt.get "clearcoatTintTexture") cc.texture).fst }
          (cc, true)
      | none => (cc, false)

/-- DiffuseTransmission extension data (gltfImport.cpp lines 809-817). -/
structure DiffuseTransmission where
  factor : ℚ := 0
  texture : TextureInfo := {}
  colorTexture : TextureInfo := {}
  colorFactor : List ℚ := [1, 1, 1]
deriving Inhabited, Repr

/-- importDiffuseTransmission (gltfImport.cpp lines 819-836):
KHR_materials_diffuse_transmission. -/
def importDiffuseTransmission (extensions : ExtensionMap)
    (dt : DiffuseTransmission) : DiffuseTransmission × Bool :=
  match emFind extensions "KHR_materials_diffuse_transmission" with
  | none => (dt, false)
  | some dtExt =>
      let dt := { dt with factor :=
        (readDoubleValue (dtExt.get "diffuseTransmissionFactor") dt.factor).fst }
      let dt := { dt with texture :=
        (readTextureInfo (dtExt.get "diffuseTransmissionTexture") dt.texture).fst }
      let dt := { dt with colorTexture :=
        (readTextureInfo (dtExt.get "diffuseTransmissionColorTexture") dt.colorTexture).fst }
      let dt := { dt with colorFactor :=
        (readDoubleArray (dtExt.get "diffuseTransmissionColorFactor") dt.colorFactor 3).fst }
      (dt, true)

/-- The double +infinity default of the subsurface scatter distance,
represented by a rational sentinel beyond the double range. -/
def doubleInf : ℚ := 2 ^ 1024

/-- Subsurface extension data (gltfImport.cpp lines 838-844). -/
structure Subsurface where
  scatterDistance : ℚ := doubleInf
  scatterColor : List ℚ := [1, 1, 1]
deriving Inhabited, Repr

/-- importSubsurface (gltfImport.cpp lines 846-864): KHR_materials_subsurface,
with KHR_materials_sss accepted as the legacy fallback name. -/
def importSubsurface (extensions : ExtensionMap) (ss : Subsurface) : Subsurface × Bool :=
  let extIt :=
    match emFind extensions "KHR_materials_subsurface" with
    | some e => some e
    | none => emFind extensions "KHR_materials_sss"
  match extIt with
  | none => (ss, false)
  | some sssExt =>
      let ss := { ss with scatterDistance :=
        (readDoubleValue (sssExt.get "scatterDistance") ss.scatterDistance).fst }
      let ss := { ss with scatterColor :=
        (readDoubleArray (sssExt.get "scatterColor") ss.scatterColor 3).fst }
      (ss, true)

/-- VolumeScatter extension data (gltfImport.cpp lines 866-874). -/
structure VolumeScatter where
  scatterAnisotropy : ℚ := 0
  multiscatterColor : List ℚ := [0, 0, 0]
  scatteringDistanceScale : List ℚ := [0, 0, 0]
  scatteringDistance : ℚ := 1
deriving Inhabited, Repr

/-- importVolumeScatter (gltfImport.cpp lines 876-958):
KHR_materials_volume_scatter, deriving single-scattering parameters from
the volume extension's attenuation values via the closed-form fit.

The source contains a slip at lines 887-888: after looking up
KHR_materials_volume into volumeExtIt it tests extIt (the volume-scatter
iterator, necessarily valid at that point) instead of volumeExtIt, so the
branch is always taken and volumeExtIt->second is read even when
volumeExtIt is the end iterator.  That end-iterator dereference is
undefined behavior; it is modelled by reading the unspecified
ext.endDerefValue, and the third component of the result records whether
the end iterator was dereferenced. -/
def importVolumeScatter (ext : ExtM) (em : ExtensionMap)
    (vs : VolumeScatter) : VolumeScatter × Bool × Bool :=
  match emFind em "KHR_materials_volume_scatter" with
  | none => (vs, false, false)
  | some sssExt =>
      let vs := { vs with multiscatterColor :=
        (readDoubleArray (sssExt.get "multiscatterColor") vs.multiscatterColor 3).fst }
      let attenuationDistance : ℚ := 0
      let attenuationColor : List ℚ := [1, 1, 1]
      let volumeExtIt := emFind em "KHR_materials_volume"
      -- if (extIt != extensions.end()) { ... } : the guard is vacuously true
      let derefedEnd := volumeExtIt.isNone
      let volumeExt := volumeExtIt.getD ext.endDerefValue
      let attenuationDistance :=
        (readDoubleValue (volumeExt.get "attenuationDistance") attenuationDistance).fst
      let attenuationColor :=
        (readDoubleArray (volumeExt.get "attenuationColor") attenuationColor 3).fst
      let mc0 := vs.multiscatterColor.getD 0 0
      let mc1 := vs.multiscatterColor.getD 1 0
      let mc2 := vs.multiscatterColor.getD 2 0
      let s0 := 4.09712 + 4.20863 * mc0
      let s1 := 4.09712 + 4.20863 * mc1
      let s2 := 4.09712 + 4.20863 * mc2
      let p0 := 9.59217 + 41.6808 * mc0 + 17.7126 * mc0 * mc0
      let p1 := 9.59217 + 41.6808 * mc1 + 17.7126 * mc1 * mc1
      let p2 := 9.59217 + 41.6808 * mc2 + 17.7126 * mc2 * mc2
      let s0 := s0 - ext.sqrtQ p0
      let s1 := s1 - ext.sqrtQ p1
      let s2 := s2 - ext.sqrtQ p2
      let albedo0 := 1 - s0 * s0
      let albedo1 := 1 - s1 * s1
      let albedo2 := 1 - s2 * s2
      let ec0 := -(ext.logQ (attenuationColor.getD 0 0)) / attenuationDistance
      let ec1 := -(ext.logQ (attenuationColor.getD 1 0)) / attenuationDistance
      let ec2 := -(ext.logQ (attenuationColor.getD 2 0)) / attenuationDistance
      let scatterDistance := max (1 / 1000 : ℚ) attenuationDistance
      let minExtinction := 1 / scatterDistance
      let efs0 := minExtinction
      let efs1 := minExtinction
      let efs2 := minExtinction
      let maxAlbedo := max albedo0 (max albedo1 albedo2)
      let efs :=
        if maxAlbedo > 0 then
          let inverseMaxMultiplier : ℚ := 1 / 1000
          let m20 := max albedo0 (maxAlbedo * inverseMaxMultiplier)
          let m21 := max albedo1 (maxAlbedo * inverseMaxMultiplier)
          let m22 := max albedo2 (maxAlbedo * inverseMaxMultiplier)
          (efs0 * (maxAlbedo / m20), efs1 * (maxAlbedo / m21), efs2 * (maxAlbedo / m22))
        else (efs0, efs1, efs2)
      let sds0 := efs.1 / ec0
      let sds1 := efs.2.1 / ec1
      let sds2 := efs.2.2 / ec2
      let maxScatterDistance := max sds0 (max sds1 sds2)
      let final :=
        if maxScatterDistance > 1 then
          (scatterDistance * maxScatterDistance,
           sds0 / maxScatterDistance, sds1 / maxScatterDistance, sds2 / maxScatterDistance)
        else (scatterDistance, sds0, sds1, sds2)
      let vs := { vs with scatteringDistance := final.1
                        , scatteringDistanceScale := [final.2.1, final.2.2.1, final.2.2.2] }
      (vs, true, derefedEnd)

/-- importUnlit (gltfImport.cpp lines 960-965): KHR_materials_unlit presence. -/
def importUnlit (extensions : ExtensionMap) : Bool :=
  (emFind extensions "KHR_materials_unlit").isSome

/-- The KHR_materials_pbrSpecularGlossiness branch of importMaterials
(gltfImport.cpp lines 983-1070).  The final conversion to
metallic/roughness channel space lives in gltfSpecGloss (not available)
and is supplied by ext.specGlossTranslate. -/
def importMaterialSpecGloss (ext : ExtM) (ctx : Ctx) (g : GModel) (gm : GMaterial)
    (m : Material) (specGlossVal : Json) : Ctx × Material :=
  let diffuseFactorVal := specGlossVal.get "diffuseFactor"
  let specularFactorVal := specGlossVal.get "specularFactor"
  let glossinessFactorVal := specGlossVal.get "glossinessFactor"
  let diffuseTextureVal := specGlossVal.get "diffuseTexture"
  let specGlossTextureVal := specGlossVal.get "specularGlossinessTexture"
  let diffuseFactor :=
    if diffuseFactorVal.isArray then (readDoubleArray diffuseFactorVal [1, 1, 1, 1] 4).fst
    else [1, 1, 1, 1]
  let specularFactor :=
    if specularFactorVal.isArray then (readDoubleArray specularFactorVal [1, 1, 1] 3).fst
    else [1, 1, 1]
  let glossinessFactor :=
    if glossinessFactorVal.isNumber then glossinessFactorVal.numberAsDouble else 1
  let diffuseColor : Input :=
    { value := .vec4 { x := diffuseFactor.getD 0 0, y := diffuseFactor.getD 1 0
                     , z := diffuseFactor.getD 2 0, w := diffuseFactor.getD 3 0 } }
  let specularColor : Input :=
    { value := .vec4 { x := specularFactor.getD 0 0, y := specularFactor.getD 1 0
                     , z := specularFactor.getD 2 0, w := glossinessFactor } }
  let opacity : Input := {}
  let diffuseTextureInfo := (readTextureInfo diffuseTextureVal {}).fst
  let (ctx, diffuseColor, opacity) :=
    if diffuseTextureInfo.index ≥ 0 then
      let (ctx, imageIndex) := importImage ctx g diffuseTextureInfo.index m.displayName "diffuse"
      let diffuseColor := importTexture g imageIndex diffuseTextureInfo.index
        diffuseTextureInfo.texCoord diffuseColor .rgb .sRGB
      let diffuseColor := importTextureTransform ext gm.extensions diffuseColor
      if gm.alphaMode = "BLEND" ∨ gm.alphaMode = "MASK" then
        let opacity := diffuseColor
        let opacity := importTexture g imageIndex diffuseTextureInfo.index
          diffuseTextureInfo.texCoord opacity .a .raw
        let opacity := importScale1 opacity (diffuseFactor.getD 3 0)
        (ctx, diffuseColor, opacity)
      else (ctx, diffuseColor, opacity)
    else (ctx, diffuseColor, opacity)
  let specularTextureInfo := (readTextureInfo specGlossTextureVal {}).fst
  let (ctx, specularColor) :=
    if specularTextureInfo.index ≥ 0 then
      let (ctx, imageIndex) := importImage ctx g specularTextureInfo.index m.displayName "specGloss"
      let specularColor := importTexture g imageIndex specularTextureInfo.index
        specularTextureInfo.texCoord specularColor .rgb .sRGB
      let specularColor := importTextureTransform ext gm.extensions specularColor
      (ctx, specularColor)
    else (ctx, specularColor)
  let res := ext.specGlossTranslate diffuseColor specularColor opacity gm.alphaMode
  (ctx, { m with diffuseColor := res.1, opacity := res.2.1
               , metallic := res.2.2.1, roughness := res.2.2.2 })

/-- The base color and metallic/roughness part of the non-spec-gloss branch
of importMaterials (gltfImport.cpp lines 1072-1133). -/
def importMaterialBase (ext : ExtM) (ctx : Ctx) (g : GModel) (gm : GMaterial)
    (m : Material) : Ctx × Material :=
  let diffuseTexture := gm.pbrMetallicRoughness.baseColorTexture.index
  let mrTexture := gm.pbrMetallicRoughness.metallicRoughnessTexture.index
  let diffuse := gm.pbrMetallicRoughness.baseColorFactor
  let (ctx, m) :=
    if diffuseTexture ≥ 0 then
      let (ctx, imageIndex) := importImage ctx g diffuseTexture m.displayName "diffuse"
      let dc := importTexture g imageIndex diffuseTexture
        gm.pbrMetallicRoughness.baseColorTexture.texCoord m.diffuseColor .rgb .sRGB
      let dc := importScale3 dc diffuse
      let dc := importTextureTransform ext gm.pbrMetallicRoughness.baseColorTexture.extensions dc
      let m := { m with diffuseColor := dc }
      if gm.alphaMode = "BLEND" ∨ gm.alphaMode = "MASK" then
        let op := importTexture g imageIndex diffuseTexture
          gm.pbrMetallicRoughness.baseColorTexture.texCoord m.opacity .a .raw
        let op := importScale1 op (diffuse.getD 3 0)
        let op := { op with uvRotation := dc.uvRotation, uvScale := dc.uvScale
                          , uvTranslation := dc.uvTranslation }
        (ctx, { m with opacity := op })
      else (ctx, m)
    else if diffuse.length ≠ 0 then
      (ctx, { m with diffuseColor := importValue3 m.diffuseColor diffuse
                   , opacity := importValue1 m.opacity (diffuse.getD 3 0) })
    else (ctx, m)
  if mrTexture ≥ 0 then
    let (ctx, imageIndex) := importImage ctx g mrTexture m.displayName "metallicRoughness"
    let rough := importTexture g imageIndex mrTexture
      gm.pbrMetallicRoughness.metallicRoughnessTexture.texCoord m.roughness .g .raw
    let metal := importTexture g imageIndex mrTexture
      gm.pbrMetallicRoughness.metallicRoughnessTexture.texCoord m.metallic .b .raw
    let metal := importScale1 metal gm.pbrMetallicRoughness.metallicFactor
    let rough := importScale1 rough gm.pbrMetallicRoughness.roughnessFactor
    let rough := importTextureTransform ext
      gm.pbrMetallicRoughness.metallicRoughnessTexture.extensions rough
    let metal := { metal with uvRotation := rough.uvRotation, uvScale := rough.uvScale
                            , uvTranslation := rough.uvTranslation }
    (ctx, { m with roughness := rough, metallic := metal })
  else
    (ctx, { m with metallic := importValue1 m.metallic gm.pbrMetallicRoughness.metallicFactor
                 , roughness := importValue1 m.roughness gm.pbrMetallicRoughness.roughnessFactor })

/-- The ior and KHR_materials_specular part of importMaterials
(gltfImport.cpp lines 1135-1157). -/
def importMaterialIorSpec (ext : ExtM) (ctx : Ctx) (g : GModel) (gm : GMaterial)
    (m : Material) : Ctx × Material :=
  let iorRes := importIor gm.extensions (3/2)
  let m := if iorRes.snd then { m with ior := importValue1 m.ior iorRes.fst } else m
  let specRes := importSpecular gm.extensions {}
  if specRes.snd then
    let specular := specRes.fst
    let (ctx, sl) := importInput ext ctx g m.displayName "specularLevel" m.specularLevel
      specular.texture .a (some specular.factor) 1
    let (ctx, sc) := importColorInput ext ctx g m.displayName "specularColor" m.specularColor
      specular.colorTexture specular.colorFactor 1
    (ctx, { m with specularLevel := sl, specularColor := sc })
  else (ctx, m)

/-- The KHR_materials_anisotropy part of importMaterials (gltfImport.cpp
lines 1159-1182).  The anisotropy conversion lives in gltfAnisotropy (not
available) and is supplied by ext.anisotropy, which yields the new
anisotropyLevel / anisotropyAngle / roughness channels. -/
def importMaterialAnisotropyStage (ext : ExtM) (ctx : Ctx) (gm : GMaterial)
    (m : Material) : Ctx × Material :=
  if (emFind gm.extensions "KHR_materials_anisotropy").isSome then
    let res := ext.anisotropy gm.extensions m
    (ctx, { m with anisotropyLevel := res.1, anisotropyAngle := res.2.1, roughness := res.2.2 })
  else (ctx, m)

/-- The clearcoat, clearcoat-specular, clearcoat-color and sheen parts of
importMaterials (gltfImport.cpp lines 1184-1246). -/
def importMaterialCoatSheen (ext : ExtM) (ctx : Ctx) (g : GModel) (gm : GMaterial)
    (m : Material) : Ctx × Material :=
  let ccRes := importClearcoat gm.extensions {}
  let (ctx, m) :=
    if ccRes.snd then
      let clearcoat := ccRes.fst
      let (ctx, cc) := importInput ext ctx g m.displayName "clearcoat" m.clearcoat
        clearcoat.texture .r (some clearcoat.factor)
      let (ctx, ccr) := importInput ext ctx g m.displayName "clearcoatRoughness"
        m.clearcoatRoughness clearcoat.roughnessTexture .g (some clearcoat.roughnessFactor)
      let (ctx, ccn) := importNormalInput ext ctx g m.displayName "clearcoatNormal"
        m.clearcoatNormal clearcoat.normalTexture
      (ctx, { m with clearcoat := cc, clearcoatRoughness := ccr, clearcoatNormal := ccn })
    else (ctx, m)
  let csRes := importAdobeClearcoatSpecular gm.extensions {}
  let (ctx, m) :=
    if csRes.snd then
      let clearcoatSpecular := csRes.fst
      let m := { m with clearcoatIor := importValue1 m.clearcoatIor clearcoatSpecular.ior }
      let (ctx, ccs) := importInput ext ctx g m.displayName "clearcoatSpecular"
        m.clearcoatSpecular clearcoatSpecular.texture .b (some clearcoatSpecular.factor) 1
      (ctx, { m with clearcoatSpecular := ccs })
    else (ctx, m)
  let cccRes := importClearcoatColor gm.extensions {}
  let (ctx, m) :=
    if cccRes.snd then
      let clearcoatColor := cccRes.fst
      let (ctx, ccc) := importColorInput ext ctx g m.displayName "clearcoatColor"
        m.clearcoatColor clearcoatColor.texture clearcoatColor.factor 1
      (ctx, { m with clearcoatColor := ccc })
    else (ctx, m)
  let shRes := importSheen gm.extensions {}
  if shRes.snd then
    let sheen := shRes.fst
    let (ctx, shc) := importColorInput ext ctx g m.displayName "sheenColor" m.sheenColor
      sheen.colorTexture sheen.colorFactor
    let (ctx, shr) := importInput ext ctx g m.displayName "sheenRoughness" m.sheenRoughness
      sheen.roughnessTexture .a (some sheen.roughnessFactor)
    (ctx, { m with sheenColor := shc, sheenRoughness := shr })
  else (ctx, m)

/-- The KHR_materials_transmission part of importMaterials, including the
tinted-transmission-to-clearcoat approximation (gltfImport.cpp lines
1248-1291).  Returns the context, the material, the hasTransmission flag
and the diagnostics this block emits (a TF_WARN when clearcoatColor is in
use, a TF_DEBUG_MSG when the clearcoat lobe is in use). -/
def importMaterialTransmissionBlock (ext : ExtM) (ctx : Ctx) (g : GModel) (gm : GMaterial)
    (m : Material) : Ctx × Material × Bool × List Diag :=
  let tRes := importTransmission gm.extensions {}
  if tRes.snd then
    let transmission := tRes.fst
    let (ctx, t) := importInput ext ctx g m.displayName "transmission" m.transmission
      transmission.texture .r (some transmission.factor)
    let m := { m with transmission := t }
    if isInputUsed m.diffuseColor then
      if ¬ isInputUsed m.clearcoat then
        let m := { m with clearcoat := m.transmission
                        , clearcoatRoughness := m.roughness
                        , clearcoatNormal := m.normal
                        , clearcoatSpecular := m.specularLevel
                        , clearcoatIor := m.ior }
        if ¬ isInputUsed m.clearcoatColor then
          let m := { m with clearcoatColor := m.diffuseColor
                          , clearcoatModelsTransmissionTint := true }
          (ctx, m, true, [])
        else
          (ctx, m, true, [Diag.warnCantMapBaseColor m.displayName])
      else
        (ctx, m, true, [Diag.debugCantTouchClearcoat m.displayName])
    else (ctx, m, true, [])
  else (ctx, m, false, [])

/-- The KHR_materials_diffuse_transmission part of importMaterials
(gltfImport.cpp lines 1293-1319); ignored with a warning when the ratified
transmission extension was present. -/
def importMaterialDiffuseTransmissionBlock (ext : ExtM) (ctx : Ctx) (g : GModel)
    (gm : GMaterial) (m : Material) (hasTransmission : Bool) : Ctx × Material :=
  let dtRes := importDiffuseTransmission gm.extensions {}
  if dtRes.snd then
    if ¬ hasTransmission then
      let diffuseTransmission := dtRes.fst
      let (ctx, t) := importInput ext ctx g m.displayName "transmission" m.transmission
        diffuseTransmission.texture .a (some diffuseTransmission.factor)
      let (ctx, ac) := importColorInput ext ctx g m.displayName "absorptionColor"
        m.absorptionColor diffuseTransmission.colorTexture diffuseTransmission.colorFactor
      (ctx, { m with transmission := t, absorptionColor := ac })
    else (ctx, m)
  else (ctx, m)

/-- The KHR_materials_volume / volume-scatter / subsurface part of
importMaterials (gltfImport.cpp lines 1321-1357). -/
def importMaterialVolumeBlock (ext : ExtM) (ctx : Ctx) (g : GModel) (gm : GMaterial)
    (m : Material) : Ctx × Material :=
  let vRes := importVolume gm.extensions {}
  let (ctx, m) :=
    if vRes.snd ∧ vRes.fst.thicknessFactor > 0 then
      let volume := vRes.fst
      let (ctx, vt) := importInput ext ctx g m.displayName "thickness" m.volumeThickness
        volume.thicknessTexture .g (some volume.thicknessFactor)
      let m := { m with volumeThickness := vt }
      let m := { m with absorptionDistance :=
        (importValue1 m.absorptionDistance volume.attenuationDistance) }
      let mult : Vec3 := { x := volume.attenuationColor.getD 0 0
                         , y := volume.attenuationColor.getD 1 0
                         , z := volume.attenuationColor.getD 2 0 }
      (ctx, { m with absorptionColor := applyInputMultiplier m.absorptionColor mult })
    else (ctx, m)
  let vsRes := importVolumeScatter ext gm.extensions {}
  if vsRes.2.1 then
    let volumeScatter := vsRes.1
    let m := { m with scatteringColor := importValue3 m.scatteringColor volumeScatter.multiscatterColor }
    let m := { m with scatteringDistanceScale :=
      (importValue3 m.scatteringDistanceScale volumeScatter.scatteringDistanceScale) }
    let m := { m with scatteringDistance :=
      (importValue1 m.scatteringDistance volumeScatter.scatteringDistance) }
    let m := { m with absorptionColor := importValue3 m.absorptionColor [1, 1, 1] }
    (ctx, { m with absorptionDistance := importValue1 m.absorptionDistance 0 })
  else
    let ssRes := importSubsurface gm.extensions {}
    if ssRes.snd then
      let subsurface := ssRes.fst
      let m := { m with scatteringDistance :=
        (importValue1 m.scatteringDistance subsurface.scatterDistance) }
      (ctx, { m with scatteringColor := importValue3 m.scatteringColor subsurface.scatterColor })
    else (ctx, m)

/-- The branch-independent tail of importMaterials: unlit/emissive handling,
opacity threshold, normal map and occlusion (gltfImport.cpp lines 1359-1426). -/
def importMaterialCommon (ext : ExtM) (ctx : Ctx) (g : GModel) (gm : GMaterial)
    (m : Material) : Ctx × Material :=
  let unlit := importUnlit gm.extensions
  let emissiveStrength := (importEmissionStrength gm.extensions 1).fst
  let (ctx, m) :=
    if gm.emissiveTexture.index ≥ 0 then
      let (ctx, imageIndex) := importImage ctx g gm.emissiveTexture.index m.displayName "emissive"
      let ec := importTexture g imageIndex gm.emissiveTexture.index gm.emissiveTexture.texCoord
        m.emissiveColor .rgb .sRGB
      let ec := importScale3 ec gm.emissiveFactor emissiveStrength
      let ec := importTextureTransform ext gm.emissiveTexture.extensions ec
      (ctx, { m with emissiveColor := ec })
    else if gm.emissiveFactor.length = 3 ∧
            (gm.emissiveFactor.getD 0 0 > 0 ∨ gm.emissiveFactor.getD 1 0 > 0 ∨
             gm.emissiveFactor.getD 2 0 > 0) then
      (ctx, { m with emissiveColor := importValue3 m.emissiveColor gm.emissiveFactor emissiveStrength })
    else if unlit then
      let m := { m with emissiveColor := m.diffuseColor }
      let m := { m with diffuseColor := importValue3 m.diffuseColor [0, 0, 0] }
      (ctx, { m with isUnlit := true })
    else (ctx, m)
  let m :=
    if gm.alphaMode = "MASK" then
      { m with opacityThreshold := importValue1 m.opacityThreshold gm.alphaCutoff }
    else m
  let (ctx, m) :=
    if gm.normalTexture.index ≥ 0 then
      let (ctx, imageIndex) := importImage ctx g gm.normalTexture.index m.displayName "normal"
      let n := importTexture g imageIndex gm.normalTexture.index gm.normalTexture.texCoord
        m.normal .rgb .raw
      let n := importTextureTransform ext gm.normalTexture.extensions n
      let xyScale := 2 * gm.normalTexture.scale
      let xyBias := -1 * gm.normalTexture.scale
      let n := { n with scale := { x := xyScale, y := xyScale, z := 2, w := 1 }
                      , bias := { x := xyBias, y := xyBias, z := -1, w := 0 } }
      (ctx, { m with normal := n
                   , normalScale := importValue1 m.normalScale gm.normalTexture.scale })
    else (ctx, m)
  if gm.occlusionTexture.index ≥ 0 then
    let (ctx, imageIndex) := importImage ctx g gm.occlusionTexture.index m.displayName "occlusion"
    let oc := importTexture g imageIndex gm.occlusionTexture.index gm.occlusionTexture.texCoord
      m.occlusion .r .raw
    let oc := importScale1 oc gm.occlusionTexture.strength
    let oc := importTextureTransform ext gm.occlusionTexture.extensions oc
    (ctx, { m with occlusion := oc })
  else if gm.occlusionTexture.strength ≠ 1 then
    (ctx, { m with occlusion := importValue1 m.occlusion gm.occlusionTexture.strength })
  else (ctx, m)

/-- One iteration of the importMaterials loop (gltfImport.cpp lines
977-1427): branch on the spec-gloss extension, then the common tail.
Returns the diagnostics emitted by the transmission block. -/
def importOneMaterial (ext : ExtM) (ctx : Ctx) (g : GModel) (i : Nat)
    (gm : GMaterial) : Ctx × Material × List Diag :=
  let m : Material := { displayName := if gm.name = "" then "Material" ++ toString i else gm.name }
  match emFind gm.extensions "KHR_materials_pbrSpecularGlossiness" with
  | some specGlossVal =>
      let (ctx, m) := importMaterialSpecGloss ext ctx g gm m specGlossVal
      let (ctx, m) := importMaterialCommon ext ctx g gm m
      (ctx, m, [])
  | none =>
      let (ctx, m) := importMaterialBase ext ctx g gm m
      let (ctx, m) := importMaterialIorSpec ext ctx g gm m
      let (ctx, m) := importMaterialAnisotropyStage ext ctx gm m
      let (ctx, m) := importMaterialCoatSheen ext ctx g gm m
      let (ctx, m, hasTransmission, diags) := importMaterialTransmissionBlock ext ctx g gm m
      let (ctx, m) := importMaterialDiffuseTransmissionBlock ext ctx g gm m hasTransmission
      let (ctx, m) := importMaterialVolumeBlock ext ctx g gm m
      let (ctx, m) := importMaterialCommon ext ctx g gm m
      (ctx, m, diags)

/-- importMaterials (gltfImport.cpp lines 967-1428): resize the canonical
material array and populate it per source material. -/
def importMaterials (ext : ExtM) (ctx : Ctx) (g : GModel) : Ctx × List Diag :=
  let ctx := { ctx with usd := { ctx.usd with
    materials := List.replicate g.materials.length ({} : Material) } }
  g.materials.enum.foldl
    (fun acc p =>
      let (ctx, diags) := acc
      let (ctx, m, ds) := importOneMaterial ext ctx g p.fst p.snd
      ({ ctx with usd := { ctx.usd with materials := ctx.usd.materials.set p.fst m } },
       diags ++ ds))
    (ctx, [])

/-- Modelled from the spec: getAccessorElementCount (gltfUtils, not
available) returns the element count of a valid accessor index, zero
otherwise. -/
def getAccessorElementCount (g : GModel) (idx : Int) : Nat :=
  if idx < 0 ∨ idx ≥ (g.accessors.length : Int) then 0
  else (g.accessors.getD idx.toNat {}).count

/-- Modelled from the spec: readAccessorInts (gltfUtils, not available)
fills a destination array of the given length with the accessor's
integer data (missing data reads as zero). -/
def readAccessorInts (g : GModel) (idx : Int) (len : Nat) : List Int :=
  let a := if idx < 0 then ({} : GAccessor) else g.accessors.getD idx.toNat {}
  (a.intData ++ List.replicate len 0).take len

/-- Modelled from the spec: readAccessorData / readAccessorDataToFloat
(gltfUtils, not available) fill a destination array of the given scalar
length with the accessor's float data. -/
def readAccessorFloats (g : GModel) (idx : Int) (len : Nat) : List ℚ :=
  let a := if idx < 0 then ({} : GAccessor) else g.accessors.getD idx.toNat {}
  (a.floatData ++ List.replicate len 0).take len

/-- Scalars regrouped into 2-vectors. -/
def chunk2 : List ℚ → List Vec2
  | a :: b :: rest => { x := a, y := b } :: chunk2 rest
  | _ => []

/-- Scalars regrouped into 3-vectors. -/
def chunk3 : List ℚ → List Vec3
  | a :: b :: c :: rest => { x := a, y := b, z := c } :: chunk3 rest
  | _ => []

/-- Scalars regrouped into 4-vectors. -/
def chunk4 : List ℚ → List Vec4
  | a :: b :: c :: d :: rest => { x := a, y := b, z := c, w := d } :: chunk4 rest
  | _ => []

/-- Scalars regrouped into quaternions; glTF stores (x, y, z, w) and the
GfQuatf memory image places the real part last, so the fourth scalar is
the real part. -/
def chunkQuat : List ℚ → List Quat
  | a :: b :: c :: d :: rest => { re := d, i := a, j := b, k := c } :: chunkQuat rest
  | _ => []

/-- Scalars regrouped into 4x4 matrices. -/
def chunk16 : List ℚ → List Mat4
  | x0 :: x1 :: x2 :: x3 :: x4 :: x5 :: x6 :: x7 ::
    x8 :: x9 :: x10 :: x11 :: x12 :: x13 :: x14 :: x15 :: rest =>
      { entries := [x0, x1, x2, x3, x4, x5, x6, x7, x8, x9, x10, x11, x12, x13, x14, x15] }
        :: chunk16 rest
  | _ => []

/-- Vec3 elements of an accessor. -/
def readAccessorVec3s (g : GModel) (idx : Int) (count : Nat) : List Vec3 :=
  chunk3 (readAccessorFloats g idx (3 * count))

/-- Quaternion elements of an accessor. -/
def readAccessorQuats (g : GModel) (idx : Int) (count : Nat) : List Quat :=
  chunkQuat (readAccessorFloats g idx (4 * count))

/-- Modelled from the spec: getPrimitiveAttribute (gltfUtils, not
available) returns the accessor index of a primitive attribute, -1 when
the attribute is absent. -/
def getPrimitiveAttribute (p : GPrimitive) (key : String) : Int :=
  match alistFind p.attributes key with
  | some v => v
  | none => -1

/-- getIndices (gltfImport.cpp lines 1574-1589): authored indices, or
sequential indices synthesized over the vertex count. -/
def getIndices (g : GModel) (indicesIndex : Int) (numVertices : Nat) : List Int :=
  if indicesIndex ≥ 0 then
    readAccessorInts g indicesIndex (getAccessorElementCount g indicesIndex)
  else
    (List.range numVertices).map Int.ofNat

/-- Modelled from the spec: readColor (gltfUtils, not available) reads the
COLOR_0 vertex attribute; a VEC3 accessor yields colors only, a VEC4
accessor also yields per-vertex opacity. -/
def readColor (g : GModel) (p : GPrimitive) : List Vec3 × List ℚ :=
  let ci := getPrimitiveAttribute p "COLOR_0"
  if ci < 0 then ([], [])
  else
    let a := g.accessors.getD ci.toNat {}
    if a.type = 3 then (readAccessorVec3s g ci a.count, [])
    else if a.type = TYPE_VEC4 then
      let raw := chunk4 (readAccessorFloats g ci (4 * a.count))
      (raw.map (fun v => { x := v.x, y := v.y, z := v.z }), raw.map (fun v => v.w))
    else ([], [])

/-- The JOINTS_n attribute keys (gltfImport.cpp lines 1436-1443). -/
def jointIndexKeys : List String :=
  ["JOINTS_0", "JOINTS_1", "JOINTS_2", "JOINTS_3",
   "JOINTS_4", "JOINTS_5", "JOINTS_6", "JOINTS_7"]

/-- The WEIGHTS_n attribute keys (gltfImport.cpp lines 1444-1451). -/
def jointWeightKeys : List String :=
  ["WEIGHTS_0", "WEIGHTS_1", "WEIGHTS_2", "WEIGHTS_3",
   "WEIGHTS_4", "WEIGHTS_5", "WEIGHTS_6", "WEIGHTS_7"]

/-- importMeshJointWeights (gltfImport.cpp lines 1430-1560): validates the
joint/weight accessor sets and interleaves multiple sets into one
contiguous per-vertex block, preserving set order. -/
def importMeshJointWeights (g : GModel) (p : GPrimitive) (mesh : UMesh) : UMesh :=
  let jointsIndices := jointIndexKeys.map (getPrimitiveAttribute p)
  let weightsIndices := jointWeightKeys.map (getPrimitiveAttribute p)
  if jointsIndices.getD 0 (-1) = -1 ∧ weightsIndices.getD 0 (-1) = -1 then mesh
  else
    let numJointSets := 1 + ((jointsIndices.drop 1).takeWhile (fun v => v ≠ -1)).length
    let jointCounts := (List.range numJointSets).map
      (fun i => getAccessorElementCount g (jointsIndices.getD i (-1)))
    let weightCounts := (List.range numJointSets).map
      (fun i => getAccessorElementCount g (weightsIndices.getD i (-1)))
    if jointCounts.getD 0 0 = 0 then mesh
    else
      let accOk := (List.range numJointSets).all (fun i =>
        (jointsIndices.getD i (-1) < 0 ∨
          (jointsIndices.getD i (-1) < (g.accessors.length : Int) ∧
           (g.accessors.getD (jointsIndices.getD i (-1)).toNat {}).type = TYPE_VEC4)) ∧
        (weightsIndices.getD i (-1) < 0 ∨
          (weightsIndices.getD i (-1) < (g.accessors.length : Int) ∧
           (g.accessors.getD (weightsIndices.getD i (-1)).toNat {}).type = TYPE_VEC4)))
      if ¬ accOk then mesh
      else
        let countsOk := (List.range numJointSets).all (fun i =>
          jointCounts.getD i 0 = weightCounts.getD i 0 ∧
          (i = 0 ∨ jointCounts.getD i 0 = jointCounts.getD 0 0))
        if ¬ countsOk then mesh
        else
          let vertexCount := jointCounts.getD 0 0
          let (jointsData, weightsData) :=
            if numJointSets = 1 then
              (readAccessorInts g (jointsIndices.getD 0 (-1)) (vertexCount * numJointSets * 4),
               readAccessorFloats g (weightsIndices.getD 0 (-1)) (vertexCount * numJointSets * 4))
            else
              let js := (List.range numJointSets).map
                (fun i => readAccessorInts g (jointsIndices.getD i (-1)) (vertexCount * 4))
              let ws := (List.range numJointSets).map
                (fun i => readAccessorFloats g (weightsIndices.getD i (-1)) (vertexCount * 4))
              ((List.range vertexCount).flatMap (fun v =>
                 (List.range numJointSets).flatMap (fun j =>
                   ((js.getD j []).drop (4 * v)).take 4)),
               (List.range vertexCount).flatMap (fun v =>
                 (List.range numJointSets).flatMap (fun j =>
                   ((ws.getD j []).drop (4 * v)).take 4)))
          { mesh with joints := jointsData, weights := weightsData
                    , isRigid := false, influenceCount := (numJointSets * 4 : Int) }

/-- Extra TEXCOORD_n UV sets (gltfImport.cpp lines 1720-1742): collected
while the next set exists; the attribute count bounds the loop. -/
def collectExtraUVs (g : GModel) (p : GPrimitive) : Nat → Nat → List (Primvar Vec2)
  | 0, _ => []
  | fuel + 1, n =>
      let uvsIndex := getPrimitiveAttribute p ("TEXCOORD_" ++ toString n)
      if uvsIndex < 0 then []
      else
        let cnt := getAccessorElementCount g uvsIndex
        let values := (chunk2 (readAccessorFloats g uvsIndex (2 * cnt))).map
          (fun uv => { uv with y := 1 - uv.y })
        { values := values, interpolation := "vertex" } :: collectExtraUVs g p fuel (n + 1)

/-- The vertex count of a primitive: the element count of its POSITION
accessor (gltfImport.cpp line 1615). -/
def primVertexCount (g : GModel) (prim : GPrimitive) : Nat :=
  getAccessorElementCount g (getPrimitiveAttribute prim "POSITION")

/-- The pre-validation of importMeshes (gltfImport.cpp lines 1617-1631):
a primitive with authored indices whose maximum index reaches the vertex
count is degraded to an empty mesh; the test is skipped when the index
list is empty or the vertex count is zero. -/
def primSkipsLoading (g : GModel) (prim : GPrimitive) : Bool :=
  if prim.indices ≥ 0 then
    let tempIndices := getIndices g prim.indices (primVertexCount g prim)
    if tempIndices ≠ [] ∧ primVertexCount g prim > 0 then
      let maxIndex := tempIndices.foldl max (tempIndices.headD 0)
      decide (maxIndex ≥ (primVertexCount g prim : Int))
    else false
  else false

/-- The topology switch of importMeshes (gltfImport.cpp lines 1744-1802):
TRIANGLES passes indices through, TRIANGLE_STRIP expands with the
alternating-winding rule, TRIANGLE_FAN expands each triangle as
(fan[i+1], fan[i+2], fan[0]), and unsupported topologies pass indices
through with a warning. -/
def primIndices (g : GModel) (prim : GPrimitive) (numVertices : Nat) : List Int :=
  if prim.mode = 4 then getIndices g prim.indices numVertices
  else if prim.mode = 5 then
    let stripIndices := getIndices g prim.indices numVertices
    if stripIndices.length < 3 then []
    else
      (List.range (stripIndices.length - 2)).flatMap (fun i =>
        [stripIndices.getD i 0,
         stripIndices.getD (i + 1 + i % 2) 0,
         stripIndices.getD (i + 2 - i % 2) 0])
  else if prim.mode = 6 then
    let fanIndices := getIndices g prim.indices numVertices
    if fanIndices.length < 3 then []
    else
      (List.range (fanIndices.length - 2)).flatMap (fun i =>
        [fanIndices.getD (i + 1) 0,
         fanIndices.getD (i + 2) 0,
         fanIndices.getD 0 0])
  else getIndices g prim.indices numVertices

/-- One iteration of the importMeshes primitive loop (gltfImport.cpp lines
1605-1828), producing the canonical mesh stored in the reserved mesh-part
slot.  An out-of-range authored index degrades the primitive to the
default (empty) mesh. -/
def importPrimitive (opts : ImportGltfOptions) (g : GModel) (gmesh : GMesh) (j : Nat)
    (prim : GPrimitive) : UMesh :=
  let positionsIndex := getPrimitiveAttribute prim "POSITION"
  let normalsIndex := getPrimitiveAttribute prim "NORMAL"
  let tangentsIndex := getPrimitiveAttribute prim "TANGENT"
  let uvsIndex := getPrimitiveAttribute prim "TEXCOORD_0"
  let vertexCount := primVertexCount g prim
  if primSkipsLoading g prim then {}
  else
    let mesh : UMesh := {}
    let displayName :=
      if gmesh.primitives.length > 1 then gmesh.name ++ "_primitive" ++ toString j
      else gmesh.name
    let mesh := { mesh with displayName := displayName }
    let mesh := { mesh with points := readAccessorVec3s g positionsIndex vertexCount }
    let mesh :=
      if normalsIndex ≥ 0 then
        { mesh with normals :=
          { values := readAccessorVec3s g normalsIndex (getAccessorElementCount g normalsIndex)
          , interpolation := "vertex" } }
      else mesh
    let mesh :=
      if tangentsIndex ≥ 0 then
        let tangentValues :=
          chunk4 (readAccessorFloats g tangentsIndex (4 * getAccessorElementCount g tangentsIndex))
        let mesh := { mesh with tangents := { values := tangentValues, interpolation := "vertex" } }
        if opts.computeBitangents ∧ mesh.normals.values.length = tangentValues.length then
          let bit := (mesh.normals.values.zip tangentValues).map (fun nv =>
            let normal := nv.fst
            let tangent := nv.snd
            let handedness := if |tangent.w| < 1/2 then 1
                              else if tangent.w ≥ 0 then (1 : ℚ) else -1
            let cx := normal.y * tangent.z - normal.z * tangent.y
            let cy := normal.z * tangent.x - normal.x * tangent.z
            let cz := normal.x * tangent.y - normal.y * tangent.x
            ({ x := cx * handedness, y := cy * handedness, z := cz * handedness } : Vec3))
          { mesh with bitangents := { values := bit, interpolation := "vertex" } }
        else mesh
      else mesh
    let mesh : UMesh :=
      if uvsIndex ≥ 0 then
        let values := (chunk2 (readAccessorFloats g uvsIndex
          (2 * getAccessorElementCount g uvsIndex))).map
            (fun uv => ({ uv with y := 1 - uv.y } : Vec2))
        { mesh with uvs := { values := values, interpolation := "vertex" } }
      else mesh
    let mesh :=
      if uvsIndex ≥ 0 then
        if mesh.uvs.values.length ≠ 0 then
          { mesh with extraUVSets := collectExtraUVs g prim (prim.attributes.length + 1) 1 }
        else mesh
      else mesh
    let mesh := { mesh with indices := primIndices g prim mesh.points.length }
    let mesh := { mesh with faces := List.replicate (mesh.indices.length / 3) 3 }
    let mesh := importMeshJointWeights g prim mesh
    let colorRes := readColor g prim
    let mesh :=
      if colorRes.fst.length ≠ 0 then
        { mesh with colorSets := mesh.colorSets ++
            [{ values := colorRes.fst, interpolation := "vertex" }] }
      else mesh
    let mesh :=
      if colorRes.snd.length ≠ 0 then
        { mesh with opacitySets := mesh.opacitySets ++
            [{ values := colorRes.snd, interpolation := "vertex" }] }
      else mesh
    if prim.material ≥ 0 then
      if (g.materials.length : Int) > prim.material then
        { mesh with material := prim.material
                  , doubleSided := (g.materials.getD prim.material.toNat {}).doubleSided }
      else mesh
    else mesh

/-- One iteration of the inner primitive loop of importMeshes
(gltfImport.cpp lines 1605-1828): reserve the next canonical mesh slot
(addMesh) and record its index in the slot list, whether or not the
primitive's data is loaded. -/
def importMeshPrimitive (opts : ImportGltfOptions) (g : GModel) (gmesh : GMesh)
    (acc : Ctx × List Int) (q : Nat × GPrimitive) : Ctx × List Int :=
  let (ctx, slots) := acc
  let meshIndex : Int := (ctx.usd.meshes.length : Int)
  let mesh := importPrimitive opts g gmesh q.fst q.snd
  ({ ctx with usd := { ctx.usd with meshes := ctx.usd.meshes ++ [mesh] } },
   slots ++ [meshIndex])

/-- One iteration of the outer mesh loop of importMeshes (gltfImport.cpp
lines 1596-1829): import every primitive of mesh p.snd and store the
slot list at mesh row p.fst. -/
def importOneMesh (opts : ImportGltfOptions) (g : GModel) (ctx : Ctx)
    (p : Nat × GMesh) : Ctx :=
  let folded := p.snd.primitives.enum.foldl (importMeshPrimitive opts g p.snd)
    (ctx, ([] : List Int))
  { folded.fst with meshes := folded.fst.meshes.set p.fst folded.snd }

/-- importMeshes (gltfImport.cpp lines 1591-1831): every primitive gets a
mesh-part slot in traversal order, even when its data is skipped. -/
def importMeshes (ctx : Ctx) (opts : ImportGltfOptions) (g : GModel) : Ctx :=
  let ctx := { ctx with meshes := List.replicate g.meshes.length []
                      , meshUseCount := List.replicate g.meshes.length 0 }
  g.meshes.enum.foldl (importOneMesh opts g) ctx

/-- Modelled from the spec: getNerfExtString (neuralAssetsHelper, not
available) names the vendor extension carrying the neural-primitive
payload. -/
def nerfExtString : String := "ADOBE_materials_ngp"

/-- copyMatrix (fileformatutils, not available): copies 16 doubles into a
GfMatrix4d. -/
def copyMatrix (xs : List ℚ) : Mat4 :=
  { entries := (xs ++ List.replicate 16 0).take 16 }

/-- The mutable state threaded through _traverseNodes: the destination
node array, the next free slot, the source-to-destination index map, the
parent map, the currently-traversing set, the queue of skinned nodes, the
mesh use counters, the NGP payload list and the recorded diagnostics. -/
structure TravState where
  usdNodes : List UNode := []
  curUsdIndex : Int := 0
  nodeMap : List (Int × Int) := []
  parentMap : List (Int × Int) := []
  traversed : List Int := []
  skinnedNodes : List Int := []
  meshUseCount : List Int := []
  ngps : List NgpData := []
  diags : List Diag := []
deriving Inhabited

/-- The child loop of _traverseNodes (gltfImport.cpp lines 2689-2698):
traverse each child in order, collecting the returned destination indices
that are non-negative. -/
def travFold (tn : TravState → Int → Option (TravState × Int)) :
    TravState → List Int → Option (TravState × List Int)
  | st, [] => some (st, [])
  | st, c :: rest =>
      match tn st c with
      | none => none
      | some (st2, rtn) =>
          match travFold tn st2 rest with
          | none => none
          | some (st3, idxs) => some (st3, if rtn ≥ 0 then rtn :: idxs else idxs)

/-- The per-node state update of _traverseNodes for an in-range node
(gltfImport.cpp lines 2586-2676): build the destination node record
(its rebuilt child list starts empty), bump the mesh use count, register
skinned nodes and neural primitives, and record the node in the index
and parent maps.  travNodeRecord is the pure destination-node record
(gltfImport.cpp lines 2586-2650): validated translation, rotation, scale,
matrix, camera and light, with an empty child list. -/
def travNodeRecord (g : GModel) (node : GNode) (usdParentIndex : Int) : UNode :=
  let n : UNode := { displayName := node.name, parent := usdParentIndex }
  let n := { n with translation :=
    if node.translation.length ≥ 3 then
      { x := node.translation.getD 0 0, y := node.translation.getD 1 0
      , z := node.translation.getD 2 0 }
    else { x := 0, y := 0, z := 0 } }
  let n := { n with rotation :=
    if node.rotation.length ≥ 4 then
      { re := node.rotation.getD 3 0, i := node.rotation.getD 0 0
      , j := node.rotation.getD 1 0, k := node.rotation.getD 2 0 }
    else { re := 0, i := 0, j := 0, k := 0 } }
  let n := { n with scale :=
    if node.scale.length ≥ 3 then
      { x := node.scale.getD 0 0, y := node.scale.getD 1 0, z := node.scale.getD 2 0 }
    else { x := 1, y := 1, z := 1 } }
  let n :=
    if node.matrix.length ≥ 16 then
      { n with hasTransform := true, transform := copyMatrix node.matrix }
    else n
  let n :=
    if node.camera ≥ 0 then
      if node.camera ≥ (g.cameras.length : Int) then n
      else { n with camera := node.camera }
    else n
  if node.light ≥ 0 then
    if node.light ≥ (g.lights.length : Int) then n
    else { n with light := node.light }
  else n

def travVisitBody (ext : ExtM) (g : GModel) (ctxMeshes : List (List Int)) (st : TravState)
    (parentIndex nodeIndex usdNodeIndex usdParentIndex : Int) : TravState :=
  let node := g.nodes.getD nodeIndex.toNat {}
  let n := travNodeRecord g node usdParentIndex
  let (st, n) :=
    if node.mesh ≥ 0 then
      if node.mesh ≥ (g.meshes.length : Int) then (st, n)
      else
        let st := { st with meshUseCount :=
          (st.meshUseCount.set node.mesh.toNat
            (st.meshUseCount.getD node.mesh.toNat 0 + 1)) }
        if node.skin ≥ 0 then
          ({ st with skinnedNodes := st.skinnedNodes ++ [nodeIndex] }, n)
        else (st, { n with staticMeshes := ctxMeshes.getD node.mesh.toNat [] })
    else (st, n)
  let (st, n) :=
    match emFind node.extensions nerfExtString with
    | some ngp =>
        let n := { n with ngp := (st.ngps.length : Int) }
        ({ st with ngps := st.ngps ++ [ext.importNgp ngp] }, n)
    | none => (st, n)
  { st with usdNodes := st.usdNodes.set usdNodeIndex.toNat n
          , nodeMap := alistSet st.nodeMap nodeIndex usdNodeIndex
          , parentMap := alistSet st.parentMap nodeIndex parentIndex }

/-- _traverseNodes (gltfImport.cpp lines 2531-2701): recursive pre-order
traversal guarded by the currently-traversing set, with local recovery
for out-of-range indices and the internal capacity check.  The fuel
argument bounds the recursion depth; travNodeTerm below proves the fuel
used by importNodes is never exhausted. -/
def travNode (ext : ExtM) (g : GModel) (ctxMeshes : List (List Int)) (fuel : Nat)
    (st : TravState) (parentIndex nodeIndex : Int) : Option (TravState × Int) :=
  match fuel with
  | 0 => none
  | fuel + 1 =>
    if st.traversed.contains nodeIndex then
      let st := { st with diags := st.diags ++ [Diag.warnAlreadyTraversed nodeIndex] }
      match alistFind st.nodeMap nodeIndex with
      | some v => some (st, v)
      | none => some ({ st with diags := st.diags ++ [Diag.errorNodeMapMissing] }, -1)
    else
      let st := { st with traversed := nodeIndex :: st.traversed }
      let usdNodeIndex := st.curUsdIndex
      let st := { st with curUsdIndex := st.curUsdIndex + 1 }
      if usdNodeIndex < 0 ∨ usdNodeIndex ≥ (st.usdNodes.length : Int) then
        let st := { st with diags := st.diags ++ [Diag.warnUsdIndexOutOfBounds usdNodeIndex] }
        let st := { st with traversed := st.traversed.erase nodeIndex }
        some (st, -1)
      else
        let usdParentIndex :=
          if parentIndex ≠ -1 then
            match alistFind st.nodeMap parentIndex with
            | some v => v
            | none => -1
          else -1
        if nodeIndex < 0 ∨ nodeIndex ≥ (g.nodes.length : Int) then
          let n : UNode := { name := "bad_index_node_" ++ toString nodeIndex
                           , displayName := "Bad Index Node " ++ toString nodeIndex
                           , parent := usdParentIndex }
          let st := { st with usdNodes := st.usdNodes.set usdNodeIndex.toNat n
                            , nodeMap := alistSet st.nodeMap nodeIndex usdNodeIndex
                            , parentMap := alistSet st.parentMap nodeIndex parentIndex
                            , diags := st.diags ++ [Diag.warnNodeIndexOutOfBounds nodeIndex] }
          some (st, usdNodeIndex)
        else
          let st := travVisitBody ext g ctxMeshes st parentIndex nodeIndex
            usdNodeIndex usdParentIndex
          let validChildren := (g.nodes.getD nodeIndex.toNat {}).children.filter
            (fun childIndex =>
              ¬ st.traversed.contains childIndex ∧
              0 ≤ childIndex ∧ childIndex < (g.nodes.length : Int))
          match travFold (fun s c => travNode ext g ctxMeshes fuel s nodeIndex c)
              st validChildren with
          | none => none
          | some (st2, childIdxs) =>
              let cur := st2.usdNodes.getD usdNodeIndex.toNat {}
              let st3 := { st2 with usdNodes :=
                (st2.usdNodes.set usdNodeIndex.toNat { cur with children := childIdxs }) }
              some (st3, usdNodeIndex)
termination_by fuel

/-- The deferred skin-to-mesh binding pass of importNodes (gltfImport.cpp
lines 2737-2793): resolve the skeleton root through the parent map and
attach the skinned mesh parts, deduplicated, to the skeleton. -/
def skinnedNodeBind (ctx : Ctx) (g : GModel) (nodeIndex : Int) : Ctx :=
  let node := g.nodes.getD nodeIndex.toNat {}
  if node.skin < 0 ∨ node.skin ≥ (g.skins.length : Int) then ctx
  else if node.mesh < 0 ∨ node.mesh ≥ (ctx.meshes.length : Int) then ctx
  else
    let gltfSkeletonNodeIndex := (g.skins.getD node.skin.toNat {}).skeleton
    let gltfSkinRootNodeIndex :=
      if gltfSkeletonNodeIndex ≥ 0 then
        let parentIdx :=
          match alistFind ctx.parentMap gltfSkeletonNodeIndex with
          | some p => p
          | none => -1
        if parentIdx ≠ -1 then parentIdx else nodeIndex
      else
        let parentIdx :=
          match alistFind ctx.parentMap nodeIndex with
          | some p => p
          | none => -1
        if parentIdx ≠ -1 then parentIdx else nodeIndex
    match alistFind ctx.nodeMap gltfSkinRootNodeIndex with
    | none => ctx
    | some usdSkinRootNodeIndex =>
        let skel := ctx.usd.skeletons.getD node.skin.toNat {}
        let skel := { skel with parent := usdSkinRootNodeIndex }
        let targets := (ctx.meshes.getD node.mesh.toNat []).foldl
          (fun ts m => if ts.contains m then ts else ts ++ [m]) skel.meshSkinningTargets
        let skel := { skel with meshSkinningTargets := targets }
        { ctx with usd := { ctx.usd with
            skeletons := ctx.usd.skeletons.set node.skin.toNat skel } }

/-- The scene/root traversal loop of importNodes (gltfImport.cpp lines
2727-2734), threading the traversal state over every root of every scene. -/
def travRoots (ext : ExtM) (g : GModel) (ctxMeshes : List (List Int)) (fuel : Nat)
    (init : TravState) : Option (TravState × List Int) :=
  g.scenes.foldl
    (fun acc scene =>
      scene.nodes.foldl
        (fun acc2 rootNodeIndex =>
          match acc2 with
          | none => none
          | some (st, roots) =>
              match travNode ext g ctxMeshes fuel st (-1) rootNodeIndex with
              | none => none
              | some (st, rtn) =>
                  some (st, if rtn ≥ 0 then roots ++ [rtn] else roots))
        acc)
    (some (init, []))

/-- importNodes (gltfImport.cpp lines 2705-2796): size the destination
node array to the source node count, traverse every scene root, then run
the deferred skinned-node binding pass. -/
def importNodes (ext : ExtM) (ctx : Ctx) (g : GModel) : Ctx × Bool :=
  if g.nodes.length = 0 then (ctx, false)
  else
    let st0 : TravState :=
      { usdNodes := List.replicate g.nodes.length {}
      , curUsdIndex := 0
      , nodeMap := ctx.nodeMap
      , parentMap := ctx.parentMap
      , traversed := []
      , skinnedNodes := []
      , meshUseCount := ctx.meshUseCount
      , ngps := ctx.usd.ngps
      , diags := [] }
    match travRoots ext g ctx.meshes (g.nodes.length + 1) st0 with
    | none => (ctx, false)
    | some (st, roots) =>
        let ctx := { ctx with
          usd := { ctx.usd with nodes := st.usdNodes, rootNodes := roots, ngps := st.ngps }
        , nodeMap := st.nodeMap
        , parentMap := st.parentMap
        , meshUseCount := st.meshUseCount }
        let ctx := st.skinnedNodes.foldl (fun c nodeIndex => skinnedNodeBind c g nodeIndex) ctx
        (ctx, true)

/-- The diagnostics recorded during node traversal (read back by the
error-handling theorems). -/
def importNodesDiags (ext : ExtM) (ctx : Ctx) (g : GModel) : List Diag :=
  if g.nodes.length = 0 then []
  else
    let st0 : TravState :=
      { usdNodes := List.replicate g.nodes.length {}
      , curUsdIndex := 0
      , nodeMap := ctx.nodeMap
      , parentMap := ctx.parentMap
      , traversed := []
      , skinnedNodes := []
      , meshUseCount := ctx.meshUseCount
      , ngps := ctx.usd.ngps
      , diags := [] }
    match travRoots ext g ctx.meshes (g.nodes.length + 1) st0 with
    | none => []
    | some (st, _) => st.diags

/-- checkMeshInstancing (gltfImport.cpp lines 2798-2823): meshes used by
more than one node have all their primitives marked instanceable. -/
def checkMeshInstancing (ctx : Ctx) : Ctx :=
  ctx.meshUseCount.enum.foldl
    (fun ctx p =>
      let useCount := p.snd
      if useCount > 1 then
        let meshPrimitiveIndices := ctx.meshes.getD p.fst []
        let meshes := meshPrimitiveIndices.foldl
          (fun ms primitiveIdx =>
            if primitiveIdx < 0 ∨ primitiveIdx ≥ (ms.length : Int) then ms
            else
              let cur := ms.getD primitiveIdx.toNat {}
              ms.set primitiveIdx.toNat { cur with instanceable := true })
          ctx.usd.meshes
        { ctx with usd := { ctx.usd with meshes := meshes } }
      else ctx)
    ctx

/-- _buildSkeletonNodeNames (gltfImport.cpp lines 1833-1866): cycle-safe
recursive construction of hierarchical joint path names of the form
parentPath/nIndex.  The fuel bounds the recursion depth; the importer
calls it with more fuel than the node count, which the visited-set
argument shows is sufficient. -/
def buildSkeletonNodeNames (g : GModel) (fuel : Nat)
    (names : List (Int × String)) (traversed : List Int)
    (parentIndex nodeIndex : Int) : List (Int × String) × List Int :=
  match fuel with
  | 0 => (names, traversed)
  | fuel + 1 =>
    if traversed.contains nodeIndex then (names, traversed)
    else
      let traversed := nodeIndex :: traversed
      let name0 := "n" ++ toString nodeIndex
      let name :=
        if parentIndex ≥ 0 then
          match alistFind names parentIndex with
          | some pn => pn ++ "/" ++ name0
          | none => name0
        else name0
      let names := alistSet names nodeIndex name
      if nodeIndex < 0 ∨ nodeIndex ≥ (g.nodes.length : Int) then (names, traversed)
      else
        let node := g.nodes.getD nodeIndex.toNat {}
        node.children.foldl
          (fun acc c => buildSkeletonNodeNames g fuel acc.fst acc.snd nodeIndex c)
          (names, traversed)
termination_by fuel

/-- The per-joint body of the skeleton loop (gltfImport.cpp lines
1906-1968): fill joint slot jointIdx of the four parallel joint arrays
(with placeholders for malformed joints) and mark the joint node. -/
def buildSkeletonJoint (ext : ExtM) (g : GModel) (names : List (Int × String))
    (nodeMap : List (Int × Int)) (skin : GSkin) (acc : Skeleton × List UNode)
    (jointIdx : Nat) : Skeleton × List UNode :=
  let (skel, usdNodes) := acc
  let nodeIndex := skin.joints.getD jointIdx 0
  if nodeIndex < 0 ∨ nodeIndex ≥ (g.nodes.length : Int) then
    ({ skel with
        joints := skel.joints.set jointIdx ("bad_index_node_" ++ toString nodeIndex)
      , jointNames := skel.jointNames.set jointIdx ("Bad Index Node " ++ toString nodeIndex)
      , restTransforms := skel.restTransforms.set jointIdx mat4Id
      , bindTransforms := skel.bindTransforms.set jointIdx mat4Id }, usdNodes)
  else
    match alistFind nodeMap nodeIndex with
    | none => (skel, usdNodes)
    | some usdIdx =>
      if usdIdx < 0 ∨ usdIdx ≥ (usdNodes.length : Int) then (skel, usdNodes)
      else
        let usdNode := usdNodes.getD usdIdx.toNat {}
        let usdNodes := usdNodes.set usdIdx.toNat { usdNode with isJoint := true }
        let node := g.nodes.getD nodeIndex.toNat {}
        let t : Vec3 :=
          if node.translation.length ≠ 0 then
            { x := node.translation.getD 0 0, y := node.translation.getD 1 0
            , z := node.translation.getD 2 0 }
          else { x := 0, y := 0, z := 0 }
        let r : Quat :=
          if node.rotation.length ≠ 0 then
            { re := node.rotation.getD 3 0, i := node.rotation.getD 0 0
            , j := node.rotation.getD 1 0, k := node.rotation.getD 2 0 }
          else { re := 0, i := 0, j := 0, k := 0 }
        let m := ext.mat4FromRotTrans r t
        match alistFind names nodeIndex with
        | none => (skel, usdNodes)
        | some name =>
          ({ skel with joints := skel.joints.set jointIdx name
                     , jointNames := skel.jointNames.set jointIdx node.name
                     , restTransforms := skel.restTransforms.set jointIdx m }, usdNodes)

/-- The per-skin body of importSkeletons (gltfImport.cpp lines 1892-1994):
allocate the four parallel joint arrays at the skin's joint count, fill
each joint slot, then validate and invert the inverse-bind matrices. -/
def buildSkeleton (ext : ExtM) (g : GModel) (names : List (Int × String))
    (nodeMap : List (Int × Int)) (usdNodes : List UNode) (skin : GSkin)
    (skel : Skeleton) : Skeleton × List UNode :=
  let skel := { skel with displayName := skin.name
                        , joints := List.replicate skin.joints.length ""
                        , jointNames := List.replicate skin.joints.length ""
                        , restTransforms := List.replicate skin.joints.length mat4Id
                        , bindTransforms := List.replicate skin.joints.length mat4Id }
  let folded := (List.range skin.joints.length).foldl
    (buildSkeletonJoint ext g names nodeMap skin) (skel, usdNodes)
  let skel := folded.fst
  let usdNodes := folded.snd
  let ibmOk :=
    if skin.inverseBindMatrices ≥ 0 then
      if skin.inverseBindMatrices ≥ (g.accessors.length : Int) then false
      else
        let acc := g.accessors.getD skin.inverseBindMatrices.toNat {}
        if acc.type ≠ TYPE_MAT4 then false
        else decide (acc.count = skin.joints.length)
    else true
  if ¬ ibmOk then (skel, usdNodes)
  else
    let cnt := getAccessorElementCount g skin.inverseBindMatrices
    let ibm := chunk16 (readAccessorFloats g skin.inverseBindMatrices (16 * cnt))
    -- when the accessor is absent the loop reads past the float array (UB
    -- in the source); the out-of-range read is modelled by the default
    let bind := (List.range skin.joints.length).foldl
      (fun bts j => bts.set j (ext.mat4Inverse (ibm.getD j mat4Id))) skel.bindTransforms
    ({ skel with bindTransforms := bind }, usdNodes)

/-- One iteration of the per-skin loop of importSkeletons (gltfImport.cpp
lines 1893-1993): build the skeleton for skin p.snd and store it at
skeleton slot p.fst. -/
def importOneSkeleton (ext : ExtM) (g : GModel) (ctx : Ctx) (p : Nat × GSkin) : Ctx :=
  let skel := ctx.usd.skeletons.getD p.fst {}
  let res := buildSkeleton ext g ctx.skeletonNodeNames ctx.nodeMap ctx.usd.nodes p.snd skel
  { ctx with usd := { ctx.usd with
      skeletons := ctx.usd.skeletons.set p.fst res.fst
    , nodes := res.snd } }

/-- importSkeletons (gltfImport.cpp lines 1874-1995): build the joint path
names over every scene root, then assemble one skeleton per source skin. -/
def importSkeletons (ext : ExtM) (ctx : Ctx) (g : GModel) : Ctx :=
  let nr := g.scenes.foldl
    (fun acc scene =>
      scene.nodes.foldl
        (fun a r => buildSkeletonNodeNames g (g.nodes.length + 1) a.fst a.snd (-1) r)
        acc)
    (ctx.skeletonNodeNames, ([] : List Int))
  let ctx := { ctx with skeletonNodeNames := nr.fst }
  g.skins.enum.foldl (importOneSkeleton ext g) ctx

/-- importChannel (gltfImport.cpp lines 1997-2050): when the channel
targets the named path, validate the sampler accessors and append the
raw times and values, updating the track time range. -/
def importChannel {α : Type} (readVals : GModel → Int → Nat → List α) (g : GModel)
    (channel : AnimChannel) (sampler : AnimSampler) (name : String)
    (tv : TimeValues α) (minTime maxTime : ℚ) : TimeValues α × ℚ × ℚ × Bool :=
  if channel.targetPath = name then
    if sampler.input < 0 ∨ sampler.input ≥ (g.accessors.length : Int) then
      (tv, minTime, maxTime, false)
    else if sampler.output < 0 ∨ sampler.output ≥ (g.accessors.length : Int) then
      (tv, minTime, maxTime, false)
    else
      let offset := tv.times.length
      let count := getAccessorElementCount g sampler.input
      let count2 := getAccessorElementCount g sampler.output
      if count = 0 then (tv, minTime, maxTime, false)
      else if count2 = 0 then (tv, minTime, maxTime, false)
      else
        let newTimes := tv.times ++ readAccessorFloats g sampler.input count
        let newValues := tv.values ++ readVals g sampler.output count2
        let minTime := min minTime (newTimes.getD offset 0)
        let maxTime := max maxTime (newTimes.getD (offset + count - 1) 0)
        ({ times := newTimes, values := newValues }, minTime, maxTime, true)
  else (tv, minTime, maxTime, false)

/-- importAnimationTracks (gltfImport.cpp lines 2052-2064). -/
def importAnimationTracks (ctx : Ctx) (g : GModel) : Ctx :=
  let tracks := g.animations.map (fun a => ({ displayName := a.name } : AnimationTrack))
  { ctx with usd := { ctx.usd with animationTracks := tracks } }

/-- One channel iteration of importNodeAnimations (gltfImport.cpp lines
2074-2135). -/
def importNodeAnimChannel (ctx : Ctx) (g : GModel) (animationTrackIndex : Nat)
    (animation : GAnimation) (channel : AnimChannel) : Ctx :=
  if channel.sampler < 0 ∨ channel.sampler ≥ (animation.samplers.length : Int) then ctx
  else
    let sampler := animation.samplers.getD channel.sampler.toNat {}
    match alistFind ctx.nodeMap channel.targetNode with
    | none => ctx
    | some usdIdx =>
      if usdIdx < 0 ∨ usdIdx ≥ (ctx.usd.nodes.length : Int) then ctx
      else
        let node := ctx.usd.nodes.getD usdIdx.toNat {}
        let track := ctx.usd.animationTracks.getD animationTrackIndex {}
        let hadNodeAnimation := node.animations ≠ []
        let nodeAnimation :=
          if hadNodeAnimation then node.animations.getD animationTrackIndex {}
          else ({} : NodeAnimation)
        let r1 := importChannel readAccessorVec3s g channel sampler "translation"
          nodeAnimation.translations track.minTime track.maxTime
        let nodeAnimation := { nodeAnimation with translations := r1.1 }
        let r2 := importChannel readAccessorQuats g channel sampler "rotation"
          nodeAnimation.rotations r1.2.1 r1.2.2.1
        let nodeAnimation := { nodeAnimation with rotations := r2.1 }
        let r3 := importChannel readAccessorVec3s g channel sampler "scale"
          nodeAnimation.scales r2.2.1 r2.2.2.1
        let nodeAnimation := { nodeAnimation with scales := r3.1 }
        let hasNodeAnimation := r1.2.2.2 ∨ r2.2.2.2 ∨ r3.2.2.2
        let track := { track with minTime := r3.2.1, maxTime := r3.2.2.1 }
        let ctx := { ctx with usd := { ctx.usd with
          animationTracks := ctx.usd.animationTracks.set animationTrackIndex track } }
        if hasNodeAnimation then
          let track := { track with hasTimepoints := true }
          let ctx := { ctx with usd := { ctx.usd with
            animationTracks := ctx.usd.animationTracks.set animationTrackIndex track
          , hasAnimations := true } }
          let node :=
            if hadNodeAnimation then
              { node with animations := node.animations.set animationTrackIndex nodeAnimation }
            else
              { node with animations :=
                ((List.replicate ctx.usd.animationTracks.length ({} : NodeAnimation)).set
                  animationTrackIndex nodeAnimation) }
          { ctx with usd := { ctx.usd with nodes := ctx.usd.nodes.set usdIdx.toNat node } }
        else
          let node :=
            if hadNodeAnimation then
              { node with animations := node.animations.set animationTrackIndex nodeAnimation }
            else node
          { ctx with usd := { ctx.usd with nodes := ctx.usd.nodes.set usdIdx.toNat node } }

/-- importNodeAnimations (gltfImport.cpp lines 2066-2137). -/
def importNodeAnimations (ctx : Ctx) (g : GModel) : Ctx :=
  (List.range ctx.usd.animationTracks.length).foldl
    (fun ctx animationTrackIndex =>
      let animation := g.animations.getD animationTrackIndex {}
      animation.channels.foldl
        (fun ctx channel =>
          importNodeAnimChannel ctx g animationTrackIndex animation channel)
        ctx)
    ctx

/-- Insertion into an ascending duplicate-free time list. -/
def insertTimeSorted (x : ℚ) : List ℚ → List ℚ
  | [] => [x]
  | y :: rest =>
      if x < y then x :: y :: rest
      else if x = y then y :: rest
      else y :: insertTimeSorted x rest

/-- Modelled from the spec: addToTimeMap (gltfUtils, not available) merges
raw time values into the definitive time axis, "a general multi-source
merge-and-dedup" producing the ascending, duplicate-free union (§4.3 of
the spec). -/
def addToTimeMap (dst : List ℚ) (src : List ℚ) : List ℚ :=
  src.foldl (fun acc t => insertTimeSorted t acc) dst

/-- One interpolation lookup: the value of a raw curve at time t, holding
the boundary samples outside the curve's range. -/
def sampleCurve {α : Type} (lerp : α → α → ℚ → α) (dflt : α) : List (ℚ × α) → ℚ → α
  | [], _ => dflt
  | [(_, v)], _ => v
  | (t0, v0) :: (t1, v1) :: rest, t =>
      if t ≤ t0 then v0
      else if t ≤ t1 then
        (if t1 = t0 then v0 else lerp v0 v1 ((t - t0) / (t1 - t0)))
      else sampleCurve lerp dflt ((t1, v1) :: rest) t

/-- Modelled from the spec: interpolateData (gltfUtils, not available)
resamples a raw (times, values) curve onto the definitive time axis,
interpolating between the two bracketing raw samples and holding the
boundary sample constant outside the raw range (§4.3 of the spec). -/
def interpolateData {α : Type} (lerp : α → α → ℚ → α) (dflt : α)
    (definitiveTimes : List ℚ) (times : List ℚ) (values : List α) : List α :=
  definitiveTimes.map (sampleCurve lerp dflt (times.zip values))

/-- The animated-node set of importSkeletonAnimations (gltfImport.cpp
lines 2145-2178): target nodes of channels that resolve to joint nodes. -/
def animatedNodeSet (ctx : Ctx) (g : GModel) : List Int :=
  (List.range ctx.usd.animationTracks.length).foldl
    (fun acc animationTrackIndex =>
      let animation := g.animations.getD animationTrackIndex {}
      animation.channels.foldl
        (fun acc channel =>
          match alistFind ctx.nodeMap channel.targetNode with
          | none => acc
          | some usdIdx =>
            if usdIdx < 0 ∨ usdIdx ≥ (ctx.usd.nodes.length : Int) then acc
            else if ¬ (ctx.usd.nodes.getD usdIdx.toNat {}).isJoint then acc
            else if acc.contains channel.targetNode then acc
            else acc ++ [channel.targetNode])
        acc)
    []

/-- The per-joint body of the definitive-time loop (gltfImport.cpp lines
2234-2252): merge the joint's raw rotation, translation and scale times
into the definitive time axis when the joint passes the reference
checks. -/
def definitiveTimeStep (ctx : Ctx) (animationTrackIndex : Nat)
    (definitiveTimes : List ℚ) (animNode : Int) : List ℚ :=
  match alistFind ctx.nodeMap animNode with
  | none => definitiveTimes
  | some usdIdx =>
    if usdIdx < 0 ∨ usdIdx ≥ (ctx.usd.nodes.length : Int) then definitiveTimes
    else
      let node := ctx.usd.nodes.getD usdIdx.toNat {}
      if animationTrackIndex < node.animations.length then
        let nodeAnimation := node.animations.getD animationTrackIndex {}
        let definitiveTimes := addToTimeMap definitiveTimes nodeAnimation.rotations.times
        let definitiveTimes := addToTimeMap definitiveTimes nodeAnimation.translations.times
        addToTimeMap definitiveTimes nodeAnimation.scales.times
      else definitiveTimes

/-- The definitive time axis of one (skeleton, track) pair
(gltfImport.cpp lines 2232-2253): the merge of the raw rotation,
translation and scale times of every contributing animated joint. -/
def definitiveTimesFor (ctx : Ctx) (skelAnimNodes : List Int)
    (animationTrackIndex : Nat) : List ℚ :=
  skelAnimNodes.foldl (definitiveTimeStep ctx animationTrackIndex) []

/-- The per-joint resampled rotation rows (gltfImport.cpp lines 2269-2316):
a joint with at least two raw samples is resampled onto the definitive
axis, otherwise its rest rotation is broadcast; joints that fail the
reference checks keep the initialization value. -/
def definitiveRotationsFor (ext : ExtM) (ctx : Ctx) (g : GModel)
    (skelAnimNodes : List Int) (animationTrackIndex : Nat)
    (definitiveTimes : List ℚ) : List (List Quat) :=
  skelAnimNodes.map (fun nodeIndex =>
    let initRow := List.replicate definitiveTimes.length
      ({ re := 0, i := 0, j := 0, k := 0 } : Quat)
    match alistFind ctx.nodeMap nodeIndex with
    | none => initRow
    | some usdIdx =>
      if usdIdx < 0 ∨ usdIdx ≥ (ctx.usd.nodes.length : Int) then initRow
      else if nodeIndex < 0 ∨ nodeIndex ≥ (g.nodes.length : Int) then initRow
      else
        let n := ctx.usd.nodes.getD usdIdx.toNat {}
        let node := g.nodes.getD nodeIndex.toNat {}
        let na := if n.animations.length > animationTrackIndex
                  then n.animations.getD animationTrackIndex {}
                  else ({} : NodeAnimation)
        if na.rotations.values.length > 1 then
          interpolateData ext.slerpQuat { re := 0, i := 0, j := 0, k := 0 }
            definitiveTimes na.rotations.times na.rotations.values
        else
          let restRotation : Quat :=
            if node.rotation.length ≠ 0 then
              { re := node.rotation.getD 3 0, i := node.rotation.getD 0 0
              , j := node.rotation.getD 1 0, k := node.rotation.getD 2 0 }
            else { re := 0, i := 0, j := 0, k := 0 }
          List.replicate definitiveTimes.length restRotation)

/-- The per-joint resampled translation rows (gltfImport.cpp lines
2272-2330). -/
def definitiveTranslationsFor (ext : ExtM) (ctx : Ctx) (g : GModel)
    (skelAnimNodes : List Int) (animationTrackIndex : Nat)
    (definitiveTimes : List ℚ) : List (List Vec3) :=
  skelAnimNodes.map (fun nodeIndex =>
    let initRow := List.replicate definitiveTimes.length ({ x := 0, y := 0, z := 0 } : Vec3)
    match alistFind ctx.nodeMap nodeIndex with
    | none => initRow
    | some usdIdx =>
      if usdIdx < 0 ∨ usdIdx ≥ (ctx.usd.nodes.length : Int) then initRow
      else if nodeIndex < 0 ∨ nodeIndex ≥ (g.nodes.length : Int) then initRow
      else
        let n := ctx.usd.nodes.getD usdIdx.toNat {}
        let node := g.nodes.getD nodeIndex.toNat {}
        let na := if n.animations.length > animationTrackIndex
                  then n.animations.getD animationTrackIndex {}
                  else ({} : NodeAnimation)
        if na.translations.values.length > 1 then
          interpolateData ext.lerpVec3 { x := 0, y := 0, z := 0 }
            definitiveTimes na.translations.times na.translations.values
        else
          let restTranslation : Vec3 :=
            if node.translation.length ≠ 0 then
              { x := node.translation.getD 0 0, y := node.translation.getD 1 0
              , z := node.translation.getD 2 0 }
            else { x := 0, y := 0, z := 0 }
          List.replicate definitiveTimes.length restTranslation)

/-- The per-joint resampled scale rows (gltfImport.cpp lines 2275-2343). -/
def definitiveScalesFor (ext : ExtM) (ctx : Ctx) (g : GModel)
    (skelAnimNodes : List Int) (animationTrackIndex : Nat)
    (definitiveTimes : List ℚ) : List (List Vec3) :=
  skelAnimNodes.map (fun nodeIndex =>
    let initRow := List.replicate definitiveTimes.length ({ x := 1, y := 1, z := 1 } : Vec3)
    match alistFind ctx.nodeMap nodeIndex with
    | none => initRow
    | some usdIdx =>
      if usdIdx < 0 ∨ usdIdx ≥ (ctx.usd.nodes.length : Int) then initRow
      else if nodeIndex < 0 ∨ nodeIndex ≥ (g.nodes.length : Int) then initRow
      else
        let n := ctx.usd.nodes.getD usdIdx.toNat {}
        let node := g.nodes.getD nodeIndex.toNat {}
        let na := if n.animations.length > animationTrackIndex
                  then n.animations.getD animationTrackIndex {}
                  else ({} : NodeAnimation)
        if na.scales.values.length > 1 then
          interpolateData ext.lerpVec3 { x := 0, y := 0, z := 0 }
            definitiveTimes na.scales.times na.scales.values
        else
          let restScale : Vec3 :=
            if node.scale.length ≠ 0 then
              { x := node.scale.getD 0 0, y := node.scale.getD 1 0, z := node.scale.getD 2 0 }
            else { x := 1, y := 1, z := 1 }
          List.replicate definitiveTimes.length restScale)

/-- The dense resampled SkeletonAnimation of one (skeleton, track) pair
(gltfImport.cpp lines 2346-2367): one entry per definitive time point,
each holding one value per animated joint. -/
def assembleSkeletonAnimation (definitiveTimes : List ℚ)
    (skelAnimNodes : List Int) (defRot : List (List Quat))
    (defTrans defScale : List (List Vec3)) : SkeletonAnimation :=
  { times := definitiveTimes
  , rotations := (List.range definitiveTimes.length).map (fun t =>
      (List.range skelAnimNodes.length).map (fun j =>
        (defRot.getD j []).getD t { re := 0, i := 0, j := 0, k := 0 }))
  , translations := (List.range definitiveTimes.length).map (fun t =>
      (List.range skelAnimNodes.length).map (fun j =>
        (defTrans.getD j []).getD t { x := 0, y := 0, z := 0 }))
  , scales := (List.range definitiveTimes.length).map (fun t =>
      (List.range skelAnimNodes.length).map (fun j =>
        (defScale.getD j []).getD t { x := 0, y := 0, z := 0 })) }

/-- The per-(skin, track) body of importSkeletonAnimations (gltfImport.cpp
lines 2225-2368), applied to a skeleton whose skelAnimNodes is non-empty. -/
def importSkeletonAnimationTrack (ext : ExtM) (ctx : Ctx) (g : GModel)
    (skelAnimNodes : List Int) (skel : Skeleton) (animationTrackIndex : Nat) :
    Ctx × Skeleton :=
  let definitiveTimes := definitiveTimesFor ctx skelAnimNodes animationTrackIndex
  if definitiveTimes.length = 0 then (ctx, skel)
  else
    let track := ctx.usd.animationTracks.getD animationTrackIndex {}
    let track := { track with hasTimepoints := true }
    let track := { track with minTime := min track.minTime (definitiveTimes.getD 0 0) }
    let track := { track with maxTime :=
      (max track.maxTime (definitiveTimes.getD (definitiveTimes.length - 1) 0)) }
    let ctx := { ctx with usd := { ctx.usd with
      animationTracks := ctx.usd.animationTracks.set animationTrackIndex track
    , hasAnimations := true } }
    let defRot := definitiveRotationsFor ext ctx g skelAnimNodes animationTrackIndex definitiveTimes
    let defTrans := definitiveTranslationsFor ext ctx g skelAnimNodes animationTrackIndex definitiveTimes
    let defScale := definitiveScalesFor ext ctx g skelAnimNodes animationTrackIndex definitiveTimes
    let sa := assembleSkeletonAnimation definitiveTimes skelAnimNodes defRot defTrans defScale
    (ctx, { skel with skeletonAnimations := skel.skeletonAnimations.set animationTrackIndex sa })

/-- The per-skin body of importSkeletonAnimations (gltfImport.cpp lines
2192-2368). -/
def importSkeletonAnimationsForSkin (ext : ExtM) (ctx : Ctx) (g : GModel)
    (animated : List Int) (skinIdx : Nat) (skin : GSkin) : Ctx :=
  let skel := ctx.usd.skeletons.getD skinIdx {}
  let skelAnimNodes := skin.joints.filter (fun j => animated.contains j)
  if skelAnimNodes = [] then ctx
  else
    let skel := { skel with
      skeletonAnimations :=
        List.replicate ctx.usd.animationTracks.length ({} : SkeletonAnimation)
    , animatedJoints := (List.range skelAnimNodes.length).foldl
        (fun aj skelAnimIdx =>
          match alistFind ctx.skeletonNodeNames (skelAnimNodes.getD skelAnimIdx 0) with
          | none => aj
          | some name => aj.set skelAnimIdx name)
        (List.replicate skelAnimNodes.length "") }
    let folded := (List.range ctx.usd.animationTracks.length).foldl
      (fun (acc : Ctx × Skeleton) animationTrackIndex =>
        importSkeletonAnimationTrack ext acc.fst g skelAnimNodes acc.snd animationTrackIndex)
      (ctx, skel)
    { folded.fst with usd := { folded.fst.usd with
        skeletons := folded.fst.usd.skeletons.set skinIdx folded.snd } }

/-- importSkeletonAnimations (gltfImport.cpp lines 2139-2370). -/
def importSkeletonAnimations (ext : ExtM) (ctx : Ctx) (g : GModel) : Ctx :=
  if g.skins.length = 0 then ctx
  else
    let animated := animatedNodeSet ctx g
    if animated = [] then ctx
    else
      g.skins.enum.foldl
        (fun ctx p => importSkeletonAnimationsForSkin ext ctx g animated p.fst p.snd)
        ctx

/-- importCameras (gltfImport.cpp lines 109-152); the GfCamera lens math
is external pxr code supplied through ExtM. -/
def importCameras (ext : ExtM) (ctx : Ctx) (g : GModel) : Ctx :=
  let cams := g.cameras.map (fun gCamera =>
    if gCamera.type = "perspective" then
      ({ displayName := gCamera.name
       , projection := .perspective
       , f := ext.cameraFocalPersp gCamera.perspective.aspectRatio
           (gCamera.perspective.yfov * ext.rad2degConst)
       , nearZ := gCamera.perspective.znear
       , farZ := gCamera.perspective.zfar
       , fov := gCamera.perspective.yfov
       , aspectRatio := gCamera.perspective.aspectRatio
       , horizontalAperture := ext.cameraHorizAperture gCamera
       , verticalAperture := ext.cameraVertAperture gCamera } : UCamera)
    else
      let aspectRatio := gCamera.orthographic.xmag / gCamera.orthographic.ymag
      ({ displayName := gCamera.name
       , projection := .orthographic
       , fov := 36
       , aspectRatio := aspectRatio
       , f := ext.cameraFocalOrtho aspectRatio gCamera.orthographic.xmag
       , nearZ := gCamera.orthographic.znear
       , farZ := gCamera.orthographic.zfar
       , horizontalAperture := ext.cameraHorizAperture gCamera
       , verticalAperture := ext.cameraVertAperture gCamera } : UCamera))
  { ctx with usd := { ctx.usd with cameras := cams } }

/-- importLights (gltfImport.cpp lines 2372-2439): light records with
USD-style surface-area intensity scaling; the numeric multipliers are
external constants supplied through ExtM. -/
def importLights (ext : ExtM) (ctx : Ctx) (g : GModel) : Ctx :=
  let lights := g.lights.map (fun gltfLight =>
    let light : ULight := { displayName := gltfLight.name }
    let light :=
      if gltfLight.color.length ≥ 3 then
        { light with color := { x := gltfLight.color.getD 0 0
                              , y := gltfLight.color.getD 1 0
                              , z := gltfLight.color.getD 2 0 } }
      else light
    let intensity := gltfLight.intensity
    if gltfLight.type = "directional" then
      { light with type := .sun, intensity := intensity / ext.glDirectionalLightMult }
    else if gltfLight.type = "point" then
      let intensity := intensity /
        (4 * ext.piConst * ext.defaultPointLightRadius * ext.defaultPointLightRadius)
      let intensity := intensity / ext.glPointLightMult
      { light with type := .sphere, intensity := intensity
                 , radius := ext.defaultPointLightRadius }
    else if gltfLight.type = "spot" then
      let intensity := intensity /
        (ext.piConst * ext.defaultSpotLightRadius * ext.defaultSpotLightRadius)
      let intensity := intensity / ext.glSpotLightMult
      let coneAngle := gltfLight.spot.outerConeAngle * ext.rad2degConst
      let coneFalloff :=
        if gltfLight.spot.outerConeAngle > 0 then
          1 - gltfLight.spot.innerConeAngle / gltfLight.spot.outerConeAngle
        else 0
      { light with type := .disk, intensity := intensity
                 , radius := ext.defaultSpotLightRadius
                 , coneAngle := coneAngle, coneFalloff := coneFalloff }
    else { light with intensity := intensity })
  { ctx with usd := { ctx.usd with lights := lights } }

/-- The supported extension names (gltfImport.cpp lines 2825-2863). -/
def supportedExtensionList : List String :=
  ["KHR_draco_mesh_compression", "KHR_lights_punctual", "KHR_materials_anisotropy",
   "KHR_materials_clearcoat", "KHR_materials_emissive_strength", "KHR_materials_ior",
   "KHR_materials_sheen", "KHR_materials_specular", "KHR_materials_transmission",
   "KHR_materials_unlit", "KHR_materials_volume", "KHR_texture_transform",
   "EXT_texture_webp", "ADOBE_materials_clearcoat_specular", "ADOBE_materials_clearcoat_tint",
   "EXT_materials_clearcoat_color", "EXT_materials_specular_edge_color", nerfExtString,
   "KHR_materials_pbrSpecularGlossiness", "KHR_materials_diffuse_transmission",
   "KHR_materials_volume_scatter", "KHR_materials_subsurface", "KHR_materials_sss"]

/-- checkExtensions (gltfImport.cpp lines 2865-2895): collect the used or
required extensions that are unsupported (reported in a warning). -/
def checkExtensions (extensionsUsed extensionsRequired : List String) : List String :=
  let step := fun (acc : List String) (e : String) =>
    if supportedExtensionList.contains e then acc
    else if acc.contains e then acc else acc ++ [e]
  extensionsRequired.foldl step (extensionsUsed.foldl step [])

/-- importGltf (gltfImport.cpp lines 2897-2962): the orchestrated import
pipeline.  The boolean result reports import success; the only failing
path is the importMetadata version check. -/
def importGltf (ext : ExtM) (options : ImportGltfOptions) (g : GModel)
    (filename : String) : UsdData × Bool :=
  let _unsupported := checkExtensions g.extensionsUsed g.extensionsRequired
  let ctx : Ctx := {}
  let baseName := tfGetBaseName filename
  let ctx := { ctx with filenames := ctx.filenames ++ [baseName] }
  let ctx := g.buffers.foldl
    (fun c buffer =>
      if buffer.uri ≠ "" ∧ ¬ buffer.uri.startsWith "data:" then
        { c with filenames := c.filenames ++ [buffer.uri] }
      else c)
    ctx
  let ctx := { ctx with usd := { ctx.usd with
    doc := "gltf2usd", upAxis := "y", metersPerUnit := 1, timeCodesPerSecond := 1 } }
  let mdRes := importMetadata ctx g
  if ¬ mdRes.snd then (mdRes.fst.usd, false)
  else
    let ctx := mdRes.fst
    let ctx := importCameras ext ctx g
    let ctx := if options.importMaterials then (importMaterials ext ctx g).fst else ctx
    let ctx :=
      if options.importGeometry then
        let ctx := importLights ext ctx g
        let ctx := importMeshes ctx options g
        let ctx := { ctx with usd := { ctx.usd with
          skeletons := List.replicate g.skins.length ({} : Skeleton) } }
        let ctx := (importNodes ext ctx g).fst
        let ctx := importSkeletons ext ctx g
        let ctx := importAnimationTracks ctx g
        let ctx := importNodeAnimations ctx g
        let ctx := importSkeletonAnimations ext ctx g
        checkMeshInstancing ctx
      else ctx
    let ctx := { ctx with usd := { ctx.usd with filenamesMetadata := ctx.filenames } }
    (ctx.usd, true)

/-- The raw time values a joint contributes to the definitive time axis
of one track: the concatenated rotation, translation and scale times of
its node animation when the joint passes the reference checks of the
definitive-time loop, nothing otherwise. -/
def contributingTimes (ctx : Ctx) (nodeIdx : Int) (animationTrackIndex : Nat) : List ℚ :=
  match alistFind ctx.nodeMap nodeIdx with
  | none => []
  | some usdIdx =>
    if usdIdx < 0 ∨ usdIdx ≥ (ctx.usd.nodes.length : Int) then []
    else
      let node := ctx.usd.nodes.getD usdIdx.toNat {}
      if animationTrackIndex < node.animations.length then
        let na := node.animations.getD animationTrackIndex {}
        na.rotations.times ++ na.translations.times ++ na.scales.times
      else []

/-- The traversal measure: the number of in-range source indices not yet
in the currently-traversing set.  Every recursive descent into a child
strictly decreases it, which bounds the recursion depth. -/
def travMeasure (g : GModel) (st : TravState) : Nat :=
  ((List.range g.nodes.length).filter
    (fun i => ¬ st.traversed.contains (Int.ofNat i))).length

/-- The traversal invariant: the destination array keeps the source node
count; mapped keys are in the currently-traversing set; the map's keys
and slot values are duplicate-free; slot values lie below the allocation
cursor; and every rebuilt child list only points to strictly larger
slots. -/
def travInv (g : GModel) (st : TravState) : Prop :=
  st.usdNodes.length = g.nodes.length ∧
  0 ≤ st.curUsdIndex ∧
  (∀ kv ∈ st.nodeMap, st.traversed.contains kv.fst) ∧
  (st.nodeMap.map Prod.fst).Nodup ∧
  (∀ kv ∈ st.nodeMap, 0 ≤ kv.snd ∧ kv.snd < st.curUsdIndex) ∧
  (st.nodeMap.map Prod.snd).Nodup ∧
  (∀ u : Nat, u < st.usdNodes.length →
    ∀ c ∈ (st.usdNodes.getD u ({} : UNode)).children, (u : Int) < c)

/-- The step relation between traversal states: the currently-traversing
set and the index map only grow, the allocation cursor is monotone, the
destination array keeps its length, and any new map entry received a slot
at or above the old cursor. -/
def travStep (st st' : TravState) : Prop :=
  (∀ x ∈ st.traversed, x ∈ st'.traversed) ∧
  st.curUsdIndex ≤ st'.curUsdIndex ∧
  st'.usdNodes.length = st.usdNodes.length ∧
  (∀ kv ∈ st.nodeMap, kv ∈ st'.nodeMap) ∧
  (∀ kv ∈ st'.nodeMap, kv ∈ st.nodeMap ∨ st.curUsdIndex ≤ kv.snd)

/-- The initial traversal state importNodes builds (gltfImport.cpp lines
2714-2726), parametrized over the context pieces it copies. -/
def travInit (g : GModel) (ctx : Ctx) : TravState :=
  { usdNodes := List.replicate g.nodes.length {}
  , curUsdIndex := 0
  , nodeMap := ctx.nodeMap
  , parentMap := ctx.parentMap
  , traversed := []
  , skinnedNodes := []
  , meshUseCount := ctx.meshUseCount
  , ngps := ctx.usd.ngps
  , diags := [] }

/-- The number of mesh-part slots reserved before mesh i of the source
document (the flattened primitive count of the preceding meshes). -/
def primCountBefore (g : GModel) (i : Nat) : Nat :=
  (((g.meshes.take i).map (fun m => m.primitives.length)).sum)

/-- The canonical meshes the importMeshes loop appends for the mesh
entries l, in traversal order. -/
def meshListFor (opts : ImportGltfOptions) (g : GModel) (l : List (Nat × GMesh)) : List UMesh :=
  l.flatMap (fun p => p.snd.primitives.enum.map (fun q => importPrimitive opts g p.snd q.fst q.snd))

/-- The number of primitives in the first k mesh entries of l. -/
def primsBefore (l : List (Nat × GMesh)) (k : Nat) : Nat :=
  ((l.take k).map (fun p => p.snd.primitives.length)).sum

/-- Concrete fixture: a five-vertex TRIANGLE_FAN primitive with authored
indices 0..4 (accessor 0) and a five-element POSITION accessor. -/
def fanModel : GModel :=
  { accessors :=
      [ { count := 5, type := 65, intData := [0, 1, 2, 3, 4] }
      , { count := 5, type := 3, floatData := List.replicate 15 0 } ]
  , meshes := [ { name := "fanMesh"
                , primitives := [ { attributes := [("POSITION", 1)], indices := 0, mode := 6 } ] } ] }

/-- Concrete fixture: a material with an authored base normal map of
strength 3 and an authored clearcoat normal map of strength 3. -/
def normalModel : GModel :=
  { textures := [ { sampler := -1, source := 0 } ]
  , images := [ { name := "img", uri := "img.png" } ]
  , materials :=
      [ { name := "mat"
        , normalTexture := { index := 0, scale := 3 }
        , extensions :=
            [ ("KHR_materials_clearcoat",
               Json.objVal
                 [ ("clearcoatFactor", Json.realVal 1)
                 , ("clearcoatNormalTexture",
                    Json.objVal [ ("index", Json.intVal 0), ("scale", Json.realVal 3) ]) ]) ] } ] }

/-- Concrete fixture: an unlit material with a constant base color and an
empty emissive channel. -/
def unlitModel : GModel :=
  { materials := [ { name := "um"
                   , pbrMetallicRoughness := { baseColorFactor := [1/4, 1/2, 3/4, 1] }
                   , emissiveFactor := [0, 0, 0]
                   , extensions := [ ("KHR_materials_unlit", Json.objVal []) ] } ] }

/-- Concrete fixture: a material carrying the ratified transmission
extension whose clearcoat lobe is already populated by an authored
clearcoat extension. -/
def c8Model : GModel :=
  { materials := [ { name := "cm"
                   , extensions :=
                       [ ("KHR_materials_transmission",
                          Json.objVal [("transmissionFactor", Json.realVal (1/2))])
                       , ("KHR_materials_clearcoat",
                          Json.objVal [("clearcoatFactor", Json.realVal 1)]) ] } ] }

/-- Concrete fixture: a primitive with authored indices [0] and no
POSITION data, so its maximum index 0 reaches the vertex count 0. -/
def c5Model : GModel :=
  { accessors := [ { count := 1, type := 65, intData := [0] } ]
  , meshes := [ { name := "m"
                , primitives :=
                    [ { attributes := [("POSITION", 5)], indices := 0, mode := 4 } ] } ] }

/-- Concrete fixture: a two-vertex primitive whose authored indices reach
up to 5, well beyond the vertex count, so the pre-validation degrades it
to an empty mesh. -/
def c5BadModel : GModel :=
  { accessors :=
      [ { count := 3, type := 65, intData := [0, 1, 5] }
      , { count := 2, type := 3, floatData := List.replicate 6 0 } ]
  , meshes := [ { name := "bad"
                , primitives :=
                    [ { attributes := [("POSITION", 1)], indices := 0, mode := 4 } ] } ] }

/-- Concrete fixture: a well-formed one-node document whose scene also
lists the out-of-range root index 5, which triggers the internal
capacity check during traversal. -/
def c1Model : GModel :=
  { asset := { version := "2.0" }
  , nodes := [ { name := "root" } ]
  , scenes := [ { nodes := [0, 5] } ] }

/-- Concrete fixture: an extension map carrying KHR_materials_volume_scatter
but not KHR_materials_volume. -/
def vsOnlyMap : ExtensionMap :=
  [ ("KHR_materials_volume_scatter",
     Json.objVal [ ("multiscatterColor",
       Json.arrVal [Json.realVal (1/2), Json.realVal (1/2), Json.realVal (1/2)]) ]) ]

/-- Concrete fixture: one skin over one animated joint node whose
translation curve is keyed at times 0 and 2 and whose rotation curve is
keyed at times 1 and 2. -/
def c6Model : GModel :=
  { asset := { version := "2.0" }
  , nodes := [ { name := "joint0" } ]
  , scenes := [ { nodes := [0] } ]
  , skins := [ { name := "skin0", joints := [0] } ]
  , accessors :=
      [ { count := 2, type := 65, floatData := [0, 2] }
      , { count := 2, type := 3, floatData := List.replicate 6 0 }
      , { count := 2, type := 65, floatData := [1, 2] }
      , { count := 2, type := TYPE_VEC4, floatData := List.replicate 8 0 } ]
  , animations :=
      [ { name := "anim"
        , channels :=
            [ { sampler := 0, targetNode := 0, targetPath := "translation" }
            , { sampler := 1, targetNode := 0, targetPath := "rotation" } ]
        , samplers :=
            [ { input := 0, output := 1 }
            , { input := 2, output := 3 } ] } ] }

/-- The joint-array length invariant of the spec: the four parallel
joint arrays of a Skeleton all have length n. -/
def skelLenOk (n : Nat) (s : Skeleton) : Prop :=
  s.joints.length = n ∧ s.jointNames.length = n ∧
  s.restTransforms.length = n ∧ s.bindTransforms.length = n

/-- Concrete fixture: a context holding one joint node whose rotation
curve is keyed at times 1 and 2 and whose translation curve is keyed at
times 0 and 2, on one animation track. -/
def c6Ctx : Ctx :=
  { nodeMap := [(0, 0)]
  , usd :=
      { nodes :=
          [ { name := "joint0"
            , isJoint := true
            , animations :=
                [ { rotations :=
                      { times := [1, 2]
                      , values := [ { re := 1, i := 0, j := 0, k := 0 }
                                  , { re := 0, i := 1, j := 0, k := 0 } ] }
                  , translations :=
                      { times := [0, 2]
                      , values := [ { x := 0, y := 0, z := 0 }
                                  , { x := 1, y := 1, z := 1 } ] } } ] } ]
      , animationTracks := [ {} ] } }

/-- Concrete fixture: a skeleton whose per-track animation array is
allocated for the single track of c6Ctx. -/
def c6Skel : Skeleton :=
  { skeletonAnimations := [ {} ] }

/-- Concrete fixture: a skin with one valid and one out-of-range joint
index, for the skeleton length invariant. -/
def c2Skin : GSkin :=
  { name := "skin", joints := [0, 7] }

/-- Concrete fixture: a one-node one-skin document for the skeleton
length witness. -/
def c2Model : GModel :=
  { nodes := [ { name := "j" } ]
  , scenes := [ { nodes := [0] } ]
  , skins := [ c2Skin ] }

/-- Concrete fixture: a context whose skeleton array is allocated at
c2Model's skin count, as importGltf allocates it before importSkeletons. -/
def c2Ctx : Ctx :=
  { usd := { skeletons := List.replicate c2Model.skins.length ({} : Skeleton) } }

/-- The source material record of unlitModel. -/
def unlitGm : GMaterial := unlitModel.materials.getD 0 {}

/-- A canonical material state with a constant base color, as the earlier
pipeline stages leave it for the unlit fixture. -/
def c7Mat : Material :=
  { displayName := "um"
  , diffuseColor := { value := GfValue.vec4 { x := 1/4, y := 1/2, z := 3/4, w := 1 } } }

/-- The source material record of normalModel. -/
def normalGm : GMaterial := normalModel.materials.getD 0 {}

/-- The source material record of c8Model. -/
def c8Gm : GMaterial := c8Model.materials.getD 0 {}

/-- A canonical material state whose base color and clearcoat lobes are
both in use, as an authored clearcoat extension leaves them before the
transmission block runs. -/
def c8Mat : Material :=
  { displayName := "cm"
  , diffuseColor := { value := GfValue.vec4 { x := 1, y := 1, z := 1, w := 1 } }
  , clearcoat := { value := GfValue.floatVal 1 }
  , clearcoatRoughness := { value := GfValue.floatVal (1/10) } }

/-- Concrete fixture: a malformed, cyclic glTF document - node 0 lists
node 1 as its child and node 1 lists node 0 back, with node 0 as the
scene root. -/
def cycModel : GModel :=
  { asset := { version := "2.0" }
  , nodes := [ { name := "a", children := [1] }, { name := "b", children := [0] } ]
  , scenes := [ { nodes := [0] } ] }

/-! ## Theorems -/

/-- The length of a list of 3-element blocks indexed over a range. -/
theorem triBlocks_length {α : Type} (f1 f2 f3 : Nat → α) (n : Nat) :
    ((List.range n).flatMap (fun i => [f1 i, f2 i, f3 i])).length = 3 * n := by
  induction n with
  | zero => simp
  | succ n ih =>
      rw [List.range_succ, List.flatMap_append, List.length_append, ih]
      simp
      ring

/-- Dropping whole 3-element blocks from a block list shifts the range. -/
theorem triBlocks_drop {α : Type} (f1 f2 f3 : Nat → α) :
    ∀ i s n, i ≤ n →
      ((List.range' s n).flatMap (fun k => [f1 k, f2 k, f3 k])).drop (3 * i) =
      (List.range' (s + i) (n - i)).flatMap (fun k => [f1 k, f2 k, f3 k]) := by
  intro i
  induction i with
  | zero => intro s n _; simp
  | succ i ih =>
      intro s n hin
      obtain ⟨m, rfl⟩ : ∃ m, n = m + 1 := ⟨n - 1, by omega⟩
      rw [List.range'_succ]
      simp only [List.flatMap_cons, List.cons_append, List.nil_append]
      rw [show 3 * (i + 1) = 3 * i + 1 + 1 + 1 by ring]
      rw [List.drop_succ_cons, List.drop_succ_cons, List.drop_succ_cons]
      rw [ih (s + 1) m (by omega)]
      rw [show s + 1 + i = s + (i + 1) by omega, show m - i = m + 1 - (i + 1) by omega]

/-- The i-th 3-element block of a block list. -/
theorem triBlocks_take {α : Type} (f1 f2 f3 : Nat → α) (n i : Nat) (hi : i < n) :
    (((List.range n).flatMap (fun k => [f1 k, f2 k, f3 k])).drop (3 * i)).take 3 =
      [f1 i, f2 i, f3 i] := by
  rw [List.range_eq_range', triBlocks_drop f1 f2 f3 i 0 n (by omega)]
  have hm : n - i = (n - i - 1) + 1 := by omega
  rw [hm, List.range'_succ]
  simp only [List.flatMap_cons, List.cons_append, List.nil_append, Nat.zero_add]
  rfl

/-- chunk3 of a list of 3n scalars has n elements. -/
theorem chunk3_length3 : ∀ (n : Nat) (xs : List ℚ), xs.length = 3 * n → (chunk3 xs).length = n
  | 0, [], _ => rfl
  | 0, _ :: _, h => by simp at h
  | n + 1, [], h => by simp at h
  | n + 1, [_], h => by simp at h; omega
  | n + 1, [_, _], h => by simp at h; omega
  | n + 1, a :: b :: c :: rest, h => by
      have hr : rest.length = 3 * n := by simp at h; omega
      have := chunk3_length3 n rest hr
      simp only [chunk3, List.length_cons]
      omega

/-- Reading n Vec3 accessor elements yields n vectors. -/
theorem readAccessorVec3s_length (g : GModel) (idx : Int) (n : Nat) :
    (readAccessorVec3s g idx n).length = n := by
  apply chunk3_length3
  unfold readAccessorFloats
  simp [List.length_take, List.length_replicate]

/-- importMeshJointWeights only writes the joint/weight fields. -/
theorem importMeshJointWeights_indices (g : GModel) (p : GPrimitive) (mesh : UMesh) :
    (importMeshJointWeights g p mesh).indices = mesh.indices := by
  simp only [importMeshJointWeights]
  repeat' split
  all_goals rfl

/-- The index buffer of a non-skipped primitive is exactly the topology
switch applied at the primitive's vertex count. -/
theorem importPrimitive_indices (opts : ImportGltfOptions) (g : GModel) (gmesh : GMesh)
    (j : Nat) (prim : GPrimitive) (h : primSkipsLoading g prim = false) :
    (importPrimitive opts g gmesh j prim).indices =
      primIndices g prim (primVertexCount g prim) := by
  simp only [importPrimitive, h, Bool.false_eq_true, if_false,
    apply_ite UMesh.indices, apply_ite UMesh.points, apply_ite List.length,
    importMeshJointWeights_indices, ite_self]
  rw [readAccessorVec3s_length]

/-- C4 (corrected): for every TRIANGLE_FAN primitive with at least 3
indices that passes index validation, the expansion emits, for each i,
the triangle (fan[i+1], fan[i+2], fan[0]) — the pivot vertex fan[0] is
the LAST vertex of each emitted triangle, not the first as the claim
states — and the output holds exactly 3*(n-2) indices. -/
theorem C4_triangle_fan_expansion (opts : ImportGltfOptions) (g : GModel) (gmesh : GMesh)
    (j : Nat) (prim : GPrimitive)
    (hmode : prim.mode = 6)
    (hskip : primSkipsLoading g prim = false)
    (hlen : 3 ≤ (getIndices g prim.indices (primVertexCount g prim)).length) :
    ((importPrimitive opts g gmesh j prim).indices).length =
      3 * ((getIndices g prim.indices (primVertexCount g prim)).length - 2) ∧
    ∀ i < (getIndices g prim.indices (primVertexCount g prim)).length - 2,
      (((importPrimitive opts g gmesh j prim).indices).drop (3 * i)).take 3 =
        [(getIndices g prim.indices (primVertexCount g prim)).getD (i + 1) 0,
         (getIndices g prim.indices (primVertexCount g prim)).getD (i + 2) 0,
         (getIndices g prim.indices (primVertexCount g prim)).getD 0 0] := by
  rw [importPrimitive_indices opts g gmesh j prim hskip]
  unfold primIndices
  rw [hmode]
  norm_num
  rw [if_neg (by omega)]
  constructor
  · exact triBlocks_length _ _ _ _
  · intro i hi
    exact triBlocks_take _ _ _ _ i (by omega)

/-- C4 counterexample: the fan primitive with authored indices
[0, 1, 2, 3, 4] expands to [1, 2, 0, 2, 3, 0, 3, 4, 0] and not to the
pivot-first list [0, 1, 2, 0, 2, 3, 0, 3, 4] the claim states. -/
theorem C4_counterexample :
    ((importMeshes ({} : Ctx) {} fanModel).usd.meshes.getD 0 {}).indices
        = [1, 2, 0, 2, 3, 0, 3, 4, 0] ∧
    ¬ ((importMeshes ({} : Ctx) {} fanModel).usd.meshes.getD 0 {}).indices
        = [0, 1, 2, 0, 2, 3, 0, 3, 4] := by
  constructor
  · decide
  · decide

/-- Witness: the fan expansion theorem applied to the concrete five-index
fan primitive. -/
theorem C4_triangle_fan_expansion_witness :
    ((importPrimitive {} fanModel (fanModel.meshes.getD 0 {}) 0
        ((fanModel.meshes.getD 0 {}).primitives.getD 0 {})).indices).length =
      3 * ((getIndices fanModel ((fanModel.meshes.getD 0 {}).primitives.getD 0 {}).indices
        (primVertexCount fanModel ((fanModel.meshes.getD 0 {}).primitives.getD 0 {}))).length - 2) :=
  (C4_triangle_fan_expansion {} fanModel (fanModel.meshes.getD 0 {}) 0
    ((fanModel.meshes.getD 0 {}).primitives.getD 0 {})
    (by decide) (by decide) (by decide)).1

/-- The diffuse-transmission stage never touches the clearcoat group of
channels. -/
theorem stage_dt_clearcoat (ext : ExtM) (ctx : Ctx) (g : GModel) (gm : GMaterial)
    (m : Material) (hasT : Bool) :
    ((importMaterialDiffuseTransmissionBlock ext ctx g gm m hasT).snd.clearcoat = m.clearcoat ∧
     (importMaterialDiffuseTransmissionBlock ext ctx g gm m hasT).snd.clearcoatRoughness = m.clearcoatRoughness ∧
     (importMaterialDiffuseTransmissionBlock ext ctx g gm m hasT).snd.clearcoatNormal = m.clearcoatNormal ∧
     (importMaterialDiffuseTransmissionBlock ext ctx g gm m hasT).snd.clearcoatSpecular = m.clearcoatSpecular ∧
     (importMaterialDiffuseTransmissionBlock ext ctx g gm m hasT).snd.clearcoatIor = m.clearcoatIor ∧
     (importMaterialDiffuseTransmissionBlock ext ctx g gm m hasT).snd.clearcoatColor = m.clearcoatColor) := by
  simp only [importMaterialDiffuseTransmissionBlock]
  repeat' split
  all_goals simp_all

/-- The volume / volume-scatter / subsurface stage never touches the
clearcoat group of channels. -/
theorem stage_vol_clearcoat (ext : ExtM) (ctx : Ctx) (g : GModel) (gm : GMaterial)
    (m : Material) :
    ((importMaterialVolumeBlock ext ctx g gm m).snd.clearcoat = m.clearcoat ∧
     (importMaterialVolumeBlock ext ctx g gm m).snd.clearcoatRoughness = m.clearcoatRoughness ∧
     (importMaterialVolumeBlock ext ctx g gm m).snd.clearcoatNormal = m.clearcoatNormal ∧
     (importMaterialVolumeBlock ext ctx g gm m).snd.clearcoatSpecular = m.clearcoatSpecular ∧
     (importMaterialVolumeBlock ext ctx g gm m).snd.clearcoatIor = m.clearcoatIor ∧
     (importMaterialVolumeBlock ext ctx g gm m).snd.clearcoatColor = m.clearcoatColor) := by
  simp only [importMaterialVolumeBlock]
  repeat' split
  all_goals simp_all [applyInputMultiplier]
  all_goals repeat' split
  all_goals simp_all

/-- The common material tail (unlit, emissive, opacity threshold, normal,
occlusion) never touches the clearcoat group of channels. -/
theorem stage_common_clearcoat (ext : ExtM) (ctx : Ctx) (g : GModel) (gm : GMaterial)
    (m : Material) :
    ((importMaterialCommon ext ctx g gm m).snd.clearcoat = m.clearcoat ∧
     (importMaterialCommon ext ctx g gm m).snd.clearcoatRoughness = m.clearcoatRoughness ∧
     (importMaterialCommon ext ctx g gm m).snd.clearcoatNormal = m.clearcoatNormal ∧
     (importMaterialCommon ext ctx g gm m).snd.clearcoatSpecular = m.clearcoatSpecular ∧
     (importMaterialCommon ext ctx g gm m).snd.clearcoatIor = m.clearcoatIor ∧
     (importMaterialCommon ext ctx g gm m).snd.clearcoatColor = m.clearcoatColor) := by
  simp only [importMaterialCommon]
  repeat' split
  all_goals simp_all

/-- C9 (corrected): each normal-map channel receives a fixed post-sample
transform scaled by the declared strength s, but the two paths differ:
the base normal map (importNormalInput is not used there; gltfImport.cpp
lines 1387-1411) gets scale (2s, 2s, 2, 1) and bias (-s, -s, -1, 0) with
the z component fixed at 2 and -1, while the clearcoat normal map (via
importNormalInput, lines 571-596) gets scale (2s, 2s, 2s, 1) and bias
(-s, -s, -s, 0) on all three axes.  The spec's uniform
(2s, 2s, 2s, 1) / (-s, -s, -s, 0) holds only for the clearcoat path. -/
theorem C9_normal_transform (ext : ExtM) (ctx : Ctx) (g : GModel) (gm : GMaterial)
    (m : Material) :
    ((gm.normalTexture.index ≥ 0 →
        (importMaterialCommon ext ctx g gm m).snd.normal.scale =
          { x := 2 * gm.normalTexture.scale, y := 2 * gm.normalTexture.scale, z := 2, w := 1 } ∧
        (importMaterialCommon ext ctx g gm m).snd.normal.bias =
          { x := -1 * gm.normalTexture.scale, y := -1 * gm.normalTexture.scale, z := -1, w := 0 })) ∧
    ((importClearcoat gm.extensions {}).snd = true →
      (importClearcoat gm.extensions {}).fst.normalTexture.index ≥ 0 →
        (importMaterialCoatSheen ext ctx g gm m).snd.clearcoatNormal.scale =
          { x := 2 * (importClearcoat gm.extensions {}).fst.normalTexture.scale
          , y := 2 * (importClearcoat gm.extensions {}).fst.normalTexture.scale
          , z := 2 * (importClearcoat gm.extensions {}).fst.normalTexture.scale, w := 1 } ∧
        (importMaterialCoatSheen ext ctx g gm m).snd.clearcoatNormal.bias =
          { x := -1 * (importClearcoat gm.extensions {}).fst.normalTexture.scale
          , y := -1 * (importClearcoat gm.extensions {}).fst.normalTexture.scale
          , z := -1 * (importClearcoat gm.extensions {}).fst.normalTexture.scale, w := 0 }) := by
  constructor
  · intro h
    simp only [importMaterialCommon, h, if_pos, ge_iff_le, importNormalInput]
    repeat' split
    all_goals simp_all
  · intro hcc hidx
    simp only [importMaterialCoatSheen, hcc, if_pos, importNormalInput, hidx]
    repeat' split
    all_goals simp_all

/-- C9 counterexample: the fixture's base normal map has strength 3, so
the spec's uniform rule predicts a z scale of 2 * 3 = 6 and a z bias of
-1 * 3 = -3, but the importer produces the fixed z scale 2 and z bias
-1. -/
theorem C9_counterexample :
    normalGm.normalTexture.scale = 3 ∧
    2 * normalGm.normalTexture.scale = 6 ∧
    -1 * normalGm.normalTexture.scale = -3 ∧
    (importMaterialCommon extDefault {} normalModel normalGm {}).snd.normal.scale.z = 2 ∧
    (importMaterialCommon extDefault {} normalModel normalGm {}).snd.normal.bias.z = -1 ∧
    ¬ ((importMaterialCommon extDefault {} normalModel normalGm {}).snd.normal.scale.z = 6) ∧
    ¬ ((importMaterialCommon extDefault {} normalModel normalGm {}).snd.normal.bias.z = -3) := by
  refine ⟨by decide, by norm_num [normalGm, normalModel], by norm_num [normalGm, normalModel],
    by decide, by decide, by decide, by decide⟩

/-- C9 witness: both parts of the corrected normal-transform theorem at
the concrete normal-map fixture. -/
theorem C9_normal_transform_witness :
    (normalGm.normalTexture.index ≥ 0 ∧
      ((importMaterialCommon extDefault {} normalModel normalGm {}).snd.normal.scale =
         { x := 2 * normalGm.normalTexture.scale, y := 2 * normalGm.normalTexture.scale
         , z := 2, w := 1 } ∧
       (importMaterialCommon extDefault {} normalModel normalGm {}).snd.normal.bias =
         { x := -1 * normalGm.normalTexture.scale, y := -1 * normalGm.normalTexture.scale
         , z := -1, w := 0 })) ∧
    ((importClearcoat normalGm.extensions {}).snd = true ∧
     (importClearcoat normalGm.extensions {}).fst.normalTexture.index ≥ 0 ∧
      ((importMaterialCoatSheen extDefault {} normalModel normalGm {}).snd.clearcoatNormal.scale =
         { x := 2 * (importClearcoat normalGm.extensions {}).fst.normalTexture.scale
         , y := 2 * (importClearcoat normalGm.extensions {}).fst.normalTexture.scale
         , z := 2 * (importClearcoat normalGm.extensions {}).fst.normalTexture.scale, w := 1 } ∧
       (importMaterialCoatSheen extDefault {} normalModel normalGm {}).snd.clearcoatNormal.bias =
         { x := -1 * (importClearcoat normalGm.extensions {}).fst.normalTexture.scale
         , y := -1 * (importClearcoat normalGm.extensions {}).fst.normalTexture.scale
         , z := -1 * (importClearcoat normalGm.extensions {}).fst.normalTexture.scale, w := 0 })) :=
  ⟨⟨by decide, (C9_normal_transform extDefault {} normalModel normalGm {}).1 (by decide)⟩,
   ⟨by decide, by decide,
    (C9_normal_transform extDefault {} normalModel normalGm {}).2 (by decide) (by decide)⟩⟩

/-- C7 (confirmed): for a material with the unlit flag set, a non-empty
base color input and an empty emissive channel (no emissive texture, no
positive emissive factor), after the common material tail the emissive
channel equals the original base color input and the base color channel
holds the constant zero vector (gltfImport.cpp lines 1359-1382). -/
theorem C7_unlit_rewrite (ext : ExtM) (ctx : Ctx) (g : GModel) (gm : GMaterial) (m : Material)
    (hunlit : importUnlit gm.extensions = true)
    (htex : gm.emissiveTexture.index < 0)
    (hfac : ¬ (gm.emissiveFactor.length = 3 ∧
      (gm.emissiveFactor.getD 0 0 > 0 ∨ gm.emissiveFactor.getD 1 0 > 0 ∨
       gm.emissiveFactor.getD 2 0 > 0)))
    (hused : isInputUsed m.diffuseColor = true) :
    (importMaterialCommon ext ctx g gm m).snd.emissiveColor = m.diffuseColor ∧
    (importMaterialCommon ext ctx g gm m).snd.diffuseColor.value =
      GfValue.vec3 { x := 0, y := 0, z := 0 } ∧
    (importMaterialCommon ext ctx g gm m).snd.isUnlit = true := by
  simp only [importMaterialCommon, hunlit, if_pos, if_neg (by omega : ¬ gm.emissiveTexture.index ≥ 0),
    if_neg hfac, importValue3]
  repeat' split
  all_goals simp_all

/-- C7 witness: the unlit rewrite at the concrete unlit fixture. -/
theorem C7_unlit_rewrite_witness :
    importUnlit unlitGm.extensions = true ∧
    unlitGm.emissiveTexture.index < 0 ∧
    ¬ (unlitGm.emissiveFactor.length = 3 ∧
       (unlitGm.emissiveFactor.getD 0 0 > 0 ∨ unlitGm.emissiveFactor.getD 1 0 > 0 ∨
        unlitGm.emissiveFactor.getD 2 0 > 0)) ∧
    isInputUsed c7Mat.diffuseColor = true ∧
    ((importMaterialCommon extDefault {} unlitModel unlitGm c7Mat).snd.emissiveColor =
       c7Mat.diffuseColor ∧
     (importMaterialCommon extDefault {} unlitModel unlitGm c7Mat).snd.diffuseColor.value =
       GfValue.vec3 { x := 0, y := 0, z := 0 } ∧
     (importMaterialCommon extDefault {} unlitModel unlitGm c7Mat).snd.isUnlit = true) :=
  ⟨by decide, by decide, by decide, by decide,
   C7_unlit_rewrite extDefault {} unlitModel unlitGm c7Mat (by decide) (by decide)
     (by decide) (by decide)⟩

/-- C8 (corrected): for a material carrying the ratified transmission
extension whose base color and clearcoat lobes are both in use, the
tinted-transmission approximation is skipped and all six clearcoat-group
channels pass through the remaining pipeline stages unchanged; but the
recorded diagnostic is a TF_DEBUG_MSG (a debug-channel message), not a
warning (gltfImport.cpp lines 1248-1291, the TF_DEBUG_MSG at 1286-1288). -/
theorem C8_transmission_skip (ext : ExtM) (ctx : Ctx) (g : GModel) (gm : GMaterial)
    (m : Material)
    (hT : (importTransmission gm.extensions {}).snd = true)
    (hdc : isInputUsed m.diffuseColor = true)
    (hcc : isInputUsed m.clearcoat = true) :
    let r1 := importMaterialTransmissionBlock ext ctx g gm m
    let r2 := importMaterialDiffuseTransmissionBlock ext r1.1 g gm r1.2.1 r1.2.2.1
    let r3 := importMaterialVolumeBlock ext r2.1 g gm r2.2
    let r4 := importMaterialCommon ext r3.1 g gm r3.2
    r1.2.2.2 = [Diag.debugCantTouchClearcoat m.displayName] ∧
    (Diag.debugCantTouchClearcoat m.displayName).kind = DiagKind.debugMsg ∧
    r4.snd.clearcoat = m.clearcoat ∧
    r4.snd.clearcoatRoughness = m.clearcoatRoughness ∧
    r4.snd.clearcoatNormal = m.clearcoatNormal ∧
    r4.snd.clearcoatSpecular = m.clearcoatSpecular ∧
    r4.snd.clearcoatIor = m.clearcoatIor ∧
    r4.snd.clearcoatColor = m.clearcoatColor := by
  intro r1 r2 r3 r4
  have hblock : (importMaterialTransmissionBlock ext ctx g gm m).2.1.clearcoat = m.clearcoat ∧
      (importMaterialTransmissionBlock ext ctx g gm m).2.1.clearcoatRoughness = m.clearcoatRoughness ∧
      (importMaterialTransmissionBlock ext ctx g gm m).2.1.clearcoatNormal = m.clearcoatNormal ∧
      (importMaterialTransmissionBlock ext ctx g gm m).2.1.clearcoatSpecular = m.clearcoatSpecular ∧
      (importMaterialTransmissionBlock ext ctx g gm m).2.1.clearcoatIor = m.clearcoatIor ∧
      (importMaterialTransmissionBlock ext ctx g gm m).2.1.clearcoatColor = m.clearcoatColor ∧
      (importMaterialTransmissionBlock ext ctx g gm m).2.2.2 =
        [Diag.debugCantTouchClearcoat m.displayName] := by
    simp only [importMaterialTransmissionBlock, hT, if_pos]
    simp_all
  have h2 := stage_dt_clearcoat ext r1.1 g gm r1.2.1 r1.2.2.1
  have h3 := stage_vol_clearcoat ext r2.1 g gm r2.2
  have h4 := stage_common_clearcoat ext r3.1 g gm r3.2
  refine ⟨hblock.2.2.2.2.2.2, rfl, ?_, ?_, ?_, ?_, ?_, ?_⟩
  · rw [h4.1]
    show (importMaterialVolumeBlock ext r2.1 g gm r2.2).snd.clearcoat = m.clearcoat
    rw [h3.1]
    show (importMaterialDiffuseTransmissionBlock ext r1.1 g gm r1.2.1 r1.2.2.1).snd.clearcoat = _
    rw [h2.1, hblock.1]
  · rw [h4.2.1]
    show (importMaterialVolumeBlock ext r2.1 g gm r2.2).snd.clearcoatRoughness = _
    rw [h3.2.1]
    show (importMaterialDiffuseTransmissionBlock ext r1.1 g gm r1.2.1 r1.2.2.1).snd.clearcoatRoughness = _
    rw [h2.2.1, hblock.2.1]
  · rw [h4.2.2.1]
    show (importMaterialVolumeBlock ext r2.1 g gm r2.2).snd.clearcoatNormal = _
    rw [h3.2.2.1]
    show (importMaterialDiffuseTransmissionBlock ext r1.1 g gm r1.2.1 r1.2.2.1).snd.clearcoatNormal = _
    rw [h2.2.2.1, hblock.2.2.1]
  · rw [h4.2.2.2.1]
    show (importMaterialVolumeBlock ext r2.1 g gm r2.2).snd.clearcoatSpecular = _
    rw [h3.2.2.2.1]
    show (importMaterialDiffuseTransmissionBlock ext r1.1 g gm r1.2.1 r1.2.2.1).snd.clearcoatSpecular = _
    rw [h2.2.2.2.1, hblock.2.2.2.1]
  · rw [h4.2.2.2.2.1]
    show (importMaterialVolumeBlock ext r2.1 g gm r2.2).snd.clearcoatIor = _
    rw [h3.2.2.2.2.1]
    show (importMaterialDiffuseTransmissionBlock ext r1.1 g gm r1.2.1 r1.2.2.1).snd.clearcoatIor = _
    rw [h2.2.2.2.2.1, hblock.2.2.2.2.1]
  · rw [h4.2.2.2.2.2]
    show (importMaterialVolumeBlock ext r2.1 g gm r2.2).snd.clearcoatColor = _
    rw [h3.2.2.2.2.2]
    show (importMaterialDiffuseTransmissionBlock ext r1.1 g gm r1.2.1 r1.2.2.1).snd.clearcoatColor = _
    rw [h2.2.2.2.2.2, hblock.2.2.2.2.2.1]

/-- C8 counterexample: for the fixture material with both the transmission
and the clearcoat extensions, the diagnostic the transmission block
records is a debug-channel message, not a warning as the spec states. -/
theorem C8_counterexample :
    (importOneMaterial extDefault {} c8Model 0 (c8Model.materials.getD 0 {})).2.2 =
      [Diag.debugCantTouchClearcoat "cm"] ∧
    ¬ ((Diag.debugCantTouchClearcoat "cm").kind = DiagKind.warning) := by decide

/-- C8 witness: the transmission-skip theorem at the concrete fixture with
authored transmission and clearcoat. -/
theorem C8_transmission_skip_witness :
    (importTransmission c8Gm.extensions {}).snd = true ∧
    isInputUsed c8Mat.diffuseColor = true ∧
    isInputUsed c8Mat.clearcoat = true ∧
    (let r1 := importMaterialTransmissionBlock extDefault {} c8Model c8Gm c8Mat
     let r2 := importMaterialDiffuseTransmissionBlock extDefault r1.1 c8Model c8Gm r1.2.1 r1.2.2.1
     let r3 := importMaterialVolumeBlock extDefault r2.1 c8Model c8Gm r2.2
     let r4 := importMaterialCommon extDefault r3.1 c8Model c8Gm r3.2
     r1.2.2.2 = [Diag.debugCantTouchClearcoat c8Mat.displayName] ∧
     (Diag.debugCantTouchClearcoat c8Mat.displayName).kind = DiagKind.debugMsg ∧
     r4.snd.clearcoat = c8Mat.clearcoat ∧
     r4.snd.clearcoatRoughness = c8Mat.clearcoatRoughness ∧
     r4.snd.clearcoatNormal = c8Mat.clearcoatNormal ∧
     r4.snd.clearcoatSpecular = c8Mat.clearcoatSpecular ∧
     r4.snd.clearcoatIor = c8Mat.clearcoatIor ∧
     r4.snd.clearcoatColor = c8Mat.clearcoatColor) :=
  ⟨by decide, by decide, by decide,
   C8_transmission_skip extDefault {} c8Model c8Gm c8Mat (by decide) (by decide) (by decide)⟩

/-- C10 (code bug): for a material whose extension map contains
KHR_materials_volume_scatter but not KHR_materials_volume,
importVolumeScatter does complete using the defaults (the found flag is
true), but the guard at gltfImport.cpp lines 887-888 tests the
volume-scatter iterator (extIt) instead of the volume iterator
(volumeExtIt), so the lookup is not validated before dereference and the
end iterator of the extension map is dereferenced (the derefedEnd flag of
the embedding is raised), for every behavior of the external
end-dereference value. -/
theorem C10_volume_scatter_end_deref (ext : ExtM) :
    (importVolumeScatter ext vsOnlyMap {}).2.1 = true ∧
    (importVolumeScatter ext vsOnlyMap {}).2.2 = true := by
  exact ⟨rfl, rfl⟩

theorem foldl_preserves {α β : Type} (P : α → Prop) (f : α → β → α) :
    ∀ (l : List β) (a : α), (∀ x b, P x → P (f x b)) → P a → P (l.foldl f a)
  | [], _, _, ha => ha
  | b :: l, a, hf, ha => foldl_preserves P f l (f a b) hf (hf a b ha)

theorem foldl_set_length {α : Type} (f : Nat → α) :
    ∀ (idxs : List Nat) (l : List α),
      (idxs.foldl (fun bts j => bts.set j (f j)) l).length = l.length
  | [], _ => rfl
  | j :: idxs, l => by
    rw [List.foldl_cons, foldl_set_length f idxs, List.length_set]

theorem buildSkeletonJoint_lenOk (ext : ExtM) (g : GModel) (names : List (Int × String))
    (nodeMap : List (Int × Int)) (skin : GSkin) (n : Nat) (acc : Skeleton × List UNode)
    (jointIdx : Nat) (h : skelLenOk n acc.1) :
    skelLenOk n (buildSkeletonJoint ext g names nodeMap skin acc jointIdx).1 := by
  obtain ⟨s, u⟩ := acc
  obtain ⟨h1, h2, h3, h4⟩ := h
  simp only [buildSkeletonJoint]
  repeat' split
  all_goals simp_all [skelLenOk, List.length_set]

theorem buildSkeleton_lengths (ext : ExtM) (g : GModel) (names : List (Int × String))
    (nodeMap : List (Int × Int)) (usdNodes : List UNode) (skin : GSkin) (skel : Skeleton) :
    skelLenOk skin.joints.length (buildSkeleton ext g names nodeMap usdNodes skin skel).1 := by
  have hfold := foldl_preserves
    (fun acc : Skeleton × List UNode => skelLenOk skin.joints.length acc.1)
    (buildSkeletonJoint ext g names nodeMap skin)
    (List.range skin.joints.length)
    ({ skel with displayName := skin.name
               , joints := List.replicate skin.joints.length ""
               , jointNames := List.replicate skin.joints.length ""
               , restTransforms := List.replicate skin.joints.length mat4Id
               , bindTransforms := List.replicate skin.joints.length mat4Id }, usdNodes)
    (fun acc j h => buildSkeletonJoint_lenOk ext g names nodeMap skin skin.joints.length acc j h)
    (by simp [skelLenOk])
  simp only [buildSkeleton]
  repeat' split
  all_goals simp_all [skelLenOk, foldl_set_length]

theorem importOneSkeleton_skeletons_length (ext : ExtM) (g : GModel) (ctx : Ctx)
    (p : Nat × GSkin) :
    (importOneSkeleton ext g ctx p).usd.skeletons.length = ctx.usd.skeletons.length := by
  simp [importOneSkeleton]

theorem importOneSkeleton_other (ext : ExtM) (g : GModel) (ctx : Ctx) (p : Nat × GSkin)
    (i : Nat) (h : p.fst ≠ i) :
    (importOneSkeleton ext g ctx p).usd.skeletons[i]? = ctx.usd.skeletons[i]? := by
  simp only [importOneSkeleton]
  exact List.getElem?_set_ne h

theorem skelFold_untouched (ext : ExtM) (g : GModel) :
    ∀ (l : List (Nat × GSkin)) (ctx : Ctx) (i : Nat), i ∉ l.map Prod.fst →
      ((l.foldl (importOneSkeleton ext g) ctx).usd.skeletons[i]? = ctx.usd.skeletons[i]?)
  | [], _, _, _ => rfl
  | p :: l, ctx, i, h => by
    rw [List.foldl_cons,
      skelFold_untouched ext g l _ i (fun hm => h (by simp [hm])),
      importOneSkeleton_other ext g ctx p i (fun he => h (by simp [he]))]

theorem skelFold_spec (ext : ExtM) (g : GModel) :
    ∀ (l : List (Nat × GSkin)) (ctx : Ctx), (l.map Prod.fst).Nodup →
      (∀ p ∈ l, p.fst < ctx.usd.skeletons.length) →
      ∀ i skin, (i, skin) ∈ l →
        skelLenOk skin.joints.length
          ((l.foldl (importOneSkeleton ext g) ctx).usd.skeletons.getD i {})
  | [], _, _, _, _, _, hmem => by simp at hmem
  | p :: l, ctx, hnd, hbound, i, skin, hmem => by
    rw [List.foldl_cons]
    rcases List.mem_cons.mp hmem with heq | htail
    · subst heq
      have hnotin : i ∉ l.map Prod.fst := by
        simpa using (List.nodup_cons.mp hnd).1
      rw [List.getD_eq_getElem?_getD, skelFold_untouched ext g l _ i hnotin]
      have hlt : i < ctx.usd.skeletons.length := hbound (i, skin) (List.mem_cons_self _ _)
      simp only [importOneSkeleton]
      rw [List.getElem?_set_self (by simpa using hlt)]
      exact buildSkeleton_lengths ext g ctx.skeletonNodeNames ctx.nodeMap ctx.usd.nodes skin _
    · exact skelFold_spec ext g l _ (List.nodup_cons.mp hnd).2
        (fun q hq => by
          rw [importOneSkeleton_skeletons_length]
          exact hbound q (List.mem_cons_of_mem _ hq))
        i skin htail

/-- C2 (confirmed): for every source skin, after importSkeletons the
skeleton's joints, jointNames, restTransforms and bindTransforms arrays
all have length equal to the source skin's joint count, including when
individual joint indices are out of bounds or otherwise malformed
(placeholder entries are substituted instead of shrinking the arrays),
provided the skeleton array was allocated at the skin count as importGltf
does before calling importSkeletons. -/
theorem C2_skeleton_lengths (ext : ExtM) (ctx : Ctx) (g : GModel)
    (hlen : ctx.usd.skeletons.length = g.skins.length) (i : Nat) (hi : i < g.skins.length) :
    ((importSkeletons ext ctx g).usd.skeletons.getD i {}).joints.length =
      (g.skins.getD i {}).joints.length ∧
    ((importSkeletons ext ctx g).usd.skeletons.getD i {}).jointNames.length =
      (g.skins.getD i {}).joints.length ∧
    ((importSkeletons ext ctx g).usd.skeletons.getD i {}).restTransforms.length =
      (g.skins.getD i {}).joints.length ∧
    ((importSkeletons ext ctx g).usd.skeletons.getD i {}).bindTransforms.length =
      (g.skins.getD i {}).joints.length := by
  have hmem : (i, g.skins.getD i {}) ∈ g.skins.enum := by
    apply List.mk_mem_enum_iff_getElem?.mpr
    rw [List.getD_eq_getElem g.skins {} hi]
    exact List.getElem?_eq_getElem hi
  have hnd : (g.skins.enum.map Prod.fst).Nodup := by
    rw [List.enum_map_fst]
    exact List.nodup_range _
  unfold importSkeletons
  refine skelFold_spec ext g g.skins.enum _ hnd ?_ i (g.skins.getD i {}) hmem
  intro p hp
  have : p.fst ∈ g.skins.enum.map Prod.fst := List.mem_map_of_mem Prod.fst hp
  rw [List.enum_map_fst] at this
  exact hlen ▸ List.mem_range.mp this

theorem C2_skeleton_lengths_witness :
    c2Ctx.usd.skeletons.length = c2Model.skins.length ∧ 0 < c2Model.skins.length ∧
    (((importSkeletons extDefault c2Ctx c2Model).usd.skeletons.getD 0 {}).joints.length =
       (c2Model.skins.getD 0 {}).joints.length ∧
     ((importSkeletons extDefault c2Ctx c2Model).usd.skeletons.getD 0 {}).jointNames.length =
       (c2Model.skins.getD 0 {}).joints.length ∧
     ((importSkeletons extDefault c2Ctx c2Model).usd.skeletons.getD 0 {}).restTransforms.length =
       (c2Model.skins.getD 0 {}).joints.length ∧
     ((importSkeletons extDefault c2Ctx c2Model).usd.skeletons.getD 0 {}).bindTransforms.length =
       (c2Model.skins.getD 0 {}).joints.length) :=
  ⟨by decide, by decide,
   C2_skeleton_lengths extDefault c2Ctx c2Model (by decide) 0 (by decide)⟩

theorem primSkips_of_outOfRange (g : GModel) (prim : GPrimitive)
    (hidx : prim.indices ≥ 0)
    (hne : getIndices g prim.indices (primVertexCount g prim) ≠ [])
    (hvc : 0 < primVertexCount g prim)
    (hmax : (getIndices g prim.indices (primVertexCount g prim)).foldl max
        ((getIndices g prim.indices (primVertexCount g prim)).headD 0) ≥
        (primVertexCount g prim : Int)) :
    primSkipsLoading g prim = true := by
  simp only [primSkipsLoading]
  rw [if_pos hidx, if_pos (And.intro hne hvc)]
  exact decide_eq_true hmax

theorem importPrimitive_skipped (opts : ImportGltfOptions) (g : GModel) (gmesh : GMesh)
    (j : Nat) (prim : GPrimitive) (h : primSkipsLoading g prim = true) :
    importPrimitive opts g gmesh j prim = {} := by
  simp [importPrimitive, h]

theorem range_map_int_succ (n : Nat) (a : Int) :
    a :: (List.range n).map (fun k : Nat => a + 1 + (k : Int)) =
      (List.range (n + 1)).map (fun k : Nat => a + (k : Int)) := by
  rw [List.range_succ_eq_map, List.map_cons, List.map_map]
  refine congrArg₂ (· :: ·) (by simp) ?_
  refine List.map_congr_left ?_
  intro k _
  simp only [Function.comp]
  push_cast
  ring

theorem innerFold_spec (opts : ImportGltfOptions) (g : GModel) (gmesh : GMesh) :
    ∀ (l : List (Nat × GPrimitive)) (ctx : Ctx) (slots : List Int),
      l.foldl (importMeshPrimitive opts g gmesh) (ctx, slots) =
        ({ ctx with usd := { ctx.usd with
             meshes := ctx.usd.meshes ++
               l.map (fun q => importPrimitive opts g gmesh q.fst q.snd) } },
         slots ++ (List.range l.length).map
           (fun k : Nat => (ctx.usd.meshes.length : Int) + (k : Int)))
  | [], ctx, slots => by simp
  | q :: l, ctx, slots => by
    rw [List.foldl_cons]
    simp only [importMeshPrimitive]
    rw [innerFold_spec opts g gmesh l _ _]
    refine Prod.ext ?_ ?_
    · simp
    · simp only [List.append_assoc, List.singleton_append, List.length_append,
        List.length_cons, List.length_nil]
      push_cast
      rw [range_map_int_succ l.length (ctx.usd.meshes.length : Int)]

theorem importOneMesh_spec (opts : ImportGltfOptions) (g : GModel) (ctx : Ctx)
    (p : Nat × GMesh) :
    importOneMesh opts g ctx p =
      { ctx with
        usd := { ctx.usd with meshes := ctx.usd.meshes ++ meshListFor opts g [p] }
      , meshes := ctx.meshes.set p.fst ((List.range p.snd.primitives.length).map
          (fun k : Nat => (ctx.usd.meshes.length : Int) + (k : Int))) } := by
  simp only [importOneMesh]
  rw [innerFold_spec]
  simp [meshListFor]

theorem meshFold_untouched (opts : ImportGltfOptions) (g : GModel) :
    ∀ (l : List (Nat × GMesh)) (ctx : Ctx) (i : Nat), i ∉ l.map Prod.fst →
      (l.foldl (importOneMesh opts g) ctx).meshes[i]? = ctx.meshes[i]?
  | [], _, _, _ => rfl
  | p :: l, ctx, i, h => by
    rw [List.foldl_cons, meshFold_untouched opts g l _ i (fun hm => h (by simp [hm])),
      importOneMesh_spec]
    exact List.getElem?_set_ne (fun he => h (by simp [he]))

theorem meshFold_usd (opts : ImportGltfOptions) (g : GModel) :
    ∀ (l : List (Nat × GMesh)) (ctx : Ctx),
      (l.foldl (importOneMesh opts g) ctx).usd.meshes =
        ctx.usd.meshes ++ meshListFor opts g l
  | [], ctx => by simp [meshListFor]
  | p :: l, ctx => by
    rw [List.foldl_cons, meshFold_usd opts g l _, importOneMesh_spec]
    simp [meshListFor]

theorem meshFold_rows (opts : ImportGltfOptions) (g : GModel) :
    ∀ (l : List (Nat × GMesh)) (ctx : Ctx) (k : Nat) (hk : k < l.length),
      (l.map Prod.fst).Nodup →
      (∀ p ∈ l, p.fst < ctx.meshes.length) →
      (l.foldl (importOneMesh opts g) ctx).meshes[(l.get ⟨k, hk⟩).fst]? =
        some ((List.range (l.get ⟨k, hk⟩).snd.primitives.length).map
          (fun t : Nat => ((ctx.usd.meshes.length + primsBefore l k : Nat) : Int) + (t : Int)))
  | p :: l, ctx, 0, hk, hnd, hb => by
    rw [List.foldl_cons]
    have hnotin : p.fst ∉ l.map Prod.fst := by simpa using (List.nodup_cons.mp hnd).1
    rw [show (((p :: l).get ⟨0, hk⟩)) = p from rfl]
    rw [meshFold_untouched opts g l _ p.fst hnotin, importOneMesh_spec]
    have hlt : p.fst < ctx.meshes.length := hb p (List.mem_cons_self _ _)
    rw [List.getElem?_set_self (by simpa using hlt)]
    refine congrArg some (List.map_congr_left ?_)
    intro t _
    simp [primsBefore]
  | p :: l, ctx, k + 1, hk, hnd, hb => by
    rw [List.foldl_cons]
    have ih := meshFold_rows opts g l (importOneMesh opts g ctx p) k
      (by simpa using Nat.lt_of_succ_lt_succ hk)
      (List.nodup_cons.mp hnd).2
      (fun q hq => by
        rw [importOneMesh_spec]
        simpa using hb q (List.mem_cons_of_mem _ hq))
    rw [show (((p :: l).get ⟨k + 1, hk⟩)) = l.get ⟨k, by simpa using Nat.lt_of_succ_lt_succ hk⟩ from rfl]
    rw [ih]
    refine congrArg some (List.map_congr_left ?_)
    intro t _
    have hbase : (importOneMesh opts g ctx p).usd.meshes.length + primsBefore l k =
        ctx.usd.meshes.length + primsBefore (p :: l) (k + 1) := by
      rw [importOneMesh_spec]
      simp [meshListFor, primsBefore]
      omega
    rw [hbase]

theorem meshListFor_getD (opts : ImportGltfOptions) (g : GModel) :
    ∀ (l : List (Nat × GMesh)) (k : Nat) (hk : k < l.length) (j : Nat),
      j < (l.get ⟨k, hk⟩).snd.primitives.length →
      (meshListFor opts g l).getD (primsBefore l k + j) {} =
        importPrimitive opts g (l.get ⟨k, hk⟩).snd j
          ((l.get ⟨k, hk⟩).snd.primitives.getD j {})
  | p :: l, 0, hk, j, hj => by
    rw [show (((p :: l).get ⟨0, hk⟩)) = p from rfl] at hj ⊢
    have hrow : (p.snd.primitives.enum.map
        (fun q => importPrimitive opts g p.snd q.fst q.snd)).length =
        p.snd.primitives.length := by simp
    rw [show meshListFor opts g (p :: l) =
        p.snd.primitives.enum.map (fun q => importPrimitive opts g p.snd q.fst q.snd) ++
          meshListFor opts g l from by simp [meshListFor]]
    rw [show primsBefore (p :: l) 0 + j = j from by simp [primsBefore]]
    rw [List.getD_append _ _ _ _ (by rw [hrow]; exact hj)]
    rw [List.getD_eq_getElem _ _ (by rw [hrow]; exact hj)]
    rw [List.getD_eq_getElem _ _ hj]
    simp [List.getElem_enum]
  | p :: l, k + 1, hk, j, hj => by
    have hk' : k < l.length := by simpa using Nat.lt_of_succ_lt_succ hk
    rw [show (((p :: l).get ⟨k + 1, hk⟩)) = l.get ⟨k, hk'⟩ from rfl] at hj ⊢
    rw [show meshListFor opts g (p :: l) =
        p.snd.primitives.enum.map (fun q => importPrimitive opts g p.snd q.fst q.snd) ++
          meshListFor opts g l from by simp [meshListFor]]
    have hpb : primsBefore (p :: l) (k + 1) + j =
        (p.snd.primitives.enum.map
          (fun q => importPrimitive opts g p.snd q.fst q.snd)).length +
        (primsBefore l k + j) := by
      simp [primsBefore]
      omega
    rw [hpb, List.getD_append_right _ _ _ _ (by omega), Nat.add_sub_cancel_left]
    exact meshListFor_getD opts g l k hk' j hj

theorem primsBefore_enum (g : GModel) (i : Nat) :
    primsBefore g.meshes.enum i = primCountBefore g i := by
  unfold primsBefore primCountBefore
  rw [show (fun p : Nat × GMesh => p.snd.primitives.length) =
      (fun m : GMesh => m.primitives.length) ∘ Prod.snd from rfl]
  rw [← List.map_map, List.map_take, List.enum_map_snd]

/-- C5 (corrected): a primitive with authored, non-empty indices, a
positive vertex count and a maximum index reaching the vertex count is
degraded to the empty canonical mesh at its reserved mesh-part slot, and
the mesh-part slot table is laid out by position alone (base offset plus
primitive counts), so sibling slots are unchanged by the degradation.
The spec's premise is corrected: when the vertex count is zero (or the
index list is empty) the pre-validation does not fire and the authored
indices are loaded as-is. -/
theorem C5_out_of_range_safety (ctx : Ctx) (opts : ImportGltfOptions) (g : GModel)
    (i j : Nat) (hi : i < g.meshes.length)
    (hj : j < (g.meshes.getD i {}).primitives.length)
    (hidx : ((g.meshes.getD i {}).primitives.getD j {}).indices ≥ 0)
    (hne : getIndices g ((g.meshes.getD i {}).primitives.getD j {}).indices
        (primVertexCount g ((g.meshes.getD i {}).primitives.getD j {})) ≠ [])
    (hvc : 0 < primVertexCount g ((g.meshes.getD i {}).primitives.getD j {}))
    (hmax : (getIndices g ((g.meshes.getD i {}).primitives.getD j {}).indices
          (primVertexCount g ((g.meshes.getD i {}).primitives.getD j {}))).foldl max
        ((getIndices g ((g.meshes.getD i {}).primitives.getD j {}).indices
          (primVertexCount g ((g.meshes.getD i {}).primitives.getD j {}))).headD 0) ≥
        (primVertexCount g ((g.meshes.getD i {}).primitives.getD j {}) : Int)) :
    (importMeshes ctx opts g).usd.meshes.getD
        (ctx.usd.meshes.length + primCountBefore g i + j) {} = ({} : UMesh) ∧
    ∀ i' j', i' < g.meshes.length → j' < (g.meshes.getD i' {}).primitives.length →
      ((importMeshes ctx opts g).meshes.getD i' []).getD j' 0 =
        ((ctx.usd.meshes.length + primCountBefore g i' + j' : Nat) : Int) := by
  have hnd : (g.meshes.enum.map Prod.fst).Nodup := by
    rw [List.enum_map_fst]; exact List.nodup_range _
  constructor
  · unfold importMeshes
    rw [meshFold_usd]
    have henum : i < g.meshes.enum.length := by simpa using hi
    have hsnd : (g.meshes.enum.get ⟨i, henum⟩).snd = g.meshes.getD i {} := by
      rw [List.getD_eq_getElem _ _ hi]
      simp [List.get_eq_getElem, List.getElem_enum]
    rw [Nat.add_assoc, List.getD_append_right _ _ _ _ (by simp)]
    rw [show ctx.usd.meshes.length + (primCountBefore g i + j) -
        ({ ctx with meshes := List.replicate g.meshes.length []
                  , meshUseCount := List.replicate g.meshes.length 0 } :
          Ctx).usd.meshes.length = primCountBefore g i + j from by simp]
    rw [← primsBefore_enum]
    rw [meshListFor_getD opts g g.meshes.enum i henum j (by rw [hsnd]; exact hj)]
    rw [hsnd]
    exact importPrimitive_skipped opts g _ j _
      (primSkips_of_outOfRange g _ hidx hne hvc hmax)
  · intro i' j' hi' hj'
    simp only [importMeshes]
    have henum : i' < g.meshes.enum.length := by simpa using hi'
    have hsnd : (g.meshes.enum.get ⟨i', henum⟩).snd = g.meshes.getD i' {} := by
      rw [List.getD_eq_getElem _ _ hi']
      simp [List.get_eq_getElem, List.getElem_enum]
    have hfst : (g.meshes.enum.get ⟨i', henum⟩).fst = i' := by
      simp [List.get_eq_getElem, List.getElem_enum]
    have hrow := meshFold_rows opts g g.meshes.enum
      { ctx with meshes := List.replicate g.meshes.length []
               , meshUseCount := List.replicate g.meshes.length 0 } i' henum hnd
      (fun p hp => by
        have : p.fst ∈ g.meshes.enum.map Prod.fst := List.mem_map_of_mem Prod.fst hp
        rw [List.enum_map_fst] at this
        simpa using List.mem_range.mp this)
    rw [hfst] at hrow
    rw [List.getD_eq_getElem?_getD, List.getD_eq_getElem?_getD, hrow]
    simp only [Option.getD_some, List.getElem?_map, List.getElem?_range, hsnd, hj',
      if_true, Option.map_some, Option.map_some', primsBefore_enum]
    push_cast
    ring

/-- C5 counterexample: with vertex count zero and authored indices [0]
the maximum index (0) reaches the vertex count, yet the pre-validation
does not fire and the authored indices are loaded into the mesh, which
is therefore not empty. -/
theorem C5_counterexample :
    ((c5Model.meshes.getD 0 {}).primitives.getD 0 {}).indices ≥ 0 ∧
    getIndices c5Model ((c5Model.meshes.getD 0 {}).primitives.getD 0 {}).indices
      (primVertexCount c5Model ((c5Model.meshes.getD 0 {}).primitives.getD 0 {})) = [0] ∧
    primVertexCount c5Model ((c5Model.meshes.getD 0 {}).primitives.getD 0 {}) = 0 ∧
    (getIndices c5Model ((c5Model.meshes.getD 0 {}).primitives.getD 0 {}).indices
        (primVertexCount c5Model ((c5Model.meshes.getD 0 {}).primitives.getD 0 {}))).foldl max
      ((getIndices c5Model ((c5Model.meshes.getD 0 {}).primitives.getD 0 {}).indices
        (primVertexCount c5Model ((c5Model.meshes.getD 0 {}).primitives.getD 0 {}))).headD 0) ≥
      (primVertexCount c5Model ((c5Model.meshes.getD 0 {}).primitives.getD 0 {}) : Int) ∧
    (importPrimitive {} c5Model (c5Model.meshes.getD 0 {}) 0
        ((c5Model.meshes.getD 0 {}).primitives.getD 0 {})).indices = [0] ∧
    ¬ (importPrimitive {} c5Model (c5Model.meshes.getD 0 {}) 0
        ((c5Model.meshes.getD 0 {}).primitives.getD 0 {}) = ({} : UMesh)) := by decide

/-- C5 witness: the corrected out-of-range safety theorem at the
two-vertex fixture whose authored indices reach 5. -/
theorem C5_out_of_range_safety_witness :
    ((c5BadModel.meshes.getD 0 {}).primitives.getD 0 {}).indices ≥ 0 ∧
    0 < primVertexCount c5BadModel ((c5BadModel.meshes.getD 0 {}).primitives.getD 0 {}) ∧
    ((importMeshes {} {} c5BadModel).usd.meshes.getD
      (({} : Ctx).usd.meshes.length + primCountBefore c5BadModel 0 + 0) {} = ({} : UMesh)) ∧
    ((importMeshes {} {} c5BadModel).meshes.getD 0 []).getD 0 0 =
      ((({} : Ctx).usd.meshes.length + primCountBefore c5BadModel 0 + 0 : Nat) : Int) :=
  ⟨by decide, by decide,
   (C5_out_of_range_safety {} {} c5BadModel 0 0 (by decide) (by decide) (by decide)
      (by decide) (by decide) (by decide)).1,
   (C5_out_of_range_safety {} {} c5BadModel 0 0 (by decide) (by decide) (by decide)
      (by decide) (by decide) (by decide)).2 0 0 (by decide) (by decide)⟩

theorem importMetadata_snd_iff (ctx : Ctx) (g : GModel) :
    ((importMetadata ctx g).snd = true ↔
      ∃ v, stofQ g.asset.version = some v ∧ ¬ v < 2) := by
  simp only [importMetadata]
  cases hv : stofQ g.asset.version with
  | none => simp
  | some v =>
    dsimp only
    by_cases h2 : v < 2
    · simp [h2]
    · rw [if_neg h2]
      exact ⟨fun _ => ⟨v, rfl, h2⟩, fun _ => rfl⟩

/-- C1 (corrected): importGltf aborts and reports failure exactly when the
top-level document fails the minimum-version check (the version string
does not parse, or parses below 2).  The internal capacity violation of
the node traversal does not abort the import: importNodes' boolean result
is ignored by importGltf (gltfImport.cpp line 2948), and a root whose
traversal overflows the destination node array is merely skipped
(lines 2730-2733); the import still returns success. -/
theorem C1_fatal_only_version (ext : ExtM) (opts : ImportGltfOptions) (g : GModel)
    (filename : String) :
    ((importGltf ext opts g filename).snd = true ↔
      ∃ v, stofQ g.asset.version = some v ∧ ¬ v < 2) := by
  simp only [importGltf]
  split
  next hmd =>
    constructor
    · intro h
      exact absurd h (by simp)
    · intro hex
      exact absurd ((importMetadata_snd_iff _ g).mpr hex) hmd
  next hmd =>
    have hm := not_not.mp hmd
    exact ⟨fun _ => (importMetadata_snd_iff _ g).mp hm, fun _ => rfl⟩

/-- C1 counterexample: a well-formed version-2 document whose scene lists
the out-of-range root 5 triggers the internal capacity check during node
traversal (the second slot exceeds the one-node destination array), yet
importGltf still returns success: the capacity violation is recovered,
not propagated. -/
theorem C1_counterexample :
    (importGltf extDefault {} c1Model "f.gltf").snd = true ∧
    importNodesDiags extDefault {} c1Model = [Diag.warnUsdIndexOutOfBounds 1] ∧
    (Diag.warnUsdIndexOutOfBounds 1).kind = DiagKind.warning := by
  with_unfolding_all decide

/-- C1 witness: the version iff at the capacity-violation fixture. -/
theorem C1_fatal_only_version_witness :
    (importGltf extDefault {} c1Model "f.gltf").snd = true :=
  (C1_fatal_only_version extDefault {} c1Model "f.gltf").mpr
    ⟨2, by with_unfolding_all decide, by norm_num⟩

theorem insertTimeSorted_mem (x a : ℚ) :
    ∀ (l : List ℚ), (a ∈ insertTimeSorted x l ↔ a = x ∨ a ∈ l)
  | [] => by simp [insertTimeSorted]
  | y :: rest => by
    simp only [insertTimeSorted]
    split
    · simp [List.mem_cons]
    · split
      next h =>
        subst h
        simp [List.mem_cons]
      next h =>
        simp only [List.mem_cons, insertTimeSorted_mem x a rest]
        tauto

theorem insertTimeSorted_sorted (x : ℚ) :
    ∀ (l : List ℚ), l.Sorted (· < ·) → (insertTimeSorted x l).Sorted (· < ·)
  | [], _ => by simp [insertTimeSorted]
  | y :: rest, h => by
    simp only [insertTimeSorted]
    rcases List.sorted_cons.mp h with ⟨hy, hrest⟩
    split
    next hxy =>
      refine List.sorted_cons.mpr ⟨?_, h⟩
      intro b hb
      rcases List.mem_cons.mp hb with rfl | hbr
      · exact hxy
      · exact lt_trans hxy (hy b hbr)
    next hxy =>
      split
      next hxeq => exact h
      next hxne =>
        refine List.sorted_cons.mpr ⟨?_, insertTimeSorted_sorted x rest hrest⟩
        intro b hb
        rcases (insertTimeSorted_mem x b rest).mp hb with rfl | hbr
        · exact lt_of_le_of_ne (not_lt.mp hxy) (fun he => hxne he.symm)
        · exact hy b hbr

theorem addToTimeMap_mem (a : ℚ) : ∀ (src dst : List ℚ),
    (a ∈ addToTimeMap dst src ↔ a ∈ dst ∨ a ∈ src)
  | [], dst => by simp [addToTimeMap]
  | t :: src, dst => by
    have step : addToTimeMap dst (t :: src) = addToTimeMap (insertTimeSorted t dst) src := rfl
    rw [step, addToTimeMap_mem a src (insertTimeSorted t dst)]
    simp only [insertTimeSorted_mem, List.mem_cons]
    tauto

theorem addToTimeMap_sorted : ∀ (src dst : List ℚ), dst.Sorted (· < ·) →
    (addToTimeMap dst src).Sorted (· < ·)
  | [], _, h => h
  | t :: src, dst, h => addToTimeMap_sorted src (insertTimeSorted t dst)
      (insertTimeSorted_sorted t dst h)

theorem definitiveTimeStep_mem (ctx : Ctx) (idx : Nat) (acc : List ℚ) (n : Int) (a : ℚ) :
    (a ∈ definitiveTimeStep ctx idx acc n ↔ a ∈ acc ∨ a ∈ contributingTimes ctx n idx) := by
  simp only [definitiveTimeStep, contributingTimes]
  repeat' split
  all_goals simp_all [addToTimeMap_mem, List.mem_append]
  all_goals tauto

theorem definitiveTimeStep_sorted (ctx : Ctx) (idx : Nat) (acc : List ℚ) (n : Int)
    (h : acc.Sorted (· < ·)) : (definitiveTimeStep ctx idx acc n).Sorted (· < ·) := by
  simp only [definitiveTimeStep]
  repeat' split
  all_goals first
    | exact h
    | exact addToTimeMap_sorted _ _ (addToTimeMap_sorted _ _ (addToTimeMap_sorted _ _ h))

theorem definitiveTimesFold_mem (ctx : Ctx) (idx : Nat) :
    ∀ (nodes : List Int) (acc : List ℚ) (a : ℚ),
      (a ∈ nodes.foldl (definitiveTimeStep ctx idx) acc ↔
       a ∈ acc ∨ ∃ n ∈ nodes, a ∈ contributingTimes ctx n idx)
  | [], acc, a => by simp
  | n :: nodes, acc, a => by
    rw [List.foldl_cons, definitiveTimesFold_mem ctx idx nodes _ a]
    simp only [definitiveTimeStep_mem, List.mem_cons]
    constructor
    · rintro ((h | h) | ⟨m, hm, hmem⟩)
      · exact Or.inl h
      · exact Or.inr ⟨n, Or.inl rfl, h⟩
      · exact Or.inr ⟨m, Or.inr hm, hmem⟩
    · rintro (h | ⟨m, hm | hm, hmem⟩)
      · exact Or.inl (Or.inl h)
      · subst hm
        exact Or.inl (Or.inr hmem)
      · exact Or.inr ⟨m, hm, hmem⟩

theorem definitiveTimesFor_sorted (ctx : Ctx) (nodes : List Int) (idx : Nat) :
    (definitiveTimesFor ctx nodes idx).Sorted (· < ·) :=
  foldl_preserves (fun l : List ℚ => l.Sorted (· < ·)) (definitiveTimeStep ctx idx)
    nodes [] (fun acc n h => definitiveTimeStep_sorted ctx idx acc n h) (by simp)

/-- C6 (confirmed): for a (skeleton, track) pair with at least one
animated joint and a non-empty definitive time axis, the definitive time
axis is the strictly ascending (hence duplicate-free) union of the raw
rotation, translation and scale times of every contributing joint, and
the resampled SkeletonAnimation stored for the track holds exactly one
time entry per definitive time point, each row holding one rotation,
translation and scale value per animated joint. -/
theorem C6_animation_union (ext : ExtM) (ctx : Ctx) (g : GModel)
    (skelAnimNodes : List Int) (skel : Skeleton) (animationTrackIndex : Nat)
    (hjoints : skelAnimNodes ≠ [])
    (hdt : definitiveTimesFor ctx skelAnimNodes animationTrackIndex ≠ [])
    (hslot : animationTrackIndex < skel.skeletonAnimations.length) :
    ((definitiveTimesFor ctx skelAnimNodes animationTrackIndex).Sorted (· < ·)) ∧
    (∀ t, t ∈ definitiveTimesFor ctx skelAnimNodes animationTrackIndex ↔
      ∃ n ∈ skelAnimNodes, t ∈ contributingTimes ctx n animationTrackIndex) ∧
    (((importSkeletonAnimationTrack ext ctx g skelAnimNodes skel
        animationTrackIndex).snd.skeletonAnimations.getD animationTrackIndex {}).times =
      definitiveTimesFor ctx skelAnimNodes animationTrackIndex) ∧
    (((importSkeletonAnimationTrack ext ctx g skelAnimNodes skel
        animationTrackIndex).snd.skeletonAnimations.getD animationTrackIndex {}).rotations.length =
      (definitiveTimesFor ctx skelAnimNodes animationTrackIndex).length ∧
     ∀ row ∈ ((importSkeletonAnimationTrack ext ctx g skelAnimNodes skel
        animationTrackIndex).snd.skeletonAnimations.getD animationTrackIndex {}).rotations,
       row.length = skelAnimNodes.length) ∧
    (((importSkeletonAnimationTrack ext ctx g skelAnimNodes skel
        animationTrackIndex).snd.skeletonAnimations.getD animationTrackIndex {}).translations.length =
      (definitiveTimesFor ctx skelAnimNodes animationTrackIndex).length ∧
     ∀ row ∈ ((importSkeletonAnimationTrack ext ctx g skelAnimNodes skel
        animationTrackIndex).snd.skeletonAnimations.getD animationTrackIndex {}).translations,
       row.length = skelAnimNodes.length) ∧
    (((importSkeletonAnimationTrack ext ctx g skelAnimNodes skel
        animationTrackIndex).snd.skeletonAnimations.getD animationTrackIndex {}).scales.length =
      (definitiveTimesFor ctx skelAnimNodes animationTrackIndex).length ∧
     ∀ row ∈ ((importSkeletonAnimationTrack ext ctx g skelAnimNodes skel
        animationTrackIndex).snd.skeletonAnimations.getD animationTrackIndex {}).scales,
       row.length = skelAnimNodes.length) := by
  have hsa : (importSkeletonAnimationTrack ext ctx g skelAnimNodes skel
      animationTrackIndex).snd.skeletonAnimations.getD animationTrackIndex {} =
      assembleSkeletonAnimation (definitiveTimesFor ctx skelAnimNodes animationTrackIndex)
        skelAnimNodes
        (definitiveRotationsFor ext
          { ctx with usd := { ctx.usd with
              animationTracks := ctx.usd.animationTracks.set animationTrackIndex
                { ctx.usd.animationTracks.getD animationTrackIndex {} with
                    hasTimepoints := true
                  , minTime := min (ctx.usd.animationTracks.getD animationTrackIndex {}).minTime
                      ((definitiveTimesFor ctx skelAnimNodes animationTrackIndex).getD 0 0)
                  , maxTime := max (ctx.usd.animationTracks.getD animationTrackIndex {}).maxTime
                      ((definitiveTimesFor ctx skelAnimNodes animationTrackIndex).getD
                        ((definitiveTimesFor ctx skelAnimNodes animationTrackIndex).length - 1) 0) }
            , hasAnimations := true } }
          g skelAnimNodes animationTrackIndex
          (definitiveTimesFor ctx skelAnimNodes animationTrackIndex))
        (definitiveTranslationsFor ext
          { ctx with usd := { ctx.usd with
              animationTracks := ctx.usd.animationTracks.set animationTrackIndex
                { ctx.usd.animationTracks.getD animationTrackIndex {} with
                    hasTimepoints := true
                  , minTime := min (ctx.usd.animationTracks.getD animationTrackIndex {}).minTime
                      ((definitiveTimesFor ctx skelAnimNodes animationTrackIndex).getD 0 0)
                  , maxTime := max (ctx.usd.animationTracks.getD animationTrackIndex {}).maxTime
                      ((definitiveTimesFor ctx skelAnimNodes animationTrackIndex).getD
                        ((definitiveTimesFor ctx skelAnimNodes animationTrackIndex).length - 1) 0) }
            , hasAnimations := true } }
          g skelAnimNodes animationTrackIndex
          (definitiveTimesFor ctx skelAnimNodes animationTrackIndex))
        (definitiveScalesFor ext
          { ctx with usd := { ctx.usd with
              animationTracks := ctx.usd.animationTracks.set animationTrackIndex
                { ctx.usd.animationTracks.getD animationTrackIndex {} with
                    hasTimepoints := true
                  , minTime := min (ctx.usd.animationTracks.getD animationTrackIndex {}).minTime
                      ((definitiveTimesFor ctx skelAnimNodes animationTrackIndex).getD 0 0)
                  , maxTime := max (ctx.usd.animationTracks.getD animationTrackIndex {}).maxTime
                      ((definitiveTimesFor ctx skelAnimNodes animationTrackIndex).getD
                        ((definitiveTimesFor ctx skelAnimNodes animationTrackIndex).length - 1) 0) }
            , hasAnimations := true } }
          g skelAnimNodes animationTrackIndex
          (definitiveTimesFor ctx skelAnimNodes animationTrackIndex)) := by
    simp only [importSkeletonAnimationTrack]
    rw [if_neg (by simpa using hdt)]
    rw [List.getD_eq_getElem?_getD, List.getElem?_set_self (by simpa using hslot)]
    rfl
  refine ⟨definitiveTimesFor_sorted ctx skelAnimNodes animationTrackIndex,
    fun t => ?_, ?_, ?_, ?_, ?_⟩
  · rw [definitiveTimesFor]
    simpa using definitiveTimesFold_mem ctx animationTrackIndex skelAnimNodes [] t
  · rw [hsa]
    simp [assembleSkeletonAnimation]
  · rw [hsa]
    constructor
    · simp [assembleSkeletonAnimation]
    · intro row hrow
      simp only [assembleSkeletonAnimation, List.mem_map] at hrow
      obtain ⟨tIdx, _, rfl⟩ := hrow
      simp
  · rw [hsa]
    constructor
    · simp [assembleSkeletonAnimation]
    · intro row hrow
      simp only [assembleSkeletonAnimation, List.mem_map] at hrow
      obtain ⟨tIdx, _, rfl⟩ := hrow
      simp
  · rw [hsa]
    constructor
    · simp [assembleSkeletonAnimation]
    · intro row hrow
      simp only [assembleSkeletonAnimation, List.mem_map] at hrow
      obtain ⟨tIdx, _, rfl⟩ := hrow
      simp

/-- C6 witness: the union and size properties at the one-joint fixture
with rotation times 1, 2 and translation times 0, 2. -/
theorem C6_animation_union_witness :
    ([(0 : Int)] ≠ ([] : List Int)) ∧
    definitiveTimesFor c6Ctx [(0 : Int)] 0 ≠ [] ∧
    0 < c6Skel.skeletonAnimations.length ∧
    (definitiveTimesFor c6Ctx [(0 : Int)] 0).Sorted (· < ·) ∧
    ((1 : ℚ) ∈ definitiveTimesFor c6Ctx [(0 : Int)] 0 ↔
      ∃ n ∈ [(0 : Int)], (1 : ℚ) ∈ contributingTimes c6Ctx n 0) ∧
    ((importSkeletonAnimationTrack extDefault c6Ctx c6Model [(0 : Int)] c6Skel
        0).snd.skeletonAnimations.getD 0 {}).times = definitiveTimesFor c6Ctx [(0 : Int)] 0 ∧
    ((importSkeletonAnimationTrack extDefault c6Ctx c6Model [(0 : Int)] c6Skel
        0).snd.skeletonAnimations.getD 0 {}).rotations.length =
      (definitiveTimesFor c6Ctx [(0 : Int)] 0).length :=
  ⟨by decide, by decide, by decide,
   (C6_animation_union extDefault c6Ctx c6Model [0] c6Skel 0 (by decide) (by decide)
      (by decide)).1,
   (C6_animation_union extDefault c6Ctx c6Model [0] c6Skel 0 (by decide) (by decide)
      (by decide)).2.1 1,
   (C6_animation_union extDefault c6Ctx c6Model [0] c6Skel 0 (by decide) (by decide)
      (by decide)).2.2.1,
   (C6_animation_union extDefault c6Ctx c6Model [0] c6Skel 0 (by decide) (by decide)
      (by decide)).2.2.2.1.1⟩

theorem length_filter_mono {α : Type} (p q : α → Bool) (h : ∀ a, p a = true → q a = true) :
    ∀ l : List α, (l.filter p).length ≤ (l.filter q).length
  | [] => Nat.le_refl _
  | a :: l => by
    by_cases hp : p a = true
    · rw [List.filter_cons_of_pos hp, List.filter_cons_of_pos (h a hp)]
      simpa using length_filter_mono p q h l
    · rw [List.filter_cons_of_neg (by simpa using hp)]
      by_cases hq : q a = true
      · rw [List.filter_cons_of_pos hq]
        exact Nat.le_succ_of_le (length_filter_mono p q h l)
      · rw [List.filter_cons_of_neg (by simpa using hq)]
        exact length_filter_mono p q h l

theorem length_filter_lt {α : Type} (p q : α → Bool) (h : ∀ a, p a = true → q a = true)
    (a0 : α) (hq0 : q a0 = true) (hp0 : p a0 = false) :
    ∀ l : List α, a0 ∈ l → (l.filter p).length < (l.filter q).length
  | a :: l, hmem => by
    rcases List.mem_cons.mp hmem with rfl | hmem
    · rw [List.filter_cons_of_pos hq0, List.filter_cons_of_neg (by simp [hp0])]
      exact Nat.lt_succ_of_le (length_filter_mono p q h l)
    · by_cases hp : p a = true
      · rw [List.filter_cons_of_pos hp, List.filter_cons_of_pos (h a hp)]
        simpa using length_filter_lt p q h a0 hq0 hp0 l hmem
      · rw [List.filter_cons_of_neg (by simpa using hp)]
        by_cases hq : q a = true
        · rw [List.filter_cons_of_pos hq]
          exact Nat.lt_succ_of_lt (length_filter_lt p q h a0 hq0 hp0 l hmem)
        · rw [List.filter_cons_of_neg (by simpa using hq)]
          exact length_filter_lt p q h a0 hq0 hp0 l hmem

theorem travMeasure_le (g : GModel) (st : TravState) :
    travMeasure g st ≤ g.nodes.length := by
  calc travMeasure g st ≤ (List.range g.nodes.length).length :=
        List.length_filter_le _ _
    _ = g.nodes.length := List.length_range _

theorem travMeasure_traversed_eq (g : GModel) (st st' : TravState)
    (h : st'.traversed = st.traversed) : travMeasure g st' = travMeasure g st := by
  unfold travMeasure
  rw [h]

theorem travMeasure_subset_le (g : GModel) (st st' : TravState)
    (h : ∀ x ∈ st.traversed, x ∈ st'.traversed) :
    travMeasure g st' ≤ travMeasure g st := by
  refine length_filter_mono _ _ ?_ _
  intro a ha
  simp only [decide_eq_true_eq, List.elem_iff] at ha ⊢
  intro hc
  exact ha (h _ hc)

theorem travMeasure_mark_lt (g : GModel) (st st' : TravState) (n : Int)
    (hfresh : st.traversed.contains n = false)
    (h0 : 0 ≤ n) (hlt : n < (g.nodes.length : Int))
    (htr : st'.traversed = n :: st.traversed) :
    travMeasure g st' < travMeasure g st := by
  refine length_filter_lt _ _ ?_ n.toNat ?_ ?_ _ ?_
  · intro a ha
    simp only [decide_eq_true_eq, List.elem_iff, htr, List.mem_cons] at ha ⊢
    intro hc
    exact ha (Or.inr hc)
  · simp only [decide_eq_true_eq, List.elem_iff]
    rw [show Int.ofNat n.toNat = n from Int.toNat_of_nonneg h0]
    intro hc
    have hct : st.traversed.contains n = true := List.elem_iff.mpr hc
    rw [hct] at hfresh
    cases hfresh
  · simp only [htr, decide_eq_true_eq, List.elem_iff]
    rw [show Int.ofNat n.toNat = n from Int.toNat_of_nonneg h0]
    simp
  · rw [List.mem_range]
    omega

theorem alistFind_mem {α : Type} (k : Int) (v : α) :
    ∀ (m : List (Int × α)), alistFind m k = some v → (k, v) ∈ m
  | [], h => by simp [alistFind, List.find?] at h
  | kv :: rest, h => by
    rw [alistFind] at h
    rw [List.find?] at h
    by_cases hk : (kv.fst == k) = true
    · rw [hk] at h
      simp only [Option.some.injEq] at h
      have : kv = (k, v) := by
        obtain ⟨a, b⟩ := kv
        simp only at h
        simp only [beq_iff_eq] at hk
        simp [hk, ← h]
      exact this ▸ List.mem_cons_self _ _
    · rw [Bool.eq_false_iff.mpr hk] at h
      exact List.mem_cons_of_mem _ (alistFind_mem k v rest (by rw [alistFind]; exact h))

theorem alistSet_fresh {α : Type} (k : Int) (v : α) :
    ∀ (m : List (Int × α)), (∀ kv ∈ m, kv.fst ≠ k) → alistSet m k v = m ++ [(k, v)]
  | [], _ => rfl
  | kv :: rest, h => by
    rw [alistSet]
    rw [if_neg (by simpa using h kv (List.mem_cons_self _ _))]
    rw [alistSet_fresh k v rest (fun kv' hm => h kv' (List.mem_cons_of_mem _ hm))]
    rfl

theorem travStep_refl (st : TravState) : travStep st st :=
  ⟨fun _ h => h, le_refl _, rfl, fun _ h => h, fun _ h => Or.inl h⟩

theorem travStep_trans {a b c : TravState} (h1 : travStep a b) (h2 : travStep b c) :
    travStep a c := by
  obtain ⟨t1, c1, l1, m1, n1⟩ := h1
  obtain ⟨t2, c2, l2, m2, n2⟩ := h2
  refine ⟨fun x hx => t2 x (t1 x hx), le_trans c1 c2, l2.trans l1,
    fun kv hkv => m2 kv (m1 kv hkv), ?_⟩
  intro kv hkv
  rcases n2 kv hkv with h | h
  · rcases n1 kv h with h' | h'
    · exact Or.inl h'
    · exact Or.inr h'
  · exact Or.inr (le_trans c1 h)

theorem travFold_measure_mono (g : GModel) (tn : TravState → Int → Option (TravState × Int))
    (htn : ∀ s c s2 r, tn s c = some (s2, r) → travMeasure g s2 ≤ travMeasure g s) :
    ∀ (l : List Int) (st st2 : TravState) (idxs : List Int),
      travFold tn st l = some (st2, idxs) → travMeasure g st2 ≤ travMeasure g st
  | [], st, st2, idxs, h => by
    rw [travFold] at h
    simp only [Option.some.injEq, Prod.mk.injEq] at h
    rw [← h.1]
  | c :: rest, st, st2, idxs, h => by
    rw [travFold] at h
    cases hc : tn st c with
    | none => rw [hc] at h; cases h
    | some p =>
      obtain ⟨s2, r⟩ := p
      rw [hc] at h
      dsimp only at h
      cases hf : travFold tn s2 rest with
      | none => rw [hf] at h; cases h
      | some q =>
        obtain ⟨s3, idxs2⟩ := q
        rw [hf] at h
        dsimp only at h
        simp only [Option.some.injEq, Prod.mk.injEq] at h
        calc travMeasure g st2 = travMeasure g s3 := by rw [← h.1]
          _ ≤ travMeasure g s2 := travFold_measure_mono g tn htn rest s2 s3 idxs2 hf
          _ ≤ travMeasure g st := htn st c s2 r hc

theorem travFold_sufficient (g : GModel) (tn : TravState → Int → Option (TravState × Int))
    (B : Nat)
    (hsome : ∀ s c, travMeasure g s < B → ∃ r, tn s c = some r)
    (hmono : ∀ s c s2 r, tn s c = some (s2, r) → travMeasure g s2 ≤ travMeasure g s) :
    ∀ (l : List Int) (st : TravState), travMeasure g st < B →
      ∃ st2 idxs, travFold tn st l = some (st2, idxs)
  | [], st, _ => ⟨st, [], rfl⟩
  | c :: rest, st, hm => by
    obtain ⟨⟨s2, r⟩, hc⟩ := hsome st c hm
    have hm2 : travMeasure g s2 < B := lt_of_le_of_lt (hmono st c s2 r hc) hm
    obtain ⟨st2, idxs, hf⟩ := travFold_sufficient g tn B hsome hmono rest s2 hm2
    refine ⟨st2, if r ≥ 0 then r :: idxs else idxs, ?_⟩
    rw [travFold, hc]
    dsimp only
    rw [hf]

theorem travNodeRecord_children (g : GModel) (node : GNode) (up : Int) :
    (travNodeRecord g node up).children = [] := by
  simp only [travNodeRecord]
  repeat' split
  all_goals rfl

theorem travVisitBody_traversed (ext : ExtM) (g : GModel) (cm : List (List Int))
    (st : TravState) (p n u up : Int) :
    (travVisitBody ext g cm st p n u up).traversed = st.traversed := by
  simp only [travVisitBody]
  repeat' split
  all_goals rfl

theorem travVisitBody_curUsdIndex (ext : ExtM) (g : GModel) (cm : List (List Int))
    (st : TravState) (p n u up : Int) :
    (travVisitBody ext g cm st p n u up).curUsdIndex = st.curUsdIndex := by
  simp only [travVisitBody]
  repeat' split
  all_goals rfl

theorem travVisitBody_nodeMap (ext : ExtM) (g : GModel) (cm : List (List Int))
    (st : TravState) (p n u up : Int) :
    (travVisitBody ext g cm st p n u up).nodeMap = alistSet st.nodeMap n u := by
  simp only [travVisitBody]
  repeat' split
  all_goals rfl

theorem travVisitBody_usdNodes_length (ext : ExtM) (g : GModel) (cm : List (List Int))
    (st : TravState) (p n u up : Int) :
    (travVisitBody ext g cm st p n u up).usdNodes.length = st.usdNodes.length := by
  simp only [travVisitBody]
  repeat' split
  all_goals simp

theorem travVisitBody_usdNodes_other (ext : ExtM) (g : GModel) (cm : List (List Int))
    (st : TravState) (p n u up : Int) (i : Nat) (hi : i ≠ u.toNat) :
    (travVisitBody ext g cm st p n u up).usdNodes[i]? = st.usdNodes[i]? := by
  simp only [travVisitBody]
  repeat' split
  all_goals exact List.getElem?_set_ne (fun he => hi he.symm)

theorem travVisitBody_children_empty (ext : ExtM) (g : GModel) (cm : List (List Int))
    (st : TravState) (p n u up : Int) (hu : 0 ≤ u) (hlt : u < (st.usdNodes.length : Int)) :
    ((travVisitBody ext g cm st p n u up).usdNodes.getD u.toNat {}).children = [] := by
  rw [List.getD_eq_getElem?_getD]
  simp only [travVisitBody]
  repeat' split
  all_goals rw [List.getElem?_set_self
    (by show u.toNat < st.usdNodes.length
        omega)]
  all_goals simp [travNodeRecord_children]

theorem travFold_ne_none (g : GModel) (tn : TravState → Int → Option (TravState × Int))
    (B : Nat)
    (hsome : ∀ s c, travMeasure g s < B → ∃ r, tn s c = some r)
    (hmono : ∀ s c s2 r, tn s c = some (s2, r) → travMeasure g s2 ≤ travMeasure g s)
    (l : List Int) (st : TravState) (hm : travMeasure g st < B) :
    travFold tn st l ≠ none := by
  obtain ⟨st2, idxs, h⟩ := travFold_sufficient g tn B hsome hmono l st hm
  rw [h]
  exact Option.noConfusion

theorem travNode_measure_mono (ext : ExtM) (g : GModel) (cm : List (List Int)) :
    ∀ (fuel : Nat) (st : TravState) (p n : Int) (st2 : TravState) (r : Int),
      travNode ext g cm fuel st p n = some (st2, r) → travMeasure g st2 ≤ travMeasure g st := by
  intro fuel
  induction fuel with
  | zero =>
    intro st p n st2 r h
    rw [travNode] at h
    cases h
  | succ fuel ih =>
    intro st p n st2 r h
    rw [travNode] at h
    by_cases htr : st.traversed.contains n = true
    · rw [if_pos htr] at h
      dsimp only at h
      cases hf : alistFind st.nodeMap n with
      | some v =>
        rw [hf] at h
        simp only [Option.some.injEq, Prod.mk.injEq] at h
        exact le_of_eq (travMeasure_traversed_eq g st st2 (by rw [← h.1]))
      | none =>
        rw [hf] at h
        simp only [Option.some.injEq, Prod.mk.injEq] at h
        exact le_of_eq (travMeasure_traversed_eq g st st2 (by rw [← h.1]))
    · rw [if_neg htr] at h
      dsimp only at h
      split at h
      · -- capacity branch
        simp only [Option.some.injEq, Prod.mk.injEq] at h
        refine le_of_eq (travMeasure_traversed_eq g st st2 ?_)
        rw [← h.1]
        exact List.erase_cons_head n st.traversed
      · split at h
        · -- bad node index branch
          simp only [Option.some.injEq, Prod.mk.injEq] at h
          refine travMeasure_subset_le g st st2 ?_
          intro x hx
          rw [← h.1]
          exact List.mem_cons_of_mem _ hx
        · -- main branch
          split at h
          · cases h
          next st2' childIdxs hfold =>
            simp only [Option.some.injEq, Prod.mk.injEq] at h
            have hmono := travFold_measure_mono g
              (fun s c => travNode ext g cm fuel s n c)
              (fun s c s2 r hh => ih s n c s2 r hh)
              _ _ _ _ hfold
            calc travMeasure g st2
                = travMeasure g st2' := travMeasure_traversed_eq g st2' st2 (by rw [← h.1])
              _ ≤ travMeasure g { st with traversed := n :: st.traversed } := by
                  refine le_trans hmono (le_of_eq (travMeasure_traversed_eq g _ _ ?_))
                  exact travVisitBody_traversed ext g cm _ _ _ _ _
              _ ≤ travMeasure g st := travMeasure_subset_le g st _
                  (fun x hx => List.mem_cons_of_mem _ hx)

theorem travNode_terminates (ext : ExtM) (g : GModel) (cm : List (List Int)) :
    ∀ (fuel : Nat) (st : TravState) (p n : Int), travMeasure g st < fuel →
      ∃ st2 r, travNode ext g cm fuel st p n = some (st2, r) := by
  intro fuel
  induction fuel with
  | zero =>
    intro st p n hm
    omega
  | succ fuel ih =>
    intro st p n hm
    rw [travNode]
    by_cases htr : st.traversed.contains n = true
    · rw [if_pos htr]
      dsimp only
      cases hf : alistFind st.nodeMap n
      · exact ⟨_, _, rfl⟩
      · exact ⟨_, _, rfl⟩
    · rw [if_neg htr]
      dsimp only
      split
      · exact ⟨_, _, rfl⟩
      · split
        · exact ⟨_, _, rfl⟩
        next h3 =>
          have hn0 : 0 ≤ n := by omega
          have hnlt : n < (g.nodes.length : Int) := by omega
          have hmark : travMeasure g
              ({ st with curUsdIndex := st.curUsdIndex + 1, traversed := n :: st.traversed }) <
              travMeasure g st :=
            travMeasure_mark_lt g st _ n (by simpa using htr) hn0 hnlt rfl
          split
          next hfold =>
            exact absurd hfold (travFold_ne_none g
              (fun s c => travNode ext g cm fuel s n c) fuel
              (fun s c hmm => by
                obtain ⟨a, b, hab⟩ := ih s n c hmm
                exact ⟨(a, b), hab⟩)
              (fun s c s2 r hh => travNode_measure_mono ext g cm fuel s n c s2 r hh)
              _ _
              (lt_of_le_of_lt
                (le_of_eq (travMeasure_traversed_eq g _ _
                  (travVisitBody_traversed ext g cm _ _ _ _ _)))
                (lt_of_lt_of_le hmark (Nat.lt_succ_iff.mp hm))))
          next st2' idxs hfold =>
            exact ⟨_, _, rfl⟩

theorem alistSet_fresh_mem {α : Type} (k : Int) (v : α) (m : List (Int × α))
    (hf : ∀ kv ∈ m, kv.fst ≠ k) (kv : Int × α) :
    (kv ∈ alistSet m k v ↔ kv ∈ m ∨ kv = (k, v)) := by
  rw [alistSet_fresh k v m hf]
  simp

theorem alistSet_self_mem {α : Type} (k : Int) (v : α) (m : List (Int × α))
    (hf : ∀ kv ∈ m, kv.fst ≠ k) : (k, v) ∈ alistSet m k v := by
  rw [alistSet_fresh k v m hf]
  simp

theorem alistSet_fresh_keys {α : Type} (k : Int) (v : α) (m : List (Int × α))
    (hf : ∀ kv ∈ m, kv.fst ≠ k) :
    (alistSet m k v).map Prod.fst = m.map Prod.fst ++ [k] := by
  rw [alistSet_fresh k v m hf]
  simp

theorem alistSet_fresh_values {α : Type} (k : Int) (v : α) (m : List (Int × α))
    (hf : ∀ kv ∈ m, kv.fst ≠ k) :
    (alistSet m k v).map Prod.snd = m.map Prod.snd ++ [v] := by
  rw [alistSet_fresh k v m hf]
  simp

theorem travFold_inv (g : GModel) (tn : TravState → Int → Option (TravState × Int))
    (htn : ∀ s c s2 r, tn s c = some (s2, r) → travInv g s →
      travInv g s2 ∧ travStep s s2 ∧ (0 ≤ r → (c, r) ∈ s2.nodeMap))
    (st0 : TravState)
    (hkeys0 : ∀ kv ∈ st0.nodeMap, st0.traversed.contains kv.fst) :
    ∀ (l : List Int) (st st2 : TravState) (idxs : List Int),
      travFold tn st l = some (st2, idxs) → travInv g st → travStep st0 st →
      (∀ c ∈ l, st0.traversed.contains c = false) →
      travInv g st2 ∧ travStep st st2 ∧
      ∀ x ∈ idxs, st0.curUsdIndex ≤ x ∧ x < st2.curUsdIndex
  | [], st, st2, idxs, h, hinv, hstep0, hfresh => by
    rw [travFold] at h
    simp only [Option.some.injEq, Prod.mk.injEq] at h
    obtain ⟨h1, h2⟩ := h
    subst h1
    subst h2
    exact ⟨hinv, travStep_refl st, by simp⟩
  | c :: rest, st, st2, idxs, h, hinv, hstep0, hfresh => by
    rw [travFold] at h
    cases hc : tn st c with
    | none => rw [hc] at h; cases h
    | some p =>
      obtain ⟨s2, r⟩ := p
      rw [hc] at h
      dsimp only at h
      cases hf : travFold tn s2 rest with
      | none => rw [hf] at h; cases h
      | some q =>
        obtain ⟨s3, idxs2⟩ := q
        rw [hf] at h
        dsimp only at h
        simp only [Option.some.injEq, Prod.mk.injEq] at h
        obtain ⟨h1, h2⟩ := h
        subst h1
        obtain ⟨hinv2, hstep2, hret⟩ := htn st c s2 r hc hinv
        obtain ⟨hinv3, hstep3, hbounds⟩ := travFold_inv g tn htn st0 hkeys0 rest s2 s3 idxs2
          hf hinv2 (travStep_trans hstep0 hstep2)
          (fun c' hc' => hfresh c' (List.mem_cons_of_mem _ hc'))
        refine ⟨hinv3, travStep_trans hstep2 hstep3, ?_⟩
        intro x hx
        subst h2
        by_cases hr : r ≥ 0
        · rw [if_pos hr] at hx
          rcases List.mem_cons.mp hx with rfl | hx2
          · have hmem : (c, x) ∈ s2.nodeMap := hret hr
            have hst02 := travStep_trans hstep0 hstep2
            rcases hst02.2.2.2.2 (c, x) hmem with hin | hge
            · have := hkeys0 (c, x) hin
              rw [hfresh c (List.mem_cons_self _ _)] at this
              cases this
            · refine ⟨hge, ?_⟩
              exact lt_of_lt_of_le ((hinv2.2.2.2.2.1 (c, x) hmem).2) hstep3.2.1
          · exact hbounds x hx2
        · rw [if_neg hr] at hx
          exact hbounds x hx

theorem nodeMap_fresh (g : GModel) (st : TravState) (n : Int)
    (hinv : travInv g st) (htr : st.traversed.contains n = false) :
    ∀ kv ∈ st.nodeMap, kv.fst ≠ n := by
  intro kv hm he
  have hc := hinv.2.2.1 kv hm
  rw [he, htr] at hc
  cases hc

theorem nodeMap_update_clauses (g : GModel) (st : TravState) (n : Int)
    (hinv : travInv g st) (htr : st.traversed.contains n = false) :
    (∀ kv ∈ alistSet st.nodeMap n st.curUsdIndex, (n :: st.traversed).contains kv.fst) ∧
    ((alistSet st.nodeMap n st.curUsdIndex).map Prod.fst).Nodup ∧
    (∀ kv ∈ alistSet st.nodeMap n st.curUsdIndex,
      0 ≤ kv.snd ∧ kv.snd < st.curUsdIndex + 1) ∧
    ((alistSet st.nodeMap n st.curUsdIndex).map Prod.snd).Nodup := by
  have hf := nodeMap_fresh g st n hinv htr
  refine ⟨?_, ?_, ?_, ?_⟩
  · intro kv hkv
    rcases (alistSet_fresh_mem n st.curUsdIndex st.nodeMap hf kv).mp hkv with hold | hnew
    · have hc := hinv.2.2.1 kv hold
      exact List.elem_iff.mpr (List.mem_cons_of_mem _ (List.elem_iff.mp hc))
    · rw [hnew]
      exact List.elem_iff.mpr (List.mem_cons_self _ _)
  · rw [alistSet_fresh_keys n st.curUsdIndex st.nodeMap hf]
    rw [List.nodup_append]
    refine ⟨hinv.2.2.2.1, List.nodup_singleton _, ?_⟩
    intro a ha hb
    simp only [List.mem_singleton] at hb
    subst hb
    obtain ⟨kv, hkv, hfst⟩ := List.mem_map.mp ha
    exact hf kv hkv hfst
  · intro kv hkv
    rcases (alistSet_fresh_mem n st.curUsdIndex st.nodeMap hf kv).mp hkv with hold | hnew
    · have := hinv.2.2.2.2.1 kv hold
      exact ⟨this.1, by omega⟩
    · rw [hnew]
      exact ⟨hinv.2.1, by omega⟩
  · rw [alistSet_fresh_values n st.curUsdIndex st.nodeMap hf]
    rw [List.nodup_append]
    refine ⟨hinv.2.2.2.2.2.1, List.nodup_singleton _, ?_⟩
    intro a ha hb
    simp only [List.mem_singleton] at hb
    subst hb
    obtain ⟨kv, hkv, hsnd⟩ := List.mem_map.mp ha
    have := (hinv.2.2.2.2.1 kv hkv).2
    rw [hsnd] at this
    exact absurd this (lt_irrefl _)

theorem travNode_inv (ext : ExtM) (g : GModel) (cm : List (List Int)) :
    ∀ (fuel : Nat) (st : TravState) (p n : Int) (st2 : TravState) (r : Int),
      travNode ext g cm fuel st p n = some (st2, r) → travInv g st →
      travInv g st2 ∧ travStep st st2 ∧ (0 ≤ r → (n, r) ∈ st2.nodeMap) := by
  intro fuel
  induction fuel with
  | zero =>
    intro st p n st2 r h hinv
    rw [travNode] at h
    cases h
  | succ fuel ih =>
    intro st p n st2 r h hinv
    rw [travNode] at h
    by_cases htr : st.traversed.contains n = true
    · rw [if_pos htr] at h
      dsimp only at h
      cases hfind : alistFind st.nodeMap n with
      | some v =>
        rw [hfind] at h
        simp only [Option.some.injEq, Prod.mk.injEq] at h
        obtain ⟨h1, h2⟩ := h
        subst h1
        subst h2
        exact ⟨hinv, travStep_refl st, fun _ => alistFind_mem n _ st.nodeMap hfind⟩
      | none =>
        rw [hfind] at h
        simp only [Option.some.injEq, Prod.mk.injEq] at h
        obtain ⟨h1, h2⟩ := h
        subst h1
        subst h2
        exact ⟨hinv, travStep_refl st, fun h0 => absurd h0 (by norm_num)⟩
    · rw [if_neg htr] at h
      dsimp only at h
      split at h
      next hcap =>
        simp only [Option.some.injEq, Prod.mk.injEq] at h
        obtain ⟨h1, h2⟩ := h
        subst h1
        subst h2
        obtain ⟨i1, i2, i3, i4, i5, i6, i7⟩ := hinv
        refine ⟨⟨i1, ?_, ?_, i4, ?_, i6, i7⟩, ⟨?_, ?_, rfl, fun kv hk => hk,
          fun kv hk => Or.inl hk⟩, fun h0 => absurd h0 (by norm_num)⟩
        · show 0 ≤ st.curUsdIndex + 1
          omega
        · simp only [List.erase_cons_head]
          exact i3
        · intro kv hkv
          have := i5 kv hkv
          show 0 ≤ kv.snd ∧ kv.snd < st.curUsdIndex + 1
          exact ⟨this.1, by omega⟩
        · intro x hx
          simp only [List.erase_cons_head]
          exact hx
        · show st.curUsdIndex ≤ st.curUsdIndex + 1
          omega
      next hcap =>
        have hu0 : 0 ≤ st.curUsdIndex := by omega
        have hult : st.curUsdIndex < (st.usdNodes.length : Int) := by omega
        have hmap := nodeMap_update_clauses g st n hinv (by simpa using htr)
        have hf := nodeMap_fresh g st n hinv (by simpa using htr)
        split at h
        next hbad =>
          simp only [Option.some.injEq, Prod.mk.injEq] at h
          obtain ⟨h1, h2⟩ := h
          subst h1
          subst h2
          obtain ⟨i1, i2, i3, i4, i5, i6, i7⟩ := hinv
          refine ⟨⟨by rw [List.length_set]; exact i1,
            by show 0 ≤ st.curUsdIndex + 1; omega, hmap.1, hmap.2.1,
            hmap.2.2.1, hmap.2.2.2, ?_⟩,
            ⟨fun x hx => List.mem_cons_of_mem _ hx,
             by show st.curUsdIndex ≤ st.curUsdIndex + 1; omega, by rw [List.length_set],
             fun kv hk => (alistSet_fresh_mem n st.curUsdIndex st.nodeMap hf kv).mpr
               (Or.inl hk),
             fun kv hk => ?_⟩,
            fun _ => alistSet_self_mem n st.curUsdIndex st.nodeMap hf⟩
          · intro u hu c hc
            by_cases hcase : u = st.curUsdIndex.toNat
            · subst hcase
              rw [List.getD_eq_getElem?_getD, List.getElem?_set_self (by omega)] at hc
              simp at hc
            · rw [List.getD_eq_getElem?_getD,
                List.getElem?_set_ne (fun he => hcase he.symm),
                ← List.getD_eq_getElem?_getD] at hc
              rw [List.length_set] at hu
              exact i7 u hu c hc
          · rcases (alistSet_fresh_mem n st.curUsdIndex st.nodeMap hf kv).mp hk with hold | hnew
            · exact Or.inl hold
            · rw [hnew]
              exact Or.inr (le_refl _)
        next hbad =>
          have hn0 : 0 ≤ n := by omega
          have hnlt : n < (g.nodes.length : Int) := by omega
          obtain ⟨i1, i2, i3, i4, i5, i6, i7⟩ := hinv
          have hinvf : travInv g (travVisitBody ext g cm
              ({ st with curUsdIndex := st.curUsdIndex + 1, traversed := n :: st.traversed })
              p n st.curUsdIndex
              (if p ≠ -1 then
                match alistFind st.nodeMap p with
                | some v => v
                | none => -1
              else -1)) := by
            refine ⟨?_, ?_, ?_, ?_, ?_, ?_, ?_⟩
            · rw [travVisitBody_usdNodes_length]
              exact i1
            · rw [travVisitBody_curUsdIndex]
              show 0 ≤ st.curUsdIndex + 1
              omega
            · rw [travVisitBody_nodeMap, travVisitBody_traversed]
              exact hmap.1
            · rw [travVisitBody_nodeMap]
              exact hmap.2.1
            · rw [travVisitBody_nodeMap, travVisitBody_curUsdIndex]
              exact hmap.2.2.1
            · rw [travVisitBody_nodeMap]
              exact hmap.2.2.2
            · intro u hu c hc
              rw [travVisitBody_usdNodes_length] at hu
              by_cases hcase : u = st.curUsdIndex.toNat
              · subst hcase
                rw [travVisitBody_children_empty ext g cm _ _ _ _ _ hu0 (by exact hult)] at hc
                simp at hc
              · rw [List.getD_eq_getElem?_getD,
                  travVisitBody_usdNodes_other ext g cm _ _ _ _ _ u
                    (fun he => hcase he),
                  ← List.getD_eq_getElem?_getD] at hc
                exact i7 u hu c hc
          have hstepf : travStep st (travVisitBody ext g cm
              ({ st with curUsdIndex := st.curUsdIndex + 1, traversed := n :: st.traversed })
              p n st.curUsdIndex
              (if p ≠ -1 then
                match alistFind st.nodeMap p with
                | some v => v
                | none => -1
              else -1)) := by
            refine ⟨?_, ?_, ?_, ?_, ?_⟩
            · intro x hx
              rw [travVisitBody_traversed]
              exact List.mem_cons_of_mem _ hx
            · rw [travVisitBody_curUsdIndex]
              show st.curUsdIndex ≤ st.curUsdIndex + 1
              omega
            · rw [travVisitBody_usdNodes_length]
            · intro kv hk
              rw [travVisitBody_nodeMap]
              exact (alistSet_fresh_mem n st.curUsdIndex st.nodeMap hf kv).mpr (Or.inl hk)
            · intro kv hk
              rw [travVisitBody_nodeMap] at hk
              rcases (alistSet_fresh_mem n st.curUsdIndex st.nodeMap hf kv).mp hk with hold | hnew
              · exact Or.inl hold
              · rw [hnew]
                exact Or.inr (le_refl _)
          split at h
          next hfold =>
            cases h
          next st2' childIdxs hfold =>
            simp only [Option.some.injEq, Prod.mk.injEq] at h
            obtain ⟨h1, h2⟩ := h
            subst h1
            subst h2
            obtain ⟨hinv2, hstep2, hbounds⟩ := travFold_inv g
              (fun s c => travNode ext g cm fuel s n c)
              (fun s c s2 rr hh hinvS => ih s n c s2 rr hh hinvS)
              _ hinvf.2.2.1 _ _ _ _ hfold hinvf (travStep_refl _)
              (fun c hc => by
                have := List.mem_filter.mp hc
                have hp := this.2
                simp only [decide_eq_true_eq] at hp
                exact Bool.eq_false_iff.mpr (fun hcon => hp.1 hcon))
            have hlen2 : st2'.usdNodes.length = st.usdNodes.length := by
              rw [hstep2.2.2.1, travVisitBody_usdNodes_length]
            have hcur2 : st.curUsdIndex + 1 ≤ st2'.curUsdIndex := by
              have := hstep2.2.1
              rw [travVisitBody_curUsdIndex] at this
              exact this
            refine ⟨⟨by rw [List.length_set]; exact hlen2 ▸ i1, ?_, hinv2.2.2.1,
              hinv2.2.2.2.1, hinv2.2.2.2.2.1, hinv2.2.2.2.2.2.1, ?_⟩,
              ?_, ?_⟩
            · show 0 ≤ st2'.curUsdIndex
              exact hinv2.2.1
            · intro u hu c hc
              rw [List.length_set] at hu
              by_cases hcase : u = st.curUsdIndex.toNat
              · subst hcase
                rw [List.getD_eq_getElem?_getD,
                  List.getElem?_set_self (by omega)] at hc
                simp only [Option.getD_some] at hc
                have hb := hbounds c hc
                have hcge : st.curUsdIndex + 1 ≤ c := by
                  have h1 := hb.1
                  rw [travVisitBody_curUsdIndex] at h1
                  exact h1
                have hcast : ((st.curUsdIndex.toNat : Nat) : Int) = st.curUsdIndex :=
                  Int.toNat_of_nonneg hu0
                omega
              · rw [List.getD_eq_getElem?_getD,
                  List.getElem?_set_ne (fun he => hcase he.symm),
                  ← List.getD_eq_getElem?_getD] at hc
                exact hinv2.2.2.2.2.2.2 u hu c hc
            · refine travStep_trans hstepf (travStep_trans hstep2
                ⟨fun x hx => hx, le_refl _, by rw [List.length_set], fun kv hk => hk,
                 fun kv hk => Or.inl hk⟩)
            · intro _
              show (n, st.curUsdIndex) ∈ st2'.nodeMap
              refine hstep2.2.2.2.1 (n, st.curUsdIndex) ?_
              rw [travVisitBody_nodeMap]
              exact alistSet_self_mem n st.curUsdIndex st.nodeMap hf

theorem travRoots_inv (ext : ExtM) (g : GModel) (cm : List (List Int))
    (init : TravState) (hinv : travInv g init) :
    ∃ st roots, travRoots ext g cm (g.nodes.length + 1) init = some (st, roots) ∧
      travInv g st := by
  unfold travRoots
  refine foldl_preserves
    (fun acc : Option (TravState × List Int) =>
      ∃ st roots, acc = some (st, roots) ∧ travInv g st)
    _ _ _ ?_ ⟨init, [], rfl, hinv⟩
  intro acc scene hP
  refine foldl_preserves
    (fun acc : Option (TravState × List Int) =>
      ∃ st roots, acc = some (st, roots) ∧ travInv g st)
    _ _ _ ?_ hP
  intro acc2 rootIdx hP2
  obtain ⟨st, roots, rfl, hinvst⟩ := hP2
  dsimp only
  obtain ⟨st2, r, hsome⟩ := travNode_terminates ext g cm (g.nodes.length + 1) st (-1) rootIdx
    (lt_of_le_of_lt (travMeasure_le g st) (Nat.lt_succ_self _))
  rw [hsome]
  exact ⟨st2, _, rfl,
    (travNode_inv ext g cm (g.nodes.length + 1) st (-1) rootIdx st2 r hsome hinvst).1⟩

theorem travInit_inv (g : GModel) (ctx : Ctx) (hmap : ctx.nodeMap = []) :
    travInv g (travInit g ctx) := by
  refine ⟨by simp [travInit], by simp [travInit], ?_, ?_, ?_, ?_, ?_⟩
  · intro kv hkv
    simp [travInit, hmap] at hkv
  · simp [travInit, hmap]
  · intro kv hkv
    simp [travInit, hmap] at hkv
  · simp [travInit, hmap]
  · intro u hu c hc
    have he : (travInit g ctx).usdNodes = List.replicate g.nodes.length ({} : UNode) := rfl
    rw [he] at hu hc
    rw [List.getD_eq_getElem?_getD, List.getElem?_replicate] at hc
    rw [List.length_replicate] at hu
    rw [if_pos hu] at hc
    simp at hc

/-- C3: The node traversal never recurses into a node already in the
traversedNodes set, so each node is visited at most once, each visited
node receives a fresh, duplicate-free destination slot, and every
rebuilt child reference points to a strictly larger slot: back-edges of
a cyclic source graph are excluded, and the traversal of every scene
root terminates with the destination array intact. -/
theorem C3_cycle_safe_traversal (ext : ExtM) (g : GModel) (cm : List (List Int))
    (ctx : Ctx) (hmap : ctx.nodeMap = []) :
    ∃ st roots,
      travRoots ext g cm (g.nodes.length + 1) (travInit g ctx) = some (st, roots) ∧
      st.usdNodes.length = g.nodes.length ∧
      (st.nodeMap.map Prod.fst).Nodup ∧
      (st.nodeMap.map Prod.snd).Nodup ∧
      (∀ u : Nat, u < st.usdNodes.length →
        ∀ c ∈ (st.usdNodes.getD u ({} : UNode)).children, (u : Int) < c) := by
  obtain ⟨st, roots, hsome, hinvst⟩ :=
    travRoots_inv ext g cm (travInit g ctx) (travInit_inv g ctx hmap)
  exact ⟨st, roots, hsome, hinvst.1, hinvst.2.2.2.1, hinvst.2.2.2.2.2.1,
    hinvst.2.2.2.2.2.2⟩

theorem C3_cycle_safe_traversal_witness :
    (({} : Ctx).nodeMap = []) ∧
    (travRoots extDefault cycModel [] (cycModel.nodes.length + 1)
        (travInit cycModel {})).isSome = true ∧
    ∃ st roots,
      travRoots extDefault cycModel [] (cycModel.nodes.length + 1)
          (travInit cycModel {}) = some (st, roots) ∧
      st.usdNodes.length = cycModel.nodes.length ∧
      (st.nodeMap.map Prod.fst).Nodup ∧
      (st.nodeMap.map Prod.snd).Nodup ∧
      (∀ u : Nat, u < st.usdNodes.length →
        ∀ c ∈ (st.usdNodes.getD u ({} : UNode)).children, (u : Int) < c) :=
  ⟨rfl, by with_unfolding_all decide, C3_cycle_safe_traversal extDefault cycModel [] {} rfl⟩
